import Mathlib

/-!
# ovpm REST gateway: a shallow embedding

The generated reverse-proxy code of `api/pb/network.pb.gw.go` (NetworkService,
local and remote dispatch) and `pb/vpn.pb.gw.go` (VPNService, remote dispatch
only) is embedded function by function.  Go's multiple return values become
tuples, a Go `error` that may be `nil` becomes `Option Error`, and the effects of
a handler (RPC invocations, the error writer, the response forwarder, the
deferred cancel) are recorded in order in the `trace` of an explicit `State`.

Collaborators that live outside the repository (the marshaler, the client stub,
the service implementation, the mux's header annotation) are parameters.
-/

namespace Ovpm

/-! ## Errors and status codes -/

/-- The numeric gRPC status code `codes.InvalidArgument`. -/
def codes.InvalidArgument : Nat := 3

/-- The name a gRPC status code prints as (`codes.Code.String`). -/
def codes.String (c : Nat) : String :=
  match c with
  | 0 => "OK"
  | 1 => "Canceled"
  | 2 => "Unknown"
  | 3 => "InvalidArgument"
  | 4 => "DeadlineExceeded"
  | 5 => "NotFound"
  | 6 => "AlreadyExists"
  | 7 => "PermissionDenied"
  | 8 => "ResourceExhausted"
  | 9 => "FailedPrecondition"
  | 10 => "Aborted"
  | 11 => "OutOfRange"
  | 12 => "Unimplemented"
  | 13 => "Internal"
  | 14 => "Unavailable"
  | 15 => "DataLoss"
  | 16 => "Unauthenticated"
  | n => "Code(" ++ toString n ++ ")"

/-- A non-nil Go `error` value.  `EOF` is the sentinel `io.EOF` (compared by
identity in the source), `errorString` is any other plain error with its text,
and `status` is a gRPC status error with its code and message. -/
inductive Error
  | EOF
  | errorString (text : String)
  | status (code : Nat) (message : String)
deriving DecidableEq, Repr

/-- The text of an error, Go's `err.Error()`, which is also what `%v` prints. -/
def Error.text : Error → String
  | .EOF => "EOF"
  | .errorString text => text
  | .status code message => "rpc error: code = " ++ codes.String code ++ " desc = " ++ message

/-- What the verb `%v` prints for an `error` value: its text, or `<nil>`. -/
def fmt.v : Option Error → String
  | some e => e.text
  | none => "<nil>"

/-- The call `status.Errorf(c, "%v", err)`: a status error of code `c` whose
message is what `%v` prints for `err`. -/
def status.Errorf (c : Nat) (err : Option Error) : Error :=
  .status c (fmt.v err)

/-! ## Metadata -/

/-- A gRPC `metadata.MD`, a map from a key to one or more values.  It is kept as
the list of its (key, values) entries; the values of a key are the values of all
its entries, in order. -/
abbrev MD := List (String × List String)

/-- The values stored under a key. -/
def MD.Get (md : MD) (k : String) : List String :=
  (md.filter (fun e => e.1 == k)).flatMap (fun e => e.2)

/-- The library function `metadata.Join`: for every key, the values of the first
map followed by the values of the second. -/
def metadata.Join (a b : MD) : MD := a ++ b

/-- The record `runtime.ServerMetadata`; its zero value has both maps empty. -/
structure ServerMetadata where
  HeaderMD : MD := []
  TrailerMD : MD := []
deriving DecidableEq, Repr

/-- The record `runtime.ServerTransportStream`: the header and trailer metadata a
local service implementation has set during the call. -/
structure ServerTransportStream where
  header : MD := []
  trailer : MD := []
deriving DecidableEq, Repr

/-- The method `stream.Header()`. -/
def ServerTransportStream.Header (s : ServerTransportStream) : MD := s.header

/-- The method `stream.Trailer()`. -/
def ServerTransportStream.Trailer (s : ServerTransportStream) : MD := s.trailer

/-! ## Contexts -/

/-- A `context.Context`, kept as the chain of derivations that produced it, so
that what a context is derived from can be read off. -/
inductive Context
  | root (name : String)
  | WithCancel (parent : Context)
  | WithTimeout (parent : Context) (timeout : Nat)
  | NewContextWithServerTransportStream (parent : Context)
  | NewOutgoingContext (parent : Context) (md : MD)
  | NewIncomingContext (parent : Context) (md : MD)
  | NewServerMetadataContext (parent : Context) (md : ServerMetadata)
deriving DecidableEq, Repr

/-- Whether a transport stream can be reached from the context
(`grpc.ServerTransportStreamFromContext`). -/
def Context.carriesStream : Context → Bool
  | .root _ => false
  | .WithCancel p => p.carriesStream
  | .WithTimeout p _ => p.carriesStream
  | .NewContextWithServerTransportStream _ => true
  | .NewOutgoingContext p _ => p.carriesStream
  | .NewIncomingContext p _ => p.carriesStream
  | .NewServerMetadataContext p _ => p.carriesStream

/-! ## Messages -/

/-- The request message types of the two services. -/
inductive MessageType
  | NetworkCreateRequest
  | NetworkListRequest
  | NetworkDeleteRequest
  | NetworkGetAllTypesRequest
  | NetworkGetAssociatedUsersRequest
  | NetworkAssociateRequest
  | NetworkDissociateRequest
  | VPNStatusRequest
  | VPNInitRequest
  | VPNUpdateRequest
  | response (name : String)
deriving DecidableEq, Repr

/-- Modelled from the spec: the message types are declared in `network.pb.go` and
`vpn.pb.go`, which are not among the sources; the spec (section 3) describes them
as per-method plain data records with named, typed fields.  A message is its Go
type together with the fields that have been set. -/
structure ProtoMessage where
  type : MessageType
  fields : List (String × String) := []
deriving DecidableEq, Repr

/-- The zero value of a message type, Go's `var protoReq T`. -/
def MessageType.zero (t : MessageType) : ProtoMessage := { type := t, fields := [] }

/-! ## The HTTP request and the marshaler -/

/-- An `io.Reader`: the bytes it delivers and the error that ends the stream
(`none` when it ends with a clean end of input). -/
structure Reader where
  data : List Nat := []
  err : Option Error := none
deriving DecidableEq, Repr

/-- The parsed form values of a request, `url.Values`. -/
abbrev Form := List (String × List String)

/-- The parts of `*http.Request` the gateway looks at: the request's own context,
the method, the raw query of the URL (`req.URL.RawQuery`), the headers and the
body.  The request is taken as it arrives, before anything has parsed its
form. -/
structure Request where
  Context : Context := .root "request"
  Method : String := "GET"
  RawQuery : String := ""
  Body : Reader := {}
  Header : MD := []
deriving DecidableEq, Repr

/-- The path parameters extracted by the pattern matcher. -/
abbrev PathParams := List (String × String)

/-- A `runtime.Decoder`: `Decode(&v)` may write to the message it is given and
returns an error or `nil`. -/
structure Decoder where
  Decode : ProtoMessage → ProtoMessage × Option Error

/-- A `runtime.Marshaler`, of which the request functions use `NewDecoder`. -/
structure Marshaler where
  NewDecoder : Reader → Decoder

/-- The library function `utilities.IOReaderFactory`: it reads the whole reader
and fails with the read error, or returns a factory of fresh readers over the
bytes that were read. -/
def utilities.IOReaderFactory (r : Reader) : Except Error Reader :=
  match r.err with
  | none => .ok { data := r.data, err := none }
  | some .EOF => .ok { data := r.data, err := none }
  | some e => .error e

/-! ## The query-parameter binder -/

/-- The record `utilities.DoubleArray`, the per-method exclusion filter of the
query-parameter binder. -/
structure DoubleArray where
  Encoding : List (String × Nat) := []
  Base : List Nat := []
  Check : List Nat := []
deriving DecidableEq, Repr

/-- The loop of `DoubleArray.HasCommonPrefix`: follow the tokens of the sequence
through the array, starting from state `i`, until one of them leaves it
(`da.Check[j] != i+1`). -/
def DoubleArray.walk (da : DoubleArray) : List String → Nat → Nat
  | [], i => i
  | t :: seq, i =>
    match da.Encoding.lookup t with
    | none => i
    | some code =>
      let j := da.Base.getD i 0 + code
      if da.Check.length ≤ j ∨ da.Check.getD j 0 ≠ i + 1 then i else da.walk seq j

/-- The library method `DoubleArray.HasCommonPrefix`: whether a field path has a
prefix among the paths the filter excludes.  It answers no at once when `Base`
is empty; otherwise the state the loop ends in is tested at
`j := da.Base[i] + len(da.Encoding)` with `da.Check[j] == i+1`. -/
def DoubleArray.HasCommonPrefix (da : DoubleArray) (seq : List String) : Bool :=
  if da.Base.length = 0 then false
  else
    let i := da.walk seq 0
    let j := da.Base.getD i 0 + da.Encoding.length
    decide (da.Check.length > j ∧ da.Check.getD j 0 = i + 1)

/-- The loop of `strings.Split` for a one-character separator: `cur` holds the
characters of the current piece, last first. -/
def strings.Split.go (sep : Char) : List Char → List Char → List String
  | [], cur => [String.mk cur.reverse]
  | c :: cs, cur =>
    if c = sep then String.mk cur.reverse :: strings.Split.go sep cs []
    else strings.Split.go sep cs (c :: cur)

/-- The library function `strings.Split` for a one-character separator. -/
def strings.Split (s : String) (sep : Char) : List String :=
  strings.Split.go sep s.data []

/-- The characters before the first occurrence of `c` and the characters after
it, or nothing when `c` does not occur. -/
def splitAtFirst (c : Char) : List Char → Option (List Char × List Char)
  | [] => none
  | x :: xs =>
    if x = c then some ([], xs)
    else
      match splitAtFirst c xs with
      | some (a, b) => some (x :: a, b)
      | none => none

/-- The call `valuesKeyRegexp.FindStringSubmatch(key)` of the gateway runtime,
whose expression is `^(.*)\[(.*)\]$`: a key without a line feed that ends in `]`
and has a `[` before it matches, and the two groups are what stands before the
last `[` (the first group is greedy) and what stands between it and the closing
`]`.  The answer is the pair `(match[1], match[2])`.  The key is read from its
end: `rest` is the key without its last character, last character first. -/
def valuesKeyRegexp.FindStringSubmatch (key : String) : Option (String × String) :=
  if Char.ofNat 10 ∈ key.data then none
  else
    match key.data.reverse with
    | [] => none
    | c :: rest =>
      if c = ']' then
        match splitAtFirst '[' rest with
        | some (sub, k) => some (String.mk k.reverse, String.mk sub.reverse)
        | none => none
      else none

/-- The library code outside the repository that binding a query runs, as
parameters.  `populateFieldValueFromPath(msg, fieldPath, values)` of the gateway
runtime writes one form entry to the message and returns an error or `nil`; it
depends on the declared fields of the message types.  `ParseQuery` is
`url.ParseQuery`, and `parsePostForm` is the function of that name in
`net/http`, which is given the headers and the body of a request and parses the
body when the content type is `application/x-www-form-urlencoded`.  `rangeOrder`
is the order in which Go's `range` visits the entries of a map, which the
language leaves open: any rearrangement of the entries is allowed. -/
structure Runtime where
  populateFieldValueFromPath : ProtoMessage → List String → List String → ProtoMessage × Option Error
  ParseQuery : String → Form × Option Error := fun _ => ([], none)
  parsePostForm : MD → Reader → Form × Option Error := fun _ _ => ([], none)
  rangeOrder : Form → Form := id

/-- The assignment `dst[k] = append(dst[k], vs...)` on a map kept as the list of
its entries. -/
def url.Values.append (dst : Form) (k : String) (vs : List String) : Form :=
  match dst with
  | [] => [(k, vs)]
  | (k2, vs2) :: rest =>
    if k2 = k then (k2, vs2 ++ vs) :: rest else (k2, vs2) :: url.Values.append rest k vs

/-- The function `copyValues(dst, src)` of `net/http`: the values of every key of
`src` are appended to the values `dst` has for the key. -/
def copyValues (dst src : Form) : Form :=
  src.foldl (fun dst e => url.Values.append dst e.1 e.2) dst

/-- The method `req.ParseForm()` of `net/http` on a request whose form has not
been parsed before, as the value of `req.Form` afterwards and the error it
returned.  The body is handed to `parsePostForm` for the methods POST, PUT and
PATCH only; the raw query is always parsed; the values of the body come first,
and the first error is the one returned. -/
def Request.ParseForm (r : Request) (rt : Runtime) : Form × Option Error :=
  let post : Form × Option Error :=
    if r.Method = "POST" ∨ r.Method = "PUT" ∨ r.Method = "PATCH" then
      rt.parsePostForm r.Header r.Body
    else ([], none)
  let query := rt.ParseQuery r.RawQuery
  let err := match post.2 with
    | none => query.2
    | some e => some e
  if post.1.length > 0 then (copyValues (copyValues [] post.1) query.1, err)
  else (query.1, err)

/-- The loop of the default query parser of the gateway runtime over the entries
of the form: a key of the shape `k[sub]` is replaced by `k` and `sub` is put in
front of its values, the key is split at the dots into the field path, an entry
whose field path the filter excludes is skipped, every other entry is written
to the message, and the first error stops the loop. -/
def runtime.PopulateQueryParameters.loop (rt : Runtime) (msg : ProtoMessage) (entries : Form)
    (filter : DoubleArray) : ProtoMessage × Option Error :=
  match entries with
  | [] => (msg, none)
  | (key, values) :: rest =>
    let kv : String × List String :=
      match valuesKeyRegexp.FindStringSubmatch key with
      | some (k, sub) => (k, sub :: values)
      | none => (key, values)
    let fieldPath := strings.Split kv.1 '.'
    if filter.HasCommonPrefix fieldPath then
      runtime.PopulateQueryParameters.loop rt msg rest filter
    else
      match rt.populateFieldValueFromPath msg fieldPath kv.2 with
      | (msg, some err) => (msg, some err)
      | (msg, none) => runtime.PopulateQueryParameters.loop rt msg rest filter

/-- The library function `runtime.PopulateQueryParameters`: the loop above over
the entries of `values` in the order `range` visits them. -/
def runtime.PopulateQueryParameters (rt : Runtime) (msg : ProtoMessage) (values : Form)
    (filter : DoubleArray) : ProtoMessage × Option Error :=
  runtime.PopulateQueryParameters.loop rt msg (rt.rangeOrder values) filter

/-! ## Calls, events and the state -/

/-- The two metadata fields of the `metadata` variable of a request function,
to which a call option may point. -/
inductive MDSlot
  | HeaderMD
  | TrailerMD
deriving DecidableEq, Repr

/-- A `grpc.CallOption`: capture the header, or the trailer, of the call into the
metadata field it points to. -/
inductive CallOption
  | Header (p : MDSlot)
  | Trailer (p : MDSlot)
deriving DecidableEq, Repr

/-- The call option `grpc.Header(p)`. -/
def grpc.Header (p : MDSlot) : CallOption := .Header p

/-- The call option `grpc.Trailer(p)`. -/
def grpc.Trailer (p : MDSlot) : CallOption := .Trailer p

/-- What a client stub answers: the message and error it returns, and the header
and trailer metadata the call received. -/
structure ClientReply where
  msg : Option ProtoMessage := none
  err : Option Error := none
  header : MD := []
  trailer : MD := []
deriving DecidableEq, Repr

/-- What a service implementation answers: the message and error it returns, and
the header and trailer metadata it set on its context with `grpc.SetHeader` and
`grpc.SetTrailer`. -/
structure ServerReply where
  msg : Option ProtoMessage := none
  err : Option Error := none
  header : MD := []
  trailer : MD := []
deriving DecidableEq, Repr

/-- A method of a client stub. -/
abbrev ClientMethod := Context → ProtoMessage → List CallOption → ClientReply

/-- A method of a service implementation. -/
abbrev ServerMethod := Context → ProtoMessage → ServerReply

/-- Assignment through a pointer to one of the metadata fields. -/
def ServerMetadata.store (metadata : ServerMetadata) (p : MDSlot) (md : MD) : ServerMetadata :=
  match p with
  | .HeaderMD => { metadata with HeaderMD := md }
  | .TrailerMD => { metadata with TrailerMD := md }

/-- What the client stores through one call option when the call returns. -/
def CallOption.capture (o : CallOption) (r : ClientReply) (metadata : ServerMetadata) :
    ServerMetadata :=
  match o with
  | .Header p => metadata.store p r.header
  | .Trailer p => metadata.store p r.trailer

/-- An observable action of the gateway, in the order the trace lists them. -/
inductive Event
  | clientCall (method : String) (ctx : Context) (req : ProtoMessage) (opts : List CallOption)
  | serverCall (method : String) (ctx : Context) (req : ProtoMessage)
  | HTTPError (ctx : Context) (err : Error)
  | ForwardResponseMessage (ctx : Context) (resp : Option ProtoMessage)
  | cancel (ctx : Context)
deriving DecidableEq, Repr

/-- The state the gateway code runs in: the actions performed so far and the
transport stream variable of the running local-mode handler. -/
structure State where
  trace : List Event := []
  stream : ServerTransportStream := {}
deriving DecidableEq, Repr

/-- A remote call `client.M(ctx, &protoReq, opts...)`: the invocation is recorded,
the stub answers, and what it captured is stored through the call options. -/
def grpc.invoke (method : String) (f : ClientMethod) (ctx : Context) (protoReq : ProtoMessage)
    (opts : List CallOption) (metadata : ServerMetadata) (s : State) :
    (Option ProtoMessage × Option Error) × ServerMetadata × State :=
  let r := f ctx protoReq opts
  ((r.msg, r.err), opts.foldl (fun md o => o.capture r md) metadata,
    { s with trace := s.trace ++ [.clientCall method ctx protoReq opts] })

/-- A local call `server.M(ctx, &protoReq)`: the invocation is recorded, the
implementation answers, and the metadata it set is joined into the transport
stream when its context carries one. -/
def grpc.serve (method : String) (f : ServerMethod) (ctx : Context) (protoReq : ProtoMessage)
    (s : State) : (Option ProtoMessage × Option Error) × State :=
  let r := f ctx protoReq
  ((r.msg, r.err),
    { trace := s.trace ++ [.serverCall method ctx protoReq]
      stream :=
        if ctx.carriesStream then
          { header := metadata.Join s.stream.header r.header
            trailer := metadata.Join s.stream.trailer r.trailer }
        else s.stream })

/-- The interface `NetworkServiceClient`. -/
structure NetworkServiceClient where
  Create : ClientMethod
  List : ClientMethod
  Delete : ClientMethod
  GetAllTypes : ClientMethod
  GetAssociatedUsers : ClientMethod
  Associate : ClientMethod
  Dissociate : ClientMethod

/-- The interface `NetworkServiceServer`. -/
structure NetworkServiceServer where
  Create : ServerMethod
  List : ServerMethod
  Delete : ServerMethod
  GetAllTypes : ServerMethod
  GetAssociatedUsers : ServerMethod
  Associate : ServerMethod
  Dissociate : ServerMethod

/-- The interface `VPNServiceClient`. -/
structure VPNServiceClient where
  Status : ClientMethod
  Init : ClientMethod
  Update : ClientMethod

/-- What a request function returns: the message, the server metadata and the
error. -/
abbrev Ret := Option ProtoMessage × ServerMetadata × Option Error

set_option linter.unusedVariables false

/-! ## The request functions of NetworkService (api/pb/network.pb.gw.go) -/

/-- The function `request_NetworkService_Create_0` (network.pb.gw.go, line 36). -/
def request_NetworkService_Create_0 (ctx : Context) (marshaler : Marshaler)
    (client : NetworkServiceClient) (req : Request) (pathParams : PathParams) (s : State) :
    Ret × State :=
  let protoReq := MessageType.NetworkCreateRequest.zero
  let metadata : ServerMetadata := {}
  match utilities.IOReaderFactory req.Body with
  | .error berr => ((none, metadata, some (status.Errorf codes.InvalidArgument (some berr))), s)
  | .ok newReader =>
    match (marshaler.NewDecoder newReader).Decode protoReq with
    | (protoReq, err) =>
      if err ≠ none ∧ err ≠ some Error.EOF then
        ((none, metadata, some (status.Errorf codes.InvalidArgument err)), s)
      else
        let ((msg, err), metadata, s) := grpc.invoke "NetworkService.Create" client.Create ctx protoReq
          [grpc.Header .HeaderMD, grpc.Trailer .TrailerMD] metadata s
        ((msg, metadata, err), s)

/-- The function `local_request_NetworkService_Create_0` (network.pb.gw.go, line 53). -/
def local_request_NetworkService_Create_0 (ctx : Context) (marshaler : Marshaler)
    (server : NetworkServiceServer) (req : Request) (pathParams : PathParams) (s : State) :
    Ret × State :=
  let protoReq := MessageType.NetworkCreateRequest.zero
  let metadata : ServerMetadata := {}
  match utilities.IOReaderFactory req.Body with
  | .error berr => ((none, metadata, some (status.Errorf codes.InvalidArgument (some berr))), s)
  | .ok newReader =>
    match (marshaler.NewDecoder newReader).Decode protoReq with
    | (protoReq, err) =>
      if err ≠ none ∧ err ≠ some Error.EOF then
        ((none, metadata, some (status.Errorf codes.InvalidArgument err)), s)
      else
        let ((msg, err), s) := grpc.serve "NetworkService.Create" server.Create ctx protoReq s
        ((msg, metadata, err), s)

/-- The function `request_NetworkService_List_0` (network.pb.gw.go, line 70). -/
def request_NetworkService_List_0 (ctx : Context) (marshaler : Marshaler)
    (client : NetworkServiceClient) (req : Request) (pathParams : PathParams) (s : State) :
    Ret × State :=
  let protoReq := MessageType.NetworkListRequest.zero
  let metadata : ServerMetadata := {}
  let ((msg, err), metadata, s) := grpc.invoke "NetworkService.List" client.List ctx protoReq
    [grpc.Header .HeaderMD, grpc.Trailer .TrailerMD] metadata s
  ((msg, metadata, err), s)

/-- The function `local_request_NetworkService_List_0` (network.pb.gw.go, line 79). -/
def local_request_NetworkService_List_0 (ctx : Context) (marshaler : Marshaler)
    (server : NetworkServiceServer) (req : Request) (pathParams : PathParams) (s : State) :
    Ret × State :=
  let protoReq := MessageType.NetworkListRequest.zero
  let metadata : ServerMetadata := {}
  let ((msg, err), s) := grpc.serve "NetworkService.List" server.List ctx protoReq s
  ((msg, metadata, err), s)

/-- The function `request_NetworkService_Delete_0` (network.pb.gw.go, line 88). -/
def request_NetworkService_Delete_0 (ctx : Context) (marshaler : Marshaler)
    (client : NetworkServiceClient) (req : Request) (pathParams : PathParams) (s : State) :
    Ret × State :=
  let protoReq := MessageType.NetworkDeleteRequest.zero
  let metadata : ServerMetadata := {}
  match utilities.IOReaderFactory req.Body with
  | .error berr => ((none, metadata, some (status.Errorf codes.InvalidArgument (some berr))), s)
  | .ok newReader =>
    match (marshaler.NewDecoder newReader).Decode protoReq with
    | (protoReq, err) =>
      if err ≠ none ∧ err ≠ some Error.EOF then
        ((none, metadata, some (status.Errorf codes.InvalidArgument err)), s)
      else
        let ((msg, err), metadata, s) := grpc.invoke "NetworkService.Delete" client.Delete ctx protoReq
          [grpc.Header .HeaderMD, grpc.Trailer .TrailerMD] metadata s
        ((msg, metadata, err), s)

/-- The function `local_request_NetworkService_Delete_0` (network.pb.gw.go, line 105). -/
def local_request_NetworkService_Delete_0 (ctx : Context) (marshaler : Marshaler)
    (server : NetworkServiceServer) (req : Request) (pathParams : PathParams) (s : State) :
    Ret × State :=
  let protoReq := MessageType.NetworkDeleteRequest.zero
  let metadata : ServerMetadata := {}
  match utilities.IOReaderFactory req.Body with
  | .error berr => ((none, metadata, some (status.Errorf codes.InvalidArgument (some berr))), s)
  | .ok newReader =>
    match (marshaler.NewDecoder newReader).Decode protoReq with
    | (protoReq, err) =>
      if err ≠ none ∧ err ≠ some Error.EOF then
        ((none, metadata, some (status.Errorf codes.InvalidArgument err)), s)
      else
        let ((msg, err), s) := grpc.serve "NetworkService.Delete" server.Delete ctx protoReq s
        ((msg, metadata, err), s)

/-- The function `request_NetworkService_GetAllTypes_0` (network.pb.gw.go, line 122). -/
def request_NetworkService_GetAllTypes_0 (ctx : Context) (marshaler : Marshaler)
    (client : NetworkServiceClient) (req : Request) (pathParams : PathParams) (s : State) :
    Ret × State :=
  let protoReq := MessageType.NetworkGetAllTypesRequest.zero
  let metadata : ServerMetadata := {}
  let ((msg, err), metadata, s) := grpc.invoke "NetworkService.GetAllTypes" client.GetAllTypes ctx protoReq
    [grpc.Header .HeaderMD, grpc.Trailer .TrailerMD] metadata s
  ((msg, metadata, err), s)

/-- The function `local_request_NetworkService_GetAllTypes_0` (network.pb.gw.go, line 131). -/
def local_request_NetworkService_GetAllTypes_0 (ctx : Context) (marshaler : Marshaler)
    (server : NetworkServiceServer) (req : Request) (pathParams : PathParams) (s : State) :
    Ret × State :=
  let protoReq := MessageType.NetworkGetAllTypesRequest.zero
  let metadata : ServerMetadata := {}
  let ((msg, err), s) := grpc.serve "NetworkService.GetAllTypes" server.GetAllTypes ctx protoReq s
  ((msg, metadata, err), s)

/-- The variable `filter_NetworkService_GetAssociatedUsers_0` (network.pb.gw.go,
line 141): a filter with an empty encoding and no `Base` and `Check` arrays. -/
def filter_NetworkService_GetAssociatedUsers_0 : DoubleArray :=
  { Encoding := [], Base := [], Check := [] }

/-- The function `request_NetworkService_GetAssociatedUsers_0` (network.pb.gw.go, line 144). -/
def request_NetworkService_GetAssociatedUsers_0 (rt : Runtime) (ctx : Context) (marshaler : Marshaler)
    (client : NetworkServiceClient) (req : Request) (pathParams : PathParams) (s : State) :
    Ret × State :=
  let protoReq := MessageType.NetworkGetAssociatedUsersRequest.zero
  let metadata : ServerMetadata := {}
  match req.ParseForm rt with
  | (_, some err) => ((none, metadata, some (status.Errorf codes.InvalidArgument (some err))), s)
  | (form, none) =>
    match runtime.PopulateQueryParameters rt protoReq form filter_NetworkService_GetAssociatedUsers_0 with
    | (_, some err) => ((none, metadata, some (status.Errorf codes.InvalidArgument (some err))), s)
    | (protoReq, none) =>
      let ((msg, err), metadata, s) := grpc.invoke "NetworkService.GetAssociatedUsers" client.GetAssociatedUsers ctx protoReq
        [grpc.Header .HeaderMD, grpc.Trailer .TrailerMD] metadata s
      ((msg, metadata, err), s)

/-- The function `local_request_NetworkService_GetAssociatedUsers_0` (network.pb.gw.go, line 160). -/
def local_request_NetworkService_GetAssociatedUsers_0 (rt : Runtime) (ctx : Context) (marshaler : Marshaler)
    (server : NetworkServiceServer) (req : Request) (pathParams : PathParams) (s : State) :
    Ret × State :=
  let protoReq := MessageType.NetworkGetAssociatedUsersRequest.zero
  let metadata : ServerMetadata := {}
  match req.ParseForm rt with
  | (_, some err) => ((none, metadata, some (status.Errorf codes.InvalidArgument (some err))), s)
  | (form, none) =>
    match runtime.PopulateQueryParameters rt protoReq form filter_NetworkService_GetAssociatedUsers_0 with
    | (_, some err) => ((none, metadata, some (status.Errorf codes.InvalidArgument (some err))), s)
    | (protoReq, none) =>
      let ((msg, err), s) := grpc.serve "NetworkService.GetAssociatedUsers" server.GetAssociatedUsers ctx protoReq s
      ((msg, metadata, err), s)

/-- The function `request_NetworkService_Associate_0` (network.pb.gw.go, line 176). -/
def request_NetworkService_Associate_0 (ctx : Context) (marshaler : Marshaler)
    (client : NetworkServiceClient) (req : Request) (pathParams : PathParams) (s : State) :
    Ret × State :=
  let protoReq := MessageType.NetworkAssociateRequest.zero
  let metadata : ServerMetadata := {}
  match utilities.IOReaderFactory req.Body with
  | .error berr => ((none, metadata, some (status.Errorf codes.InvalidArgument (some berr))), s)
  | .ok newReader =>
    match (marshaler.NewDecoder newReader).Decode protoReq with
    | (protoReq, err) =>
      if err ≠ none ∧ err ≠ some Error.EOF then
        ((none, metadata, some (status.Errorf codes.InvalidArgument err)), s)
      else
        let ((msg, err), metadata, s) := grpc.invoke "NetworkService.Associate" client.Associate ctx protoReq
          [grpc.Header .HeaderMD, grpc.Trailer .TrailerMD] metadata s
        ((msg, metadata, err), s)

/-- The function `local_request_NetworkService_Associate_0` (network.pb.gw.go, line 193). -/
def local_request_NetworkService_Associate_0 (ctx : Context) (marshaler : Marshaler)
    (server : NetworkServiceServer) (req : Request) (pathParams : PathParams) (s : State) :
    Ret × State :=
  let protoReq := MessageType.NetworkAssociateRequest.zero
  let metadata : ServerMetadata := {}
  match utilities.IOReaderFactory req.Body with
  | .error berr => ((none, metadata, some (status.Errorf codes.InvalidArgument (some berr))), s)
  | .ok newReader =>
    match (marshaler.NewDecoder newReader).Decode protoReq with
    | (protoReq, err) =>
      if err ≠ none ∧ err ≠ some Error.EOF then
        ((none, metadata, some (status.Errorf codes.InvalidArgument err)), s)
      else
        let ((msg, err), s) := grpc.serve "NetworkService.Associate" server.Associate ctx protoReq s
        ((msg, metadata, err), s)

/-- The function `request_NetworkService_Dissociate_0` (network.pb.gw.go, line 210). -/
def request_NetworkService_Dissociate_0 (ctx : Context) (marshaler : Marshaler)
    (client : NetworkServiceClient) (req : Request) (pathParams : PathParams) (s : State) :
    Ret × State :=
  let protoReq := MessageType.NetworkDissociateRequest.zero
  let metadata : ServerMetadata := {}
  match utilities.IOReaderFactory req.Body with
  | .error berr => ((none, metadata, some (status.Errorf codes.InvalidArgument (some berr))), s)
  | .ok newReader =>
    match (marshaler.NewDecoder newReader).Decode protoReq with
    | (protoReq, err) =>
      if err ≠ none ∧ err ≠ some Error.EOF then
        ((none, metadata, some (status.Errorf codes.InvalidArgument err)), s)
      else
        let ((msg, err), metadata, s) := grpc.invoke "NetworkService.Dissociate" client.Dissociate ctx protoReq
          [grpc.Header .HeaderMD, grpc.Trailer .TrailerMD] metadata s
        ((msg, metadata, err), s)

/-- The function `local_request_NetworkService_Dissociate_0` (network.pb.gw.go, line 227). -/
def local_request_NetworkService_Dissociate_0 (ctx : Context) (marshaler : Marshaler)
    (server : NetworkServiceServer) (req : Request) (pathParams : PathParams) (s : State) :
    Ret × State :=
  let protoReq := MessageType.NetworkDissociateRequest.zero
  let metadata : ServerMetadata := {}
  match utilities.IOReaderFactory req.Body with
  | .error berr => ((none, metadata, some (status.Errorf codes.InvalidArgument (some berr))), s)
  | .ok newReader =>
    match (marshaler.NewDecoder newReader).Decode protoReq with
    | (protoReq, err) =>
      if err ≠ none ∧ err ≠ some Error.EOF then
        ((none, metadata, some (status.Errorf codes.InvalidArgument err)), s)
      else
        let ((msg, err), s) := grpc.serve "NetworkService.Dissociate" server.Dissociate ctx protoReq s
        ((msg, metadata, err), s)

/-! ## The request functions of VPNService (pb/vpn.pb.gw.go) -/

/-- The function `request_VPNService_Status_0` (vpn.pb.gw.go, line 31).  The decoder reads the
request body directly, and every non-nil decoder error ends the function. -/
def request_VPNService_Status_0 (ctx : Context) (marshaler : Marshaler)
    (client : VPNServiceClient) (req : Request) (pathParams : PathParams) (s : State) :
    Ret × State :=
  let protoReq := MessageType.VPNStatusRequest.zero
  let metadata : ServerMetadata := {}
  match (marshaler.NewDecoder req.Body).Decode protoReq with
  | (protoReq, err) =>
    if err ≠ none then
      ((none, metadata, some (status.Errorf codes.InvalidArgument err)), s)
    else
      let ((msg, err), metadata, s) := grpc.invoke "VPNService.Status" client.Status ctx protoReq
        [grpc.Header .HeaderMD, grpc.Trailer .TrailerMD] metadata s
      ((msg, metadata, err), s)

/-- The function `request_VPNService_Init_0` (vpn.pb.gw.go, line 44).  The decoder reads the
request body directly, and every non-nil decoder error ends the function. -/
def request_VPNService_Init_0 (ctx : Context) (marshaler : Marshaler)
    (client : VPNServiceClient) (req : Request) (pathParams : PathParams) (s : State) :
    Ret × State :=
  let protoReq := MessageType.VPNInitRequest.zero
  let metadata : ServerMetadata := {}
  match (marshaler.NewDecoder req.Body).Decode protoReq with
  | (protoReq, err) =>
    if err ≠ none then
      ((none, metadata, some (status.Errorf codes.InvalidArgument err)), s)
    else
      let ((msg, err), metadata, s) := grpc.invoke "VPNService.Init" client.Init ctx protoReq
        [grpc.Header .HeaderMD, grpc.Trailer .TrailerMD] metadata s
      ((msg, metadata, err), s)

/-- The function `request_VPNService_Update_0` (vpn.pb.gw.go, line 57).  The decoder reads the
request body directly, and every non-nil decoder error ends the function. -/
def request_VPNService_Update_0 (ctx : Context) (marshaler : Marshaler)
    (client : VPNServiceClient) (req : Request) (pathParams : PathParams) (s : State) :
    Ret × State :=
  let protoReq := MessageType.VPNUpdateRequest.zero
  let metadata : ServerMetadata := {}
  match (marshaler.NewDecoder req.Body).Decode protoReq with
  | (protoReq, err) =>
    if err ≠ none then
      ((none, metadata, some (status.Errorf codes.InvalidArgument err)), s)
    else
      let ((msg, err), metadata, s) := grpc.invoke "VPNService.Update" client.Update ctx protoReq
        [grpc.Header .HeaderMD, grpc.Trailer .TrailerMD] metadata s
      ((msg, metadata, err), s)

/-! ## Patterns, the mux and the runtime entry points -/

/-- One typed operation of a compiled pattern (`runtime.op`). -/
structure op where
  code : Int
  operand : Int
deriving DecidableEq, Repr

/-- A compiled `runtime.Pattern`. -/
structure Pattern where
  ops : List op := []
  pool : List String := []
  vars : List String := []
  stacksize : Int := 0
  tailLen : Int := 0
  verb : String := ""
  assumeColonVerb : Bool := true
deriving DecidableEq, Repr

/-- The error `runtime.ErrInvalidPattern`. -/
def runtime.ErrInvalidPattern : Error := .errorString "invalid pattern"

/-- The local variables of the loop of `runtime.NewPattern`. -/
structure NewPatternVars where
  typedOps : List op := []
  stack : Int := 0
  maxstack : Int := 0
  tailLen : Int := 0
  pushMSeen : Bool := false
  vars : List String := []
deriving DecidableEq, Repr

/-- The end of one round of the loop of `runtime.NewPattern`: the maximal stack
depth is updated and the operation is kept. -/
def NewPatternVars.keep (v : NewPatternVars) (o : op) : NewPatternVars :=
  { v with maxstack := if v.maxstack < v.stack then v.stack else v.maxstack
           typedOps := v.typedOps ++ [o] }

/-- The loop of `runtime.NewPattern` over the (opcode, operand) pairs.  The
opcodes are `OpNop = 0`, `OpPush = 1`, `OpLitPush = 2`, `OpPushM = 3`,
`OpConcatN = 4` and `OpCapture = 5`. -/
def runtime.NewPattern.loop (pool : List String) :
    List Int → NewPatternVars → Except Error NewPatternVars
  | code :: operand :: rest, v =>
    if code = 0 then runtime.NewPattern.loop pool rest v
    else if code = 1 then
      let v := { v with tailLen := if v.pushMSeen then v.tailLen + 1 else v.tailLen
                        stack := v.stack + 1 }
      runtime.NewPattern.loop pool rest (v.keep ⟨code, operand⟩)
    else if code = 3 then
      if v.pushMSeen then .error runtime.ErrInvalidPattern
      else
        let v := { v with pushMSeen := true, stack := v.stack + 1 }
        runtime.NewPattern.loop pool rest (v.keep ⟨code, operand⟩)
    else if code = 2 then
      if operand < 0 ∨ (pool.length : Int) ≤ operand then .error runtime.ErrInvalidPattern
      else
        let v := { v with tailLen := if v.pushMSeen then v.tailLen + 1 else v.tailLen
                          stack := v.stack + 1 }
        runtime.NewPattern.loop pool rest (v.keep ⟨code, operand⟩)
    else if code = 4 then
      if operand ≤ 0 then .error runtime.ErrInvalidPattern
      else if v.stack - operand < 0 then .error runtime.ErrInvalidPattern
      else
        let v := { v with stack := v.stack - operand + 1 }
        runtime.NewPattern.loop pool rest (v.keep ⟨code, operand⟩)
    else if code = 5 then
      if operand < 0 ∨ (pool.length : Int) ≤ operand then .error runtime.ErrInvalidPattern
      else if v.stack - 1 < 0 then .error runtime.ErrInvalidPattern
      else
        let name := pool.getD operand.toNat ""
        let v := { v with vars := v.vars ++ [name], stack := v.stack - 1 }
        runtime.NewPattern.loop pool rest (v.keep ⟨code, (v.vars.length : Int) - 1⟩)
    else .error runtime.ErrInvalidPattern
  | _, v => .ok v

/-- The library function `runtime.NewPattern`; the last argument is the option
`runtime.AssumeColonVerbOpt`, whose default is `true`. -/
def runtime.NewPattern (version : Int) (ops : List Int) (pool : List String) (verb : String)
    (assumeColonVerb : Bool) : Except Error Pattern :=
  if version ≠ 1 then .error runtime.ErrInvalidPattern
  else if ops.length % 2 ≠ 0 then .error runtime.ErrInvalidPattern
  else
    match runtime.NewPattern.loop pool ops {} with
    | .error e => .error e
    | .ok v =>
      .ok { ops := v.typedOps, pool := pool, vars := v.vars, stacksize := v.maxstack
            tailLen := v.tailLen, verb := verb, assumeColonVerb := assumeColonVerb }

/-- The library function `runtime.MustPattern`.  In Go it panics on an error,
which would stop the initialisation of the package; here an error gives the
empty pattern. -/
def runtime.MustPattern (r : Except Error Pattern) : Pattern :=
  match r with
  | .ok p => p
  | .error _ => {}

/-- The `http.ResponseWriter` of a request; the gateway only asks whether it is
also an `http.CloseNotifier`. -/
structure ResponseWriter where
  CloseNotifier : Bool := false
deriving DecidableEq, Repr

/-- A handler function registered on the mux, as a state transformer. -/
abbrev HandlerFunc := ResponseWriter → Request → PathParams → State → State

/-- One entry of the route table of the mux. -/
structure Route where
  meth : String
  pat : Pattern
  h : HandlerFunc

/-- The parts of `*runtime.ServeMux` the generated code uses: the route table,
the marshaler registry, and the header conventions behind
`runtime.AnnotateContext` (for a request: the error, or the timeout and the
metadata derived from its headers). -/
structure ServeMux where
  handlers : List Route := []
  MarshalerForRequest : Request → Marshaler × Marshaler
  annotateContext : Request → Except Error (Option Nat × Option MD)

/-- The method `mux.Handle(meth, pat, h)`: the route is appended to the table. -/
def ServeMux.Handle (mux : ServeMux) (meth : String) (pat : Pattern) (h : HandlerFunc) :
    ServeMux :=
  { mux with handlers := mux.handlers ++ [{ meth := meth, pat := pat, h := h }] }

/-- The library function `runtime.MarshalerForRequest`. -/
def runtime.MarshalerForRequest (mux : ServeMux) (req : Request) : Marshaler × Marshaler :=
  mux.MarshalerForRequest req

/-- The context of `annotateContext` in the runtime: a timeout, when the request
asks for one, is put on the context. -/
def runtime.withTimeout (ctx : Context) (timeout : Option Nat) : Context :=
  match timeout with
  | some t => .WithTimeout ctx t
  | none => ctx

/-- The library function `runtime.AnnotateContext`: the request metadata becomes
outgoing metadata of a context derived from `ctx`. -/
def runtime.AnnotateContext (ctx : Context) (mux : ServeMux) (req : Request) :
    Except Error Context :=
  match mux.annotateContext req with
  | .error err => .error err
  | .ok (timeout, none) => .ok (runtime.withTimeout ctx timeout)
  | .ok (timeout, some md) => .ok (.NewOutgoingContext (runtime.withTimeout ctx timeout) md)

/-- The library function `runtime.AnnotateIncomingContext`: as
`runtime.AnnotateContext`, with incoming metadata. -/
def runtime.AnnotateIncomingContext (ctx : Context) (mux : ServeMux) (req : Request) :
    Except Error Context :=
  match mux.annotateContext req with
  | .error err => .error err
  | .ok (timeout, none) => .ok (runtime.withTimeout ctx timeout)
  | .ok (timeout, some md) => .ok (.NewIncomingContext (runtime.withTimeout ctx timeout) md)

/-- The library function `runtime.NewServerMetadataContext`. -/
def runtime.NewServerMetadataContext (ctx : Context) (md : ServerMetadata) : Context :=
  .NewServerMetadataContext ctx md

/-- The error writer `runtime.HTTPError`, a terminal action of a handler. -/
def runtime.HTTPError (ctx : Context) (err : Error) (s : State) : State :=
  { s with trace := s.trace ++ [.HTTPError ctx err] }

/-- The response forwarder `runtime.ForwardResponseMessage`, the other terminal
action of a handler. -/
def runtime.ForwardResponseMessage (ctx : Context) (resp : Option ProtoMessage) (s : State) :
    State :=
  { s with trace := s.trace ++ [.ForwardResponseMessage ctx resp] }

/-- The deferred `cancel()` of the context a handler created with
`context.WithCancel`; it runs when the handler returns. -/
def context.cancel (ctx : Context) (s : State) : State :=
  { s with trace := s.trace ++ [.cancel ctx] }

/-! ## Patterns and forwarders of the routes -/

/-- The variable `pattern_NetworkService_Create_0` (network.pb.gw.go, line 596). -/
def pattern_NetworkService_Create_0 : Pattern :=
  runtime.MustPattern (runtime.NewPattern 1 [2, 0, 2, 1, 2, 2, 2, 3]
    ["api", "v1", "network", "create"] "" true)

/-- The variable `pattern_NetworkService_List_0` (network.pb.gw.go, line 598). -/
def pattern_NetworkService_List_0 : Pattern :=
  runtime.MustPattern (runtime.NewPattern 1 [2, 0, 2, 1, 2, 2, 2, 3]
    ["api", "v1", "network", "list"] "" true)

/-- The variable `pattern_NetworkService_Delete_0` (network.pb.gw.go, line 600). -/
def pattern_NetworkService_Delete_0 : Pattern :=
  runtime.MustPattern (runtime.NewPattern 1 [2, 0, 2, 1, 2, 2, 2, 3]
    ["api", "v1", "network", "delete"] "" true)

/-- The variable `pattern_NetworkService_GetAllTypes_0` (network.pb.gw.go, line 602). -/
def pattern_NetworkService_GetAllTypes_0 : Pattern :=
  runtime.MustPattern (runtime.NewPattern 1 [2, 0, 2, 1, 2, 2, 2, 3]
    ["api", "v1", "network", "getalltypes"] "" true)

/-- The variable `pattern_NetworkService_GetAssociatedUsers_0` (network.pb.gw.go, line 604). -/
def pattern_NetworkService_GetAssociatedUsers_0 : Pattern :=
  runtime.MustPattern (runtime.NewPattern 1 [2, 0, 2, 1, 2, 2, 2, 3]
    ["api", "v1", "network", "getassociatedusers"] "" true)

/-- The variable `pattern_NetworkService_Associate_0` (network.pb.gw.go, line 606). -/
def pattern_NetworkService_Associate_0 : Pattern :=
  runtime.MustPattern (runtime.NewPattern 1 [2, 0, 2, 1, 2, 2, 2, 3]
    ["api", "v1", "network", "associate"] "" true)

/-- The variable `pattern_NetworkService_Dissociate_0` (network.pb.gw.go, line 608). -/
def pattern_NetworkService_Dissociate_0 : Pattern :=
  runtime.MustPattern (runtime.NewPattern 1 [2, 0, 2, 1, 2, 2, 2, 3]
    ["api", "v1", "network", "dissociate"] "" true)

/-- The variable `pattern_VPNService_Status_0` (vpn.pb.gw.go, line 191). -/
def pattern_VPNService_Status_0 : Pattern :=
  runtime.MustPattern (runtime.NewPattern 1 [2, 0, 2, 1, 2, 2]
    ["v1", "vpn", "status"] "" true)

/-- The variable `pattern_VPNService_Init_0` (vpn.pb.gw.go, line 193). -/
def pattern_VPNService_Init_0 : Pattern :=
  runtime.MustPattern (runtime.NewPattern 1 [2, 0, 2, 1, 2, 2]
    ["v1", "vpn", "init"] "" true)

/-- The variable `pattern_VPNService_Update_0` (vpn.pb.gw.go, line 195). -/
def pattern_VPNService_Update_0 : Pattern :=
  runtime.MustPattern (runtime.NewPattern 1 [2, 0, 2, 1, 2, 2]
    ["v1", "vpn", "update"] "" true)

/-- The variable `forward_NetworkService_Create_0`. -/
def forward_NetworkService_Create_0 := runtime.ForwardResponseMessage

/-- The variable `forward_NetworkService_List_0`. -/
def forward_NetworkService_List_0 := runtime.ForwardResponseMessage

/-- The variable `forward_NetworkService_Delete_0`. -/
def forward_NetworkService_Delete_0 := runtime.ForwardResponseMessage

/-- The variable `forward_NetworkService_GetAllTypes_0`. -/
def forward_NetworkService_GetAllTypes_0 := runtime.ForwardResponseMessage

/-- The variable `forward_NetworkService_GetAssociatedUsers_0`. -/
def forward_NetworkService_GetAssociatedUsers_0 := runtime.ForwardResponseMessage

/-- The variable `forward_NetworkService_Associate_0`. -/
def forward_NetworkService_Associate_0 := runtime.ForwardResponseMessage

/-- The variable `forward_NetworkService_Dissociate_0`. -/
def forward_NetworkService_Dissociate_0 := runtime.ForwardResponseMessage

/-- The variable `forward_VPNService_Status_0`. -/
def forward_VPNService_Status_0 := runtime.ForwardResponseMessage

/-- The variable `forward_VPNService_Init_0`. -/
def forward_VPNService_Init_0 := runtime.ForwardResponseMessage

/-- The variable `forward_VPNService_Update_0`. -/
def forward_VPNService_Update_0 := runtime.ForwardResponseMessage

/-! ## The handlers of `RegisterNetworkServiceHandlerServer` (local mode) -/

/-- The handler that `RegisterNetworkServiceHandlerServer` registers for
`pattern_NetworkService_Create_0` (network.pb.gw.go, line 250). -/
def handler_local_NetworkService_Create_0 (mux : ServeMux) (server : NetworkServiceServer) :
    HandlerFunc := fun w req pathParams s =>
  let ctx := Context.WithCancel req.Context
  let cancel := context.cancel ctx
  let s := { s with stream := {} }
  let ctx := Context.NewContextWithServerTransportStream ctx
  match runtime.MarshalerForRequest mux req with
  | (inboundMarshaler, outboundMarshaler) =>
    match runtime.AnnotateIncomingContext ctx mux req with
    | .error err => cancel (runtime.HTTPError ctx err s)
    | .ok rctx =>
      match local_request_NetworkService_Create_0 rctx inboundMarshaler server req pathParams s with
      | ((resp, md, err), s) =>
        let md : ServerMetadata :=
          { HeaderMD := metadata.Join md.HeaderMD s.stream.Header
            TrailerMD := metadata.Join md.TrailerMD s.stream.Trailer }
        let ctx := runtime.NewServerMetadataContext ctx md
        match err with
        | some err => cancel (runtime.HTTPError ctx err s)
        | none => cancel (forward_NetworkService_Create_0 ctx resp s)

/-- The handler that `RegisterNetworkServiceHandlerServer` registers for
`pattern_NetworkService_List_0` (network.pb.gw.go, line 273). -/
def handler_local_NetworkService_List_0 (mux : ServeMux) (server : NetworkServiceServer) :
    HandlerFunc := fun w req pathParams s =>
  let ctx := Context.WithCancel req.Context
  let cancel := context.cancel ctx
  let s := { s with stream := {} }
  let ctx := Context.NewContextWithServerTransportStream ctx
  match runtime.MarshalerForRequest mux req with
  | (inboundMarshaler, outboundMarshaler) =>
    match runtime.AnnotateIncomingContext ctx mux req with
    | .error err => cancel (runtime.HTTPError ctx err s)
    | .ok rctx =>
      match local_request_NetworkService_List_0 rctx inboundMarshaler server req pathParams s with
      | ((resp, md, err), s) =>
        let md : ServerMetadata :=
          { HeaderMD := metadata.Join md.HeaderMD s.stream.Header
            TrailerMD := metadata.Join md.TrailerMD s.stream.Trailer }
        let ctx := runtime.NewServerMetadataContext ctx md
        match err with
        | some err => cancel (runtime.HTTPError ctx err s)
        | none => cancel (forward_NetworkService_List_0 ctx resp s)

/-- The handler that `RegisterNetworkServiceHandlerServer` registers for
`pattern_NetworkService_Delete_0` (network.pb.gw.go, line 296). -/
def handler_local_NetworkService_Delete_0 (mux : ServeMux) (server : NetworkServiceServer) :
    HandlerFunc := fun w req pathParams s =>
  let ctx := Context.WithCancel req.Context
  let cancel := context.cancel ctx
  let s := { s with stream := {} }
  let ctx := Context.NewContextWithServerTransportStream ctx
  match runtime.MarshalerForRequest mux req with
  | (inboundMarshaler, outboundMarshaler) =>
    match runtime.AnnotateIncomingContext ctx mux req with
    | .error err => cancel (runtime.HTTPError ctx err s)
    | .ok rctx =>
      match local_request_NetworkService_Delete_0 rctx inboundMarshaler server req pathParams s with
      | ((resp, md, err), s) =>
        let md : ServerMetadata :=
          { HeaderMD := metadata.Join md.HeaderMD s.stream.Header
            TrailerMD := metadata.Join md.TrailerMD s.stream.Trailer }
        let ctx := runtime.NewServerMetadataContext ctx md
        match err with
        | some err => cancel (runtime.HTTPError ctx err s)
        | none => cancel (forward_NetworkService_Delete_0 ctx resp s)

/-- The handler that `RegisterNetworkServiceHandlerServer` registers for
`pattern_NetworkService_GetAllTypes_0` (network.pb.gw.go, line 319). -/
def handler_local_NetworkService_GetAllTypes_0 (mux : ServeMux) (server : NetworkServiceServer) :
    HandlerFunc := fun w req pathParams s =>
  let ctx := Context.WithCancel req.Context
  let cancel := context.cancel ctx
  let s := { s with stream := {} }
  let ctx := Context.NewContextWithServerTransportStream ctx
  match runtime.MarshalerForRequest mux req with
  | (inboundMarshaler, outboundMarshaler) =>
    match runtime.AnnotateIncomingContext ctx mux req with
    | .error err => cancel (runtime.HTTPError ctx err s)
    | .ok rctx =>
      match local_request_NetworkService_GetAllTypes_0 rctx inboundMarshaler server req pathParams s with
      | ((resp, md, err), s) =>
        let md : ServerMetadata :=
          { HeaderMD := metadata.Join md.HeaderMD s.stream.Header
            TrailerMD := metadata.Join md.TrailerMD s.stream.Trailer }
        let ctx := runtime.NewServerMetadataContext ctx md
        match err with
        | some err => cancel (runtime.HTTPError ctx err s)
        | none => cancel (forward_NetworkService_GetAllTypes_0 ctx resp s)

/-- The handler that `RegisterNetworkServiceHandlerServer` registers for
`pattern_NetworkService_GetAssociatedUsers_0` (network.pb.gw.go, line 342). -/
def handler_local_NetworkService_GetAssociatedUsers_0 (rt : Runtime) (mux : ServeMux) (server : NetworkServiceServer) :
    HandlerFunc := fun w req pathParams s =>
  let ctx := Context.WithCancel req.Context
  let cancel := context.cancel ctx
  let s := { s with stream := {} }
  let ctx := Context.NewContextWithServerTransportStream ctx
  match runtime.MarshalerForRequest mux req with
  | (inboundMarshaler, outboundMarshaler) =>
    match runtime.AnnotateIncomingContext ctx mux req with
    | .error err => cancel (runtime.HTTPError ctx err s)
    | .ok rctx =>
      match local_request_NetworkService_GetAssociatedUsers_0 rt rctx inboundMarshaler server req pathParams s with
      | ((resp, md, err), s) =>
        let md : ServerMetadata :=
          { HeaderMD := metadata.Join md.HeaderMD s.stream.Header
            TrailerMD := metadata.Join md.TrailerMD s.stream.Trailer }
        let ctx := runtime.NewServerMetadataContext ctx md
        match err with
        | some err => cancel (runtime.HTTPError ctx err s)
        | none => cancel (forward_NetworkService_GetAssociatedUsers_0 ctx resp s)

/-- The handler that `RegisterNetworkServiceHandlerServer` registers for
`pattern_NetworkService_Associate_0` (network.pb.gw.go, line 365). -/
def handler_local_NetworkService_Associate_0 (mux : ServeMux) (server : NetworkServiceServer) :
    HandlerFunc := fun w req pathParams s =>
  let ctx := Context.WithCancel req.Context
  let cancel := context.cancel ctx
  let s := { s with stream := {} }
  let ctx := Context.NewContextWithServerTransportStream ctx
  match runtime.MarshalerForRequest mux req with
  | (inboundMarshaler, outboundMarshaler) =>
    match runtime.AnnotateIncomingContext ctx mux req with
    | .error err => cancel (runtime.HTTPError ctx err s)
    | .ok rctx =>
      match local_request_NetworkService_Associate_0 rctx inboundMarshaler server req pathParams s with
      | ((resp, md, err), s) =>
        let md : ServerMetadata :=
          { HeaderMD := metadata.Join md.HeaderMD s.stream.Header
            TrailerMD := metadata.Join md.TrailerMD s.stream.Trailer }
        let ctx := runtime.NewServerMetadataContext ctx md
        match err with
        | some err => cancel (runtime.HTTPError ctx err s)
        | none => cancel (forward_NetworkService_Associate_0 ctx resp s)

/-- The handler that `RegisterNetworkServiceHandlerServer` registers for
`pattern_NetworkService_Dissociate_0` (network.pb.gw.go, line 388). -/
def handler_local_NetworkService_Dissociate_0 (mux : ServeMux) (server : NetworkServiceServer) :
    HandlerFunc := fun w req pathParams s =>
  let ctx := Context.WithCancel req.Context
  let cancel := context.cancel ctx
  let s := { s with stream := {} }
  let ctx := Context.NewContextWithServerTransportStream ctx
  match runtime.MarshalerForRequest mux req with
  | (inboundMarshaler, outboundMarshaler) =>
    match runtime.AnnotateIncomingContext ctx mux req with
    | .error err => cancel (runtime.HTTPError ctx err s)
    | .ok rctx =>
      match local_request_NetworkService_Dissociate_0 rctx inboundMarshaler server req pathParams s with
      | ((resp, md, err), s) =>
        let md : ServerMetadata :=
          { HeaderMD := metadata.Join md.HeaderMD s.stream.Header
            TrailerMD := metadata.Join md.TrailerMD s.stream.Trailer }
        let ctx := runtime.NewServerMetadataContext ctx md
        match err with
        | some err => cancel (runtime.HTTPError ctx err s)
        | none => cancel (forward_NetworkService_Dissociate_0 ctx resp s)

/-! ## The handlers of `RegisterNetworkServiceHandlerClient` (remote mode) -/

/-- The handler that `RegisterNetworkServiceHandlerClient` registers for
`pattern_NetworkService_Create_0` (network.pb.gw.go, line 452). -/
def handler_NetworkService_Create_0 (mux : ServeMux) (client : NetworkServiceClient) :
    HandlerFunc := fun w req pathParams s =>
  let ctx := Context.WithCancel req.Context
  let cancel := context.cancel ctx
  match runtime.MarshalerForRequest mux req with
  | (inboundMarshaler, outboundMarshaler) =>
    match runtime.AnnotateContext ctx mux req with
    | .error err => cancel (runtime.HTTPError ctx err s)
    | .ok rctx =>
      match request_NetworkService_Create_0 rctx inboundMarshaler client req pathParams s with
      | ((resp, md, err), s) =>
        let ctx := runtime.NewServerMetadataContext ctx md
        match err with
        | some err => cancel (runtime.HTTPError ctx err s)
        | none => cancel (forward_NetworkService_Create_0 ctx resp s)

/-- The handler that `RegisterNetworkServiceHandlerClient` registers for
`pattern_NetworkService_List_0` (network.pb.gw.go, line 472). -/
def handler_NetworkService_List_0 (mux : ServeMux) (client : NetworkServiceClient) :
    HandlerFunc := fun w req pathParams s =>
  let ctx := Context.WithCancel req.Context
  let cancel := context.cancel ctx
  match runtime.MarshalerForRequest mux req with
  | (inboundMarshaler, outboundMarshaler) =>
    match runtime.AnnotateContext ctx mux req with
    | .error err => cancel (runtime.HTTPError ctx err s)
    | .ok rctx =>
      match request_NetworkService_List_0 rctx inboundMarshaler client req pathParams s with
      | ((resp, md, err), s) =>
        let ctx := runtime.NewServerMetadataContext ctx md
        match err with
        | some err => cancel (runtime.HTTPError ctx err s)
        | none => cancel (forward_NetworkService_List_0 ctx resp s)

/-- The handler that `RegisterNetworkServiceHandlerClient` registers for
`pattern_NetworkService_Delete_0` (network.pb.gw.go, line 492). -/
def handler_NetworkService_Delete_0 (mux : ServeMux) (client : NetworkServiceClient) :
    HandlerFunc := fun w req pathParams s =>
  let ctx := Context.WithCancel req.Context
  let cancel := context.cancel ctx
  match runtime.MarshalerForRequest mux req with
  | (inboundMarshaler, outboundMarshaler) =>
    match runtime.AnnotateContext ctx mux req with
    | .error err => cancel (runtime.HTTPError ctx err s)
    | .ok rctx =>
      match request_NetworkService_Delete_0 rctx inboundMarshaler client req pathParams s with
      | ((resp, md, err), s) =>
        let ctx := runtime.NewServerMetadataContext ctx md
        match err with
        | some err => cancel (runtime.HTTPError ctx err s)
        | none => cancel (forward_NetworkService_Delete_0 ctx resp s)

/-- The handler that `RegisterNetworkServiceHandlerClient` registers for
`pattern_NetworkService_GetAllTypes_0` (network.pb.gw.go, line 512). -/
def handler_NetworkService_GetAllTypes_0 (mux : ServeMux) (client : NetworkServiceClient) :
    HandlerFunc := fun w req pathParams s =>
  let ctx := Context.WithCancel req.Context
  let cancel := context.cancel ctx
  match runtime.MarshalerForRequest mux req with
  | (inboundMarshaler, outboundMarshaler) =>
    match runtime.AnnotateContext ctx mux req with
    | .error err => cancel (runtime.HTTPError ctx err s)
    | .ok rctx =>
      match request_NetworkService_GetAllTypes_0 rctx inboundMarshaler client req pathParams s with
      | ((resp, md, err), s) =>
        let ctx := runtime.NewServerMetadataContext ctx md
        match err with
        | some err => cancel (runtime.HTTPError ctx err s)
        | none => cancel (forward_NetworkService_GetAllTypes_0 ctx resp s)

/-- The handler that `RegisterNetworkServiceHandlerClient` registers for
`pattern_NetworkService_GetAssociatedUsers_0` (network.pb.gw.go, line 532). -/
def handler_NetworkService_GetAssociatedUsers_0 (rt : Runtime) (mux : ServeMux) (client : NetworkServiceClient) :
    HandlerFunc := fun w req pathParams s =>
  let ctx := Context.WithCancel req.Context
  let cancel := context.cancel ctx
  match runtime.MarshalerForRequest mux req with
  | (inboundMarshaler, outboundMarshaler) =>
    match runtime.AnnotateContext ctx mux req with
    | .error err => cancel (runtime.HTTPError ctx err s)
    | .ok rctx =>
      match request_NetworkService_GetAssociatedUsers_0 rt rctx inboundMarshaler client req pathParams s with
      | ((resp, md, err), s) =>
        let ctx := runtime.NewServerMetadataContext ctx md
        match err with
        | some err => cancel (runtime.HTTPError ctx err s)
        | none => cancel (forward_NetworkService_GetAssociatedUsers_0 ctx resp s)

/-- The handler that `RegisterNetworkServiceHandlerClient` registers for
`pattern_NetworkService_Associate_0` (network.pb.gw.go, line 552). -/
def handler_NetworkService_Associate_0 (mux : ServeMux) (client : NetworkServiceClient) :
    HandlerFunc := fun w req pathParams s =>
  let ctx := Context.WithCancel req.Context
  let cancel := context.cancel ctx
  match runtime.MarshalerForRequest mux req with
  | (inboundMarshaler, outboundMarshaler) =>
    match runtime.AnnotateContext ctx mux req with
    | .error err => cancel (runtime.HTTPError ctx err s)
    | .ok rctx =>
      match request_NetworkService_Associate_0 rctx inboundMarshaler client req pathParams s with
      | ((resp, md, err), s) =>
        let ctx := runtime.NewServerMetadataContext ctx md
        match err with
        | some err => cancel (runtime.HTTPError ctx err s)
        | none => cancel (forward_NetworkService_Associate_0 ctx resp s)

/-- The handler that `RegisterNetworkServiceHandlerClient` registers for
`pattern_NetworkService_Dissociate_0` (network.pb.gw.go, line 572). -/
def handler_NetworkService_Dissociate_0 (mux : ServeMux) (client : NetworkServiceClient) :
    HandlerFunc := fun w req pathParams s =>
  let ctx := Context.WithCancel req.Context
  let cancel := context.cancel ctx
  match runtime.MarshalerForRequest mux req with
  | (inboundMarshaler, outboundMarshaler) =>
    match runtime.AnnotateContext ctx mux req with
    | .error err => cancel (runtime.HTTPError ctx err s)
    | .ok rctx =>
      match request_NetworkService_Dissociate_0 rctx inboundMarshaler client req pathParams s with
      | ((resp, md, err), s) =>
        let ctx := runtime.NewServerMetadataContext ctx md
        match err with
        | some err => cancel (runtime.HTTPError ctx err s)
        | none => cancel (forward_NetworkService_Dissociate_0 ctx resp s)

/-! ## The handlers of `RegisterVPNServiceHandler` -/

/-- The handler that `RegisterVPNServiceHandler` registers for
`pattern_VPNService_Status_0` (vpn.pb.gw.go, line 100).  Its context is derived
from the context given to the registration function.  The goroutine that cancels
the context when a `CloseNotifier` reports a closed connection runs beside the
handler and is not part of its sequential trace. -/
def handler_VPNService_Status_0 (ctx : Context) (mux : ServeMux) (client : VPNServiceClient) :
    HandlerFunc := fun w req pathParams s =>
  let ctx := Context.WithCancel ctx
  let cancel := context.cancel ctx
  match runtime.MarshalerForRequest mux req with
  | (inboundMarshaler, outboundMarshaler) =>
    match runtime.AnnotateContext ctx mux req with
    | .error err => cancel (runtime.HTTPError ctx err s)
    | .ok rctx =>
      match request_VPNService_Status_0 rctx inboundMarshaler client req pathParams s with
      | ((resp, md, err), s) =>
        let ctx := runtime.NewServerMetadataContext ctx md
        match err with
        | some err => cancel (runtime.HTTPError ctx err s)
        | none => cancel (forward_VPNService_Status_0 ctx resp s)

/-- The handler that `RegisterVPNServiceHandler` registers for
`pattern_VPNService_Init_0` (vpn.pb.gw.go, line 129).  Its context is derived
from the context given to the registration function.  The goroutine that cancels
the context when a `CloseNotifier` reports a closed connection runs beside the
handler and is not part of its sequential trace. -/
def handler_VPNService_Init_0 (ctx : Context) (mux : ServeMux) (client : VPNServiceClient) :
    HandlerFunc := fun w req pathParams s =>
  let ctx := Context.WithCancel ctx
  let cancel := context.cancel ctx
  match runtime.MarshalerForRequest mux req with
  | (inboundMarshaler, outboundMarshaler) =>
    match runtime.AnnotateContext ctx mux req with
    | .error err => cancel (runtime.HTTPError ctx err s)
    | .ok rctx =>
      match request_VPNService_Init_0 rctx inboundMarshaler client req pathParams s with
      | ((resp, md, err), s) =>
        let ctx := runtime.NewServerMetadataContext ctx md
        match err with
        | some err => cancel (runtime.HTTPError ctx err s)
        | none => cancel (forward_VPNService_Init_0 ctx resp s)

/-- The handler that `RegisterVPNServiceHandler` registers for
`pattern_VPNService_Update_0` (vpn.pb.gw.go, line 158).  Its context is derived
from the context given to the registration function.  The goroutine that cancels
the context when a `CloseNotifier` reports a closed connection runs beside the
handler and is not part of its sequential trace. -/
def handler_VPNService_Update_0 (ctx : Context) (mux : ServeMux) (client : VPNServiceClient) :
    HandlerFunc := fun w req pathParams s =>
  let ctx := Context.WithCancel ctx
  let cancel := context.cancel ctx
  match runtime.MarshalerForRequest mux req with
  | (inboundMarshaler, outboundMarshaler) =>
    match runtime.AnnotateContext ctx mux req with
    | .error err => cancel (runtime.HTTPError ctx err s)
    | .ok rctx =>
      match request_VPNService_Update_0 rctx inboundMarshaler client req pathParams s with
      | ((resp, md, err), s) =>
        let ctx := runtime.NewServerMetadataContext ctx md
        match err with
        | some err => cancel (runtime.HTTPError ctx err s)
        | none => cancel (forward_VPNService_Update_0 ctx resp s)

/-! ## The registration functions -/

/-- The function `RegisterNetworkServiceHandlerServer` (network.pb.gw.go, line 248): it
registers one handler per method and returns `nil`. -/
def RegisterNetworkServiceHandlerServer (rt : Runtime) (ctx : Context) (mux : ServeMux)
    (server : NetworkServiceServer) : ServeMux × Option Error :=
  let mux := mux.Handle "POST" pattern_NetworkService_Create_0
    (handler_local_NetworkService_Create_0 mux server)
  let mux := mux.Handle "GET" pattern_NetworkService_List_0
    (handler_local_NetworkService_List_0 mux server)
  let mux := mux.Handle "POST" pattern_NetworkService_Delete_0
    (handler_local_NetworkService_Delete_0 mux server)
  let mux := mux.Handle "GET" pattern_NetworkService_GetAllTypes_0
    (handler_local_NetworkService_GetAllTypes_0 mux server)
  let mux := mux.Handle "GET" pattern_NetworkService_GetAssociatedUsers_0
    (handler_local_NetworkService_GetAssociatedUsers_0 rt mux server)
  let mux := mux.Handle "POST" pattern_NetworkService_Associate_0
    (handler_local_NetworkService_Associate_0 mux server)
  let mux := mux.Handle "POST" pattern_NetworkService_Dissociate_0
    (handler_local_NetworkService_Dissociate_0 mux server)
  (mux, none)

/-- The function `RegisterNetworkServiceHandlerClient` (network.pb.gw.go, line 450): it
registers one handler per method and returns `nil`. -/
def RegisterNetworkServiceHandlerClient (rt : Runtime) (ctx : Context) (mux : ServeMux)
    (client : NetworkServiceClient) : ServeMux × Option Error :=
  let mux := mux.Handle "POST" pattern_NetworkService_Create_0
    (handler_NetworkService_Create_0 mux client)
  let mux := mux.Handle "GET" pattern_NetworkService_List_0
    (handler_NetworkService_List_0 mux client)
  let mux := mux.Handle "POST" pattern_NetworkService_Delete_0
    (handler_NetworkService_Delete_0 mux client)
  let mux := mux.Handle "GET" pattern_NetworkService_GetAllTypes_0
    (handler_NetworkService_GetAllTypes_0 mux client)
  let mux := mux.Handle "GET" pattern_NetworkService_GetAssociatedUsers_0
    (handler_NetworkService_GetAssociatedUsers_0 rt mux client)
  let mux := mux.Handle "POST" pattern_NetworkService_Associate_0
    (handler_NetworkService_Associate_0 mux client)
  let mux := mux.Handle "POST" pattern_NetworkService_Dissociate_0
    (handler_NetworkService_Dissociate_0 mux client)
  (mux, none)

/-- A `*grpc.ClientConn`: what the remote end answers to each method invoked over
the connection, and the error `Close()` returns (`none` for `nil`). -/
structure ClientConn where
  Invoke : String → ClientMethod
  Close : Option Error := none

/-- Modelled from the spec: `NewNetworkServiceClient` is declared in
`network.pb.go`, which is not among the sources; the spec (section 6) describes
"a client-stub abstraction providing the same methods over a persistent
connection".  Each method of the stub invokes the method of that name over the
connection. -/
def NewNetworkServiceClient (cc : ClientConn) : NetworkServiceClient :=
  { Create := cc.Invoke "NetworkService.Create"
    List := cc.Invoke "NetworkService.List"
    Delete := cc.Invoke "NetworkService.Delete"
    GetAllTypes := cc.Invoke "NetworkService.GetAllTypes"
    GetAssociatedUsers := cc.Invoke "NetworkService.GetAssociatedUsers"
    Associate := cc.Invoke "NetworkService.Associate"
    Dissociate := cc.Invoke "NetworkService.Dissociate" }

/-- Modelled from the spec: `NewVPNServiceClient` is declared in `vpn.pb.go`,
which is not among the sources; see `NewNetworkServiceClient`. -/
def NewVPNServiceClient (cc : ClientConn) : VPNServiceClient :=
  { Status := cc.Invoke "VPNService.Status"
    Init := cc.Invoke "VPNService.Init"
    Update := cc.Invoke "VPNService.Update" }

/-- The function `RegisterNetworkServiceHandler` (network.pb.gw.go, line 441). -/
def RegisterNetworkServiceHandler (rt : Runtime) (ctx : Context) (mux : ServeMux)
    (conn : ClientConn) : ServeMux × Option Error :=
  RegisterNetworkServiceHandlerClient rt ctx mux (NewNetworkServiceClient conn)

/-- The function `RegisterVPNServiceHandler` (vpn.pb.gw.go, line 97): it
registers one handler per method and returns `nil`. -/
def RegisterVPNServiceHandler (ctx : Context) (mux : ServeMux)
    (conn : ClientConn) : ServeMux × Option Error :=
  let client := NewVPNServiceClient conn
  let mux := mux.Handle "POST" pattern_VPNService_Status_0
    (handler_VPNService_Status_0 ctx mux client)
  let mux := mux.Handle "POST" pattern_VPNService_Init_0
    (handler_VPNService_Init_0 ctx mux client)
  let mux := mux.Handle "POST" pattern_VPNService_Update_0
    (handler_VPNService_Update_0 ctx mux client)
  (mux, none)

/-! ## The methods of the two services

The generated code has one request function and one handler per method.  The
tables below select the function of a method, so that a statement about every
method can be written once. -/

/-- The methods of NetworkService, in the order of registration. -/
inductive NetworkMethod
  | Create
  | List
  | Delete
  | GetAllTypes
  | GetAssociatedUsers
  | Associate
  | Dissociate
deriving DecidableEq, Repr

/-- The methods of VPNService, in the order of registration. -/
inductive VPNMethod
  | Status
  | Init
  | Update
deriving DecidableEq, Repr

/-- The call options every remote request function passes: header capture into
`metadata.HeaderMD` and trailer capture into `metadata.TrailerMD`. -/
def callOptions : List CallOption := [grpc.Header .HeaderMD, grpc.Trailer .TrailerMD]

/-- The name under which the calls of a method are recorded. -/
def NetworkMethod.name (x : NetworkMethod) : String :=
  match x with
  | .Create => "NetworkService.Create"
  | .List => "NetworkService.List"
  | .Delete => "NetworkService.Delete"
  | .GetAllTypes => "NetworkService.GetAllTypes"
  | .GetAssociatedUsers => "NetworkService.GetAssociatedUsers"
  | .Associate => "NetworkService.Associate"
  | .Dissociate => "NetworkService.Dissociate"

/-- The type of the `protoReq` variable of the request functions of a method. -/
def NetworkMethod.requestType (x : NetworkMethod) : MessageType :=
  match x with
  | .Create => .NetworkCreateRequest
  | .List => .NetworkListRequest
  | .Delete => .NetworkDeleteRequest
  | .GetAllTypes => .NetworkGetAllTypesRequest
  | .GetAssociatedUsers => .NetworkGetAssociatedUsersRequest
  | .Associate => .NetworkAssociateRequest
  | .Dissociate => .NetworkDissociateRequest

/-- The client method a remote request function calls. -/
def NetworkMethod.client (x : NetworkMethod) (client : NetworkServiceClient) : ClientMethod :=
  match x with
  | .Create => client.Create
  | .List => client.List
  | .Delete => client.Delete
  | .GetAllTypes => client.GetAllTypes
  | .GetAssociatedUsers => client.GetAssociatedUsers
  | .Associate => client.Associate
  | .Dissociate => client.Dissociate

/-- The service method a local request function calls. -/
def NetworkMethod.server (x : NetworkMethod) (server : NetworkServiceServer) : ServerMethod :=
  match x with
  | .Create => server.Create
  | .List => server.List
  | .Delete => server.Delete
  | .GetAllTypes => server.GetAllTypes
  | .GetAssociatedUsers => server.GetAssociatedUsers
  | .Associate => server.Associate
  | .Dissociate => server.Dissociate

/-- The methods whose request functions decode the request body. -/
def NetworkMethod.hasBody (x : NetworkMethod) : Bool :=
  match x with
  | .Create | .Delete | .Associate | .Dissociate => true
  | .List | .GetAllTypes | .GetAssociatedUsers => false

/-- The remote request function of a method. -/
def request_NetworkService (rt : Runtime) (x : NetworkMethod) : Context → Marshaler → NetworkServiceClient → Request → PathParams → State → Ret × State :=
  match x with
  | .Create => request_NetworkService_Create_0
  | .List => request_NetworkService_List_0
  | .Delete => request_NetworkService_Delete_0
  | .GetAllTypes => request_NetworkService_GetAllTypes_0
  | .GetAssociatedUsers => request_NetworkService_GetAssociatedUsers_0 rt
  | .Associate => request_NetworkService_Associate_0
  | .Dissociate => request_NetworkService_Dissociate_0

/-- The local request function of a method. -/
def local_request_NetworkService (rt : Runtime) (x : NetworkMethod) : Context → Marshaler → NetworkServiceServer → Request → PathParams → State → Ret × State :=
  match x with
  | .Create => local_request_NetworkService_Create_0
  | .List => local_request_NetworkService_List_0
  | .Delete => local_request_NetworkService_Delete_0
  | .GetAllTypes => local_request_NetworkService_GetAllTypes_0
  | .GetAssociatedUsers => local_request_NetworkService_GetAssociatedUsers_0 rt
  | .Associate => local_request_NetworkService_Associate_0
  | .Dissociate => local_request_NetworkService_Dissociate_0

/-- The remote-mode handler of a method. -/
def handler_NetworkService (rt : Runtime) (x : NetworkMethod) : ServeMux → NetworkServiceClient → HandlerFunc :=
  match x with
  | .Create => handler_NetworkService_Create_0
  | .List => handler_NetworkService_List_0
  | .Delete => handler_NetworkService_Delete_0
  | .GetAllTypes => handler_NetworkService_GetAllTypes_0
  | .GetAssociatedUsers => handler_NetworkService_GetAssociatedUsers_0 rt
  | .Associate => handler_NetworkService_Associate_0
  | .Dissociate => handler_NetworkService_Dissociate_0

/-- The local-mode handler of a method. -/
def handler_local_NetworkService (rt : Runtime) (x : NetworkMethod) : ServeMux → NetworkServiceServer → HandlerFunc :=
  match x with
  | .Create => handler_local_NetworkService_Create_0
  | .List => handler_local_NetworkService_List_0
  | .Delete => handler_local_NetworkService_Delete_0
  | .GetAllTypes => handler_local_NetworkService_GetAllTypes_0
  | .GetAssociatedUsers => handler_local_NetworkService_GetAssociatedUsers_0 rt
  | .Associate => handler_local_NetworkService_Associate_0
  | .Dissociate => handler_local_NetworkService_Dissociate_0

/-- The name under which the calls of a method are recorded. -/
def VPNMethod.name (x : VPNMethod) : String :=
  match x with
  | .Status => "VPNService.Status"
  | .Init => "VPNService.Init"
  | .Update => "VPNService.Update"

/-- The type of the `protoReq` variable of the request function of a method. -/
def VPNMethod.requestType (x : VPNMethod) : MessageType :=
  match x with
  | .Status => .VPNStatusRequest
  | .Init => .VPNInitRequest
  | .Update => .VPNUpdateRequest

/-- The client method a request function calls. -/
def VPNMethod.client (x : VPNMethod) (client : VPNServiceClient) : ClientMethod :=
  match x with
  | .Status => client.Status
  | .Init => client.Init
  | .Update => client.Update

/-- The request function of a method. -/
def request_VPNService (x : VPNMethod) : Context → Marshaler → VPNServiceClient → Request → PathParams → State → Ret × State :=
  match x with
  | .Status => request_VPNService_Status_0
  | .Init => request_VPNService_Init_0
  | .Update => request_VPNService_Update_0

/-- The handler of a method. -/
def handler_VPNService (x : VPNMethod) : Context → ServeMux → VPNServiceClient → HandlerFunc :=
  match x with
  | .Status => handler_VPNService_Status_0
  | .Init => handler_VPNService_Init_0
  | .Update => handler_VPNService_Update_0

/-! ## The request binder, stated on its own

In the source, binding is the first half of every request function.  It is
written here once per service, so that "binding succeeds" and "binding fails"
can be said of a request without running the call. -/

/-- The binding step of the NetworkService request functions: the typed request
the call is made with, or the underlying error that ends the function before
the call.  A body-bearing method reads and decodes the body and tolerates
`io.EOF`; `GetAssociatedUsers` parses the form and populates the message from
it; `List` and `GetAllTypes` bind nothing. -/
def bind_NetworkService (rt : Runtime) (x : NetworkMethod) (marshaler : Marshaler)
    (req : Request) : Except Error ProtoMessage :=
  if x.hasBody then
    match utilities.IOReaderFactory req.Body with
    | .error berr => .error berr
    | .ok newReader =>
      match (marshaler.NewDecoder newReader).Decode x.requestType.zero with
      | (protoReq, none) => .ok protoReq
      | (protoReq, some err) => if err = Error.EOF then .ok protoReq else .error err
  else if x = .GetAssociatedUsers then
    match req.ParseForm rt with
    | (_, some err) => .error err
    | (form, none) =>
      match runtime.PopulateQueryParameters rt x.requestType.zero form
        filter_NetworkService_GetAssociatedUsers_0 with
      | (_, some err) => .error err
      | (protoReq, none) => .ok protoReq
  else .ok x.requestType.zero

/-- The binding step of the VPNService request functions: the body is decoded
directly, and every decoder error, `io.EOF` included, ends the function. -/
def bind_VPNService (x : VPNMethod) (marshaler : Marshaler) (req : Request) :
    Except Error ProtoMessage :=
  match (marshaler.NewDecoder req.Body).Decode x.requestType.zero with
  | (protoReq, none) => .ok protoReq
  | (_, some err) => .error err

/-- The four ways in which binding the input of a NetworkService method fails
with the underlying error `e`: the body reader cannot be obtained, the decoder
returns an error other than `io.EOF`, form parsing fails, or populating the
message from the query fails. -/
def BindingFails (rt : Runtime) (x : NetworkMethod) (marshaler : Marshaler) (req : Request)
    (e : Error) : Prop :=
  (x.hasBody = true ∧ utilities.IOReaderFactory req.Body = .error e) ∨
  (x.hasBody = true ∧ ∃ newReader, utilities.IOReaderFactory req.Body = .ok newReader ∧
    ((marshaler.NewDecoder newReader).Decode x.requestType.zero).2 = some e ∧ e ≠ Error.EOF) ∨
  (x = .GetAssociatedUsers ∧ (req.ParseForm rt).2 = some e) ∨
  (x = .GetAssociatedUsers ∧ (req.ParseForm rt).2 = none ∧
    (runtime.PopulateQueryParameters rt x.requestType.zero (req.ParseForm rt).1
      filter_NetworkService_GetAssociatedUsers_0).2 = some e)

/-! ## Fixtures for the worked examples -/

/-- A marshaler for the examples: an empty input is end-of-input, the input `{}`
decodes to the message as it is, and any other input is malformed. -/
def exampleMarshaler : Marshaler :=
  { NewDecoder := fun r =>
      { Decode := fun v =>
          if r.data = [] then (v, some (r.err.getD Error.EOF))
          else if r.data = [123, 125] then (v, none)
          else (v, some (Error.errorString "invalid character")) } }

/-- A query parser for the examples: the pieces between `&` are entries
`key=value`, and nothing is unescaped. -/
def exampleParseQuery (query : String) : Form × Option Error :=
  if query = "" then ([], none)
  else
    ((strings.Split query '&').foldl (fun form piece =>
        match splitAtFirst '=' piece.data with
        | some (k, v) => url.Values.append form (String.mk k) [String.mk v]
        | none => url.Values.append form piece [""]) [], none)

/-- Go's conversion `[]byte(s)` for a string of ASCII characters. -/
def bytes (s : String) : List Nat := s.data.map Char.toNat

/-- A form parser of bodies for the examples: a body whose content type is
`application/x-www-form-urlencoded` is read to its end and parsed as a query. -/
def exampleParsePostForm (header : MD) (body : Reader) : Form × Option Error :=
  if header.Get "Content-Type" = ["application/x-www-form-urlencoded"] then
    match body.err with
    | none => exampleParseQuery (String.mk (body.data.map Char.ofNat))
    | some .EOF => exampleParseQuery (String.mk (body.data.map Char.ofNat))
    | some e => ([], some e)
  else ([], none)

/-- A runtime for the examples: a form entry sets the field named by its key to
its first value, and an entry without values is an error; a map is visited in
the order of its list. -/
def exampleRuntime : Runtime :=
  { populateFieldValueFromPath := fun msg fieldPath values =>
      match values with
      | [] => (msg, some (Error.errorString "no value of field"))
      | v :: _ => ({ msg with fields := msg.fields ++ [(".".intercalate fieldPath, v)] }, none)
    ParseQuery := exampleParseQuery
    parsePostForm := exampleParsePostForm
    rangeOrder := id }

/-- A client stub for the examples: every method answers with a response that
names it, a header and a trailer. -/
def exampleClient : NetworkServiceClient :=
  let answer : ClientMethod := fun _ _ _ =>
    { msg := some { type := .response "reply" }, err := none
      header := [("h", ["1"])], trailer := [("t", ["2"])] }
  { Create := answer, List := answer, Delete := answer, GetAllTypes := answer
    GetAssociatedUsers := answer, Associate := answer, Dissociate := answer }

/-- A service implementation for the examples, answering as `exampleClient`. -/
def exampleServer : NetworkServiceServer :=
  let answer : ServerMethod := fun _ _ =>
    { msg := some { type := .response "reply" }, err := none
      header := [("h", ["1"])], trailer := [("t", ["2"])] }
  { Create := answer, List := answer, Delete := answer, GetAllTypes := answer
    GetAssociatedUsers := answer, Associate := answer, Dissociate := answer }

/-- A connection for the examples: the remote end answers every method alike. -/
def exampleConn : ClientConn :=
  { Invoke := fun _ _ _ _ =>
      { msg := some { type := .response "reply" }, err := none
        header := [("h", ["1"])], trailer := [("t", ["2"])] } }

/-- A mux for the examples: one marshaler for both directions, and a request
whose `Grpc-Timeout` header is present is refused by the header conventions. -/
def exampleMux : ServeMux :=
  { handlers := []
    MarshalerForRequest := fun _ => (exampleMarshaler, exampleMarshaler)
    annotateContext := fun req =>
      if MD.Get req.Header "Grpc-Timeout" = [] then .ok (none, none)
      else .error (Error.status codes.InvalidArgument "invalid grpc-timeout") }

/-! ## The dispatcher, stated on its own -/

/-- The dispatcher of the spec (4.4) in remote mode: one call through the client
stub with header and trailer capture; the result carries the message and error
of the call and the captured metadata. -/
def dispatch_remote (name : String) (f : ClientMethod) (ctx : Context) (r : ProtoMessage)
    (s : State) : Ret × State :=
  (((f ctx r callOptions).msg,
      { HeaderMD := (f ctx r callOptions).header, TrailerMD := (f ctx r callOptions).trailer },
      (f ctx r callOptions).err),
    { s with trace := s.trace ++ [.clientCall name ctx r callOptions] })

/-- The dispatcher of the spec (4.4) in local mode: one direct call of the
service implementation; the result carries the message and error of the call
and empty metadata, and the metadata the implementation set is in the transport
stream of its context. -/
def dispatch_local (name : String) (f : ServerMethod) (ctx : Context) (r : ProtoMessage)
    (s : State) : Ret × State :=
  (((f ctx r).msg, {}, (f ctx r).err),
    { trace := s.trace ++ [.serverCall name ctx r]
      stream :=
        if ctx.carriesStream then
          { header := s.stream.header ++ (f ctx r).header
            trailer := s.stream.trailer ++ (f ctx r).trailer }
        else s.stream })

/-- What a request function returns when binding fails with the underlying
error `e`: no message, empty metadata, the InvalidArgument status error with the
text of `e`; the state is untouched. -/
def bind_refused (e : Error) (s : State) : Ret × State :=
  ((none, {}, some (Error.status 3 e.text)), s)

/-- What it means that a key of the form has a subscript: the key is `k[sub]`
where `sub` holds no further `[`, and the key has no line feed. -/
def Subscripted (key k sub : List Char) : Prop :=
  key = k ++ ('[' :: sub) ++ [']'] ∧ '[' ∉ sub ∧ Char.ofNat 10 ∉ key

/-- How the query binder reads one entry of the form, stated without the code:
the entry `key: vs` addresses the field `path` with the values `values` when
`path` is the key cut at its dots (joining the pieces with dots gives the key
back and no piece holds a dot), and the values are `vs`; except that for a key
with a subscript, `k[sub]`, it is `k` that is cut at its dots, and `sub` is put
in front of the values. -/
def FieldOfEntry (key : String) (vs : List String) (path values : List String) : Prop :=
  ∃ k : List Char,
    ((∃ sub, Subscripted key.data k sub ∧ values = String.mk sub :: vs) ∨
      ((∀ a b, ¬ Subscripted key.data a b) ∧ k = key.data ∧ values = vs)) ∧
    path ≠ [] ∧ List.intercalate ['.'] (path.map String.data) = k ∧
    ∀ p ∈ path, '.' ∉ p.data

/-- The field path and the values one entry of the form stands for. -/
def formField (e : String × List String) : List String × List String :=
  match valuesKeyRegexp.FindStringSubmatch e.1 with
  | some (k, sub) => (strings.Split k '.', sub :: e.2)
  | none => (strings.Split e.1 '.', e.2)

/-- Populating a message with nothing excluded: every field of the list is
written to the message, in order, and the first error stops the loop. -/
def populateAll (rt : Runtime) (msg : ProtoMessage) (fields : List (List String × List String)) :
    ProtoMessage × Option Error :=
  match fields with
  | [] => (msg, none)
  | (fieldPath, values) :: rest =>
    match rt.populateFieldValueFromPath msg fieldPath values with
    | (msg, some err) => (msg, some err)
    | (msg, none) => populateAll rt msg rest

/-! ## The route tables and the handler contract -/

/-- The methods of NetworkService in the order both registration functions
register them. -/
def networkMethods : List NetworkMethod :=
  [.Create, .List, .Delete, .GetAllTypes, .GetAssociatedUsers, .Associate, .Dissociate]

/-- The methods of VPNService in the order of registration. -/
def vpnMethods : List VPNMethod := [.Status, .Init, .Update]

/-- The HTTP verb a NetworkService method is registered under. -/
def NetworkMethod.meth (x : NetworkMethod) : String :=
  match x with
  | .Create | .Delete | .Associate | .Dissociate => "POST"
  | .List | .GetAllTypes | .GetAssociatedUsers => "GET"

/-- The pattern a NetworkService method is registered under. -/
def NetworkMethod.pattern (x : NetworkMethod) : Pattern :=
  match x with
  | .Create => pattern_NetworkService_Create_0
  | .List => pattern_NetworkService_List_0
  | .Delete => pattern_NetworkService_Delete_0
  | .GetAllTypes => pattern_NetworkService_GetAllTypes_0
  | .GetAssociatedUsers => pattern_NetworkService_GetAssociatedUsers_0
  | .Associate => pattern_NetworkService_Associate_0
  | .Dissociate => pattern_NetworkService_Dissociate_0

/-- The pattern a VPNService method is registered under. -/
def VPNMethod.pattern (y : VPNMethod) : Pattern :=
  match y with
  | .Status => pattern_VPNService_Status_0
  | .Init => pattern_VPNService_Init_0
  | .Update => pattern_VPNService_Update_0

/-- The terminal actions of a handler: the error writer and the response
forwarder. -/
def Event.isTerminal : Event → Bool
  | .HTTPError _ _ => true
  | .ForwardResponseMessage _ _ => true
  | _ => false

/-- The invocations of an RPC method. -/
def Event.isCall : Event → Bool
  | .clientCall _ _ _ _ => true
  | .serverCall _ _ _ => true
  | _ => false

/-- The end of every handler, from the return of the request function on: the
server metadata is put on the context, and the error writer or the forwarder is
called, followed by the deferred cancel. -/
def handler_finish (cancelCtx ctx : Context) (md : ServerMetadata)
    (resp : Option ProtoMessage) (err : Option Error) (s : State) : State :=
  match err with
  | some err =>
    context.cancel cancelCtx (runtime.HTTPError (runtime.NewServerMetadataContext ctx md) err s)
  | none =>
    context.cancel cancelCtx
      (runtime.ForwardResponseMessage (runtime.NewServerMetadataContext ctx md) resp s)

/-- The terminal-action contract of one run of a handler from state `s` to state
`s2`, given the outcome of annotation, the outcome of binding, and what the RPC
method answers.  The actions the run added contain exactly one terminal action:
the error writer with the annotation error; else the error writer with the
binding error as the request function returns it (InvalidArgument with the text
of the underlying error); else the error writer with the error of the call;
else, all three having succeeded, the forwarder with the message of the call. -/
def HandlerContract (s s2 : State) (annotated : Except Error Context)
    (bound : Except Error ProtoMessage)
    (call : Context → ProtoMessage → Option ProtoMessage × Option Error) : Prop :=
  ∃ t, s2.trace = s.trace ++ t ∧
    match annotated with
    | .error e => ∃ c, t.filter Event.isTerminal = [.HTTPError c e]
    | .ok rctx =>
      match bound with
      | .error e => ∃ c, t.filter Event.isTerminal = [.HTTPError c (Error.status 3 e.text)]
      | .ok r =>
        match call rctx r with
        | (_, some e) => ∃ c, t.filter Event.isTerminal = [.HTTPError c e]
        | (msg, none) => ∃ c, t.filter Event.isTerminal = [.ForwardResponseMessage c msg]

/-- The terminal action of a handler whose RPC call returned `resp` and `err`,
on the context `ctx`: the error writer when there is an error, else the
forwarder. -/
def terminalAction (ctx : Context) (resp : Option ProtoMessage) (err : Option Error) : Event :=
  match err with
  | some e => .HTTPError ctx e
  | none => .ForwardResponseMessage ctx resp

/-- The actions of one run of a handler, by the state machine of the spec (4.6),
given the context the handler cancels on return (`cancelCtx`), the context it
answers on (`ctx`), the outcome of annotation, the outcome of binding, the
invocation event of a bound request, and the answer of the call together with
the metadata the handler attaches. -/
def handlerActions (cancelCtx ctx : Context) (annotated : Except Error Context)
    (bound : Except Error ProtoMessage) (callEvent : Context → ProtoMessage → Event)
    (answer : Context → ProtoMessage → Option ProtoMessage × ServerMetadata × Option Error) :
    List Event :=
  match annotated with
  | .error e => [.HTTPError ctx e, .cancel cancelCtx]
  | .ok rctx =>
    match bound with
    | .error e =>
      [.HTTPError (.NewServerMetadataContext ctx {}) (Error.status 3 e.text), .cancel cancelCtx]
    | .ok r =>
      [callEvent rctx r,
        terminalAction (.NewServerMetadataContext ctx (answer rctx r).2.1) (answer rctx r).1
          (answer rctx r).2.2,
        .cancel cancelCtx]

/-! ## Derivation and cancellation of contexts -/

/-- Whether the context `c` is `a` or is derived from `a` by a chain of
derivations.  Cancelling `a` cancels every context derived from it. -/
def Context.derivedFrom (c a : Context) : Bool :=
  c == a ||
    match c with
    | .root _ => false
    | .WithCancel p => p.derivedFrom a
    | .WithTimeout p _ => p.derivedFrom a
    | .NewContextWithServerTransportStream p => p.derivedFrom a
    | .NewOutgoingContext p _ => p.derivedFrom a
    | .NewIncomingContext p _ => p.derivedFrom a
    | .NewServerMetadataContext p _ => p.derivedFrom a

/-- Whether the context `c` is done once the contexts in `cancelled` have been
cancelled: it is one of them or is derived from one of them. -/
def Context.Done (cancelled : List Context) (c : Context) : Bool :=
  cancelled.any (fun a => c.derivedFrom a)

/-- The context an RPC invocation was made with. -/
def Event.callContext : Event → Option Context
  | .clientCall _ ctx _ _ => some ctx
  | .serverCall _ ctx _ => some ctx
  | _ => none

/-! ## Matching a path against a pattern -/

/-- The error `runtime.ErrNotMatch`. -/
def runtime.ErrNotMatch : Error := .errorString "not match to the path pattern"

/-- The library function `strings.Join`. -/
def strings.Join (elems : List String) (sep : String) : String :=
  sep.intercalate elems

/-- The local variables of the loop of `Pattern.Match`: the position in the
path, the stack of matched components, and the captured values by variable
index. -/
structure MatchVars where
  pos : Nat := 0
  stack : List String := []
  captured : List String := []
deriving DecidableEq, Repr

/-- The loop of `Pattern.Match` over the operations of the pattern. -/
def Pattern.Match.loop (p : Pattern) (components : List String) :
    List op → MatchVars → Except Error MatchVars
  | [], v => .ok v
  | o :: ops, v =>
    if o.code = 0 then Pattern.Match.loop p components ops v
    else if o.code = 1 ∨ o.code = 2 then
      if v.pos ≥ components.length then .error runtime.ErrNotMatch
      else
        let c := components.getD v.pos ""
        if o.code = 2 ∧ c ≠ p.pool.getD o.operand.toNat "" then .error runtime.ErrNotMatch
        else Pattern.Match.loop p components ops { v with stack := v.stack ++ [c], pos := v.pos + 1 }
    else if o.code = 3 then
      if (components.length : Int) < v.pos + p.tailLen then .error runtime.ErrNotMatch
      else
        let last := components.length - p.tailLen.toNat
        Pattern.Match.loop p components ops
          { v with stack := v.stack ++ [strings.Join ((components.take last).drop v.pos) "/"]
                   pos := last }
    else if o.code = 4 then
      let l := v.stack.length - o.operand.toNat
      Pattern.Match.loop p components ops
        { v with stack := v.stack.take l ++ [strings.Join (v.stack.drop l) "/"] }
    else if o.code = 5 then
      let n := v.stack.length - 1
      Pattern.Match.loop p components ops
        { v with captured := v.captured.set o.operand.toNat (v.stack.getD n "")
                 stack := v.stack.take n }
    else Pattern.Match.loop p components ops v

/-- The assignment `bindings[k] = v` on a map kept as the list of its entries:
the value of a key that is present is replaced. -/
def bindings.set (b : List (String × String)) (k v : String) : List (String × String) :=
  match b with
  | [] => [(k, v)]
  | (k2, v2) :: rest => if k2 = k then (k2, v) :: rest else (k2, v2) :: bindings.set rest k v

/-- The library method `Pattern.Match(components, verb)`: the bindings of the
variables of the pattern when the path components and the colon verb match it,
and `ErrNotMatch` otherwise.  The bindings are a map filled in the order of the
variables, so a variable that is captured twice keeps the later value. -/
def Pattern.Match (p : Pattern) (components : List String) (verb : String) :
    Except Error (List (String × String)) :=
  if p.verb ≠ verb ∧ (p.assumeColonVerb ∨ p.verb ≠ "") then .error runtime.ErrNotMatch
  else
    let components :=
      if p.verb ≠ verb then
        match components.reverse with
        | [] => [":" ++ verb]
        | c :: cs => ((c ++ ":" ++ verb) :: cs).reverse
      else components
    match Pattern.Match.loop p components p.ops
      { pos := 0, stack := [], captured := p.vars.map (fun _ => "") } with
    | .error e => .error e
    | .ok v =>
      if v.pos < components.length then .error runtime.ErrNotMatch
      else .ok ((p.vars.zip v.captured).foldl (fun b e => bindings.set b e.1 e.2) [])

/-- The literal path segments of a pattern: the pool strings its push-literal
operations (opcode 2) compare the path with, in order. -/
def Pattern.literals (p : Pattern) : List String :=
  p.ops.filterMap (fun o => if o.code = 2 then some (p.pool.getD o.operand.toNat "") else none)

/-- Whether a pattern has no parameter segment: every operation is a
push-literal, and there is no variable. -/
def Pattern.isLiteral (p : Pattern) : Bool :=
  p.ops.all (fun o => o.code = 2) && p.vars.isEmpty

/-! ## Registration from an endpoint -/

/-- A `grpc.DialOption`, of which only the identity matters here. -/
abbrev DialOption := String

/-- The function `grpc.Dial`, a collaborator outside the repository: the
connection to an endpoint, or the dial error. -/
abbrev Dialer := String → List DialOption → Except Error ClientConn

/-- What a `...FromEndpoint` function does with the connection it dialed, in
order: `Close` is a call of `conn.Close()` before the function returns, `log` a
line written to `grpclog`, and `goCloseWhenDone ctx` the start of the goroutine
that waits for `ctx.Done()` and closes the connection only then. -/
inductive ConnEvent
  | Close
  | log (msg : String)
  | goCloseWhenDone (ctx : Context)
deriving DecidableEq, Repr

/-- The deferred function of the `...FromEndpoint` functions, run with the error
the function is about to return. -/
def closeOrWatch (ctx : Context) (conn : ClientConn) (endpoint : String) (err : Option Error) :
    List ConnEvent :=
  if err ≠ none then
    match conn.Close with
    | some cerr => [.Close, .log ("Failed to close conn to " ++ endpoint ++ ": " ++ cerr.text)]
    | none => [.Close]
  else [.goCloseWhenDone ctx]

/-- The function `RegisterNetworkServiceHandlerFromEndpoint` (network.pb.gw.go,
line 416): the mux afterwards, the returned error, and what was done with the
connection. -/
def RegisterNetworkServiceHandlerFromEndpoint (rt : Runtime) (Dial : Dialer) (ctx : Context)
    (mux : ServeMux) (endpoint : String) (opts : List DialOption) :
    (ServeMux × Option Error) × List ConnEvent :=
  match Dial endpoint opts with
  | .error err => ((mux, some err), [])
  | .ok conn =>
    match RegisterNetworkServiceHandler rt ctx mux conn with
    | (mux, err) => ((mux, err), closeOrWatch ctx conn endpoint err)

/-- The function `RegisterVPNServiceHandlerFromEndpoint` (vpn.pb.gw.go, line 72):
the mux afterwards, the returned error, and what was done with the
connection. -/
def RegisterVPNServiceHandlerFromEndpoint (Dial : Dialer) (ctx : Context)
    (mux : ServeMux) (endpoint : String) (opts : List DialOption) :
    (ServeMux × Option Error) × List ConnEvent :=
  match Dial endpoint opts with
  | .error err => ((mux, some err), [])
  | .ok conn =>
    match RegisterVPNServiceHandler ctx mux conn with
    | (mux, err) => ((mux, err), closeOrWatch ctx conn endpoint err)

/-- A dialer for the examples: the endpoint `localhost:9090` answers with the
example connection, and any other endpoint cannot be reached. -/
def exampleDial : Dialer := fun endpoint _ =>
  if endpoint = "localhost:9090" then .ok exampleConn
  else .error (Error.errorString "connection refused")

/-- A request function reads the request body when its result can change with
the body alone: there are inputs that differ only in the body and give
different results. -/
def ReadsBody {τ : Type}
    (f : Context → Marshaler → τ → Request → PathParams → State → Ret × State) : Prop :=
  ∃ ctx marshaler target req body pathParams s,
    f ctx marshaler target req pathParams s
      ≠ f ctx marshaler target { req with Body := body } pathParams s

/-- A request function uses the marshaler when its result can change with the
marshaler alone. -/
def UsesMarshaler {τ : Type}
    (f : Context → Marshaler → τ → Request → PathParams → State → Ret × State) : Prop :=
  ∃ ctx marshaler marshaler2 target req pathParams s,
    f ctx marshaler target req pathParams s ≠ f ctx marshaler2 target req pathParams s

/-- A request function decodes the request body when it hands the body to the
decoder of the marshaler: its result can change with the body alone, and with
the marshaler alone. -/
def DecodesBody {τ : Type}
    (f : Context → Marshaler → τ → Request → PathParams → State → Ret × State) : Prop :=
  ReadsBody f ∧ UsesMarshaler f

/-- A marshaler whose decoder refuses every body. -/
def refusingMarshaler : Marshaler :=
  { NewDecoder := fun _ => { Decode := fun v => (v, some (Error.errorString "refused")) } }

/-- A POST request with the body of a form: the content type is
`application/x-www-form-urlencoded` and the body is the given text. -/
def formPOST (body : String) : Request :=
  { Method := "POST"
    Header := [("Content-Type", ["application/x-www-form-urlencoded"])]
    Body := { data := bytes body } }

/-! ## The command line action `vpnUpdateAction` (cmd/ovpm/action_vpn.go)

The action talks to collaborators outside the file: `url.Parse`, `grpcConnect`,
the validators of `govalidator`, the standard input read by `fmt.Scanln`, and
the VPN service behind the connection.  They are parameters.  What the action
prints, reads and calls is recorded in order in a list of events that is
returned with the way the run ends. -/

/-- Modelled from the spec: the package `errors` of the repository is not among
the sources and the spec does not describe it.  Each of its functions used by
the action (`BadURL`, `NotCIDR`, `NotIPv4`, `UnknownGRPCError`) is kept as a
constructor that records its arguments; `Errorf` is an error made by
`fmt.Errorf` with its text, and `plain` is an error of a collaborator returned
as it is. -/
inductive CLIError
  | BadURL (urlStr : String) (err : Error)
  | NotCIDR (str : String)
  | NotIPv4 (str : String)
  | UnknownGRPCError (err : Error)
  | Errorf (text : String)
  | plain (err : Error)
deriving DecidableEq, Repr

/-- Modelled from the spec: the enumeration `pb.VPNLZOPref` is declared in
`api/pb/vpn.pb.go`, which is not among the sources; these are the three values
the action names. -/
inductive VPNLZOPref
  | USE_LZO_NOPREF
  | USE_LZO_ENABLE
  | USE_LZO_DISABLE
deriving DecidableEq, Repr

/-- The method `VPNLZOPref.String`. -/
def VPNLZOPref.String : VPNLZOPref → String
  | .USE_LZO_NOPREF => "USE_LZO_NOPREF"
  | .USE_LZO_ENABLE => "USE_LZO_ENABLE"
  | .USE_LZO_DISABLE => "USE_LZO_DISABLE"

/-- Modelled from the spec: the message `pb.VPNUpdateRequest` is declared in
`api/pb/vpn.pb.go`, which is not among the sources; these are the three fields
the action sets. -/
structure VPNUpdateRequest where
  IpBlock : String := ""
  Dns : String := ""
  LzoPref : VPNLZOPref := .USE_LZO_NOPREF
deriving DecidableEq, Repr

/-- A parsed `*url.URL`. -/
structure URL where
  raw : String
deriving DecidableEq, Repr

/-- The connection of the command line client together with the stub
`pb.NewVPNServiceClient` makes on it: what the service answers to `Update`
(`none` for a nil error). -/
structure RPCConn where
  Update : Context → VPNUpdateRequest → Option Error

/-- The collaborators of the action: `url.Parse`, `grpcConnect` (declared
elsewhere in package main), `govalidator.IsCIDR` and `govalidator.IsIPv4`. -/
structure CLIEnv where
  urlParse : String → Except Error URL
  grpcConnect : URL → Except Error RPCConn
  IsCIDR : String → Bool
  IsIPv4 : String → Bool

/-- What the action does, in order: a line printed with `fmt.Println`, a read
with `fmt.Scanln`, `logrus.Fatal`, a call of `exit`, the `Update` call, the
`logrus` line at the end, and the deferred `rpcConn.Close()`. -/
inductive CLIEvent
  | Println (line : String)
  | Scanln
  | Fatal (err : Error)
  | exit (code : Nat)
  | Update (ctx : Context) (req : VPNUpdateRequest)
  | Infoln (fields : List (String × String)) (msg : String)
  | Close
deriving DecidableEq, Repr

/-- The call `context.Background()`. -/
def context.Background : Context := .root "background"

/-- Modelled from the spec: `stringInSlice` is declared elsewhere in package
main, not among the sources, and the spec does not describe it; by its name and
its use it reports whether the string is an element of the slice. -/
def stringInSlice (a : String) (list : List String) : Bool :=
  list.contains a

/-- The slice `okayResponses` (action_vpn.go, line 156). -/
def okayResponses : List String := ["y", "Y", "yes", "Yes", "YES"]

/-- The slice `nokayResponses` (action_vpn.go, line 157). -/
def nokayResponses : List String := ["n", "N", "no", "No", "NO"]

/-- One round of the prompt (action_vpn.go, lines 146-150): four printed lines
and one read. -/
def promptRound : List CLIEvent :=
  [.Println "If you proceed, you will loose all your static ip definitions.",
    .Println "Any user that is defined to have a static ip will be set to be dynamic again.",
    .Println "",
    .Println "Are you sure ? (y/N)",
    .Scanln]

/-- How the confirmation loop ends. -/
inductive Confirmation
  | proceed
  | cancel
  | failed (err : Error)
deriving DecidableEq, Repr

/-- How a run of the action ends: the function returns an error (`none` for
nil), or the process ends inside the function, at `logrus.Fatal`. -/
inductive Outcome
  | returned (err : Option CLIError)
  | processEnded
deriving DecidableEq, Repr

/-- The confirmation loop (action_vpn.go, lines 145-163) on the outcomes of the
successive reads of the standard input; a read past the end of the input fails
with end of input.  A failed read ends at `logrus.Fatal`, which ends the
process: nothing happens after it. -/
def vpnUpdateAction.confirm : List (Except Error String) → Confirmation × List CLIEvent
  | [] => (.failed Error.EOF, promptRound ++ [.Fatal Error.EOF])
  | .error err :: _ => (.failed err, promptRound ++ [.Fatal err])
  | .ok response :: rest =>
    if stringInSlice response okayResponses then (.proceed, promptRound)
    else if stringInSlice response nokayResponses then (.cancel, promptRound)
    else
      match vpnUpdateAction.confirm rest with
      | (r, events) => (r, promptRound ++ events)

/-- The block "Set netCIDR if provided" (action_vpn.go, lines 137-165): the
value of `targetNetCIDR`, or how the run ends inside the block, with the events
of the block. -/
def vpnUpdateAction.targetNetCIDR (env : CLIEnv) (stdin : List (Except Error String))
    (netCIDR : Option String) : Except Outcome String × List CLIEvent :=
  match netCIDR with
  | none => (.ok "", [])
  | some cidr =>
    if !env.IsCIDR cidr then (.error (.returned (some (.NotCIDR cidr))), [])
    else
      match vpnUpdateAction.confirm stdin with
      | (.failed _, events) => (.error .processEnded, events)
      | (.cancel, events) =>
        (.error (.returned (some (.Errorf "user decided to cancel"))), events)
      | (.proceed, events) => (.ok cidr, events)

/-- The block "Set DNS address if provided" (action_vpn.go, lines 167-174). -/
def vpnUpdateAction.targetDNSAddr (env : CLIEnv) (dnsAddr : Option String) :
    Except CLIError String :=
  match dnsAddr with
  | none => .ok ""
  | some addr => if !env.IsIPv4 addr then .error (.NotIPv4 addr) else .ok addr

/-- The block "Set USE-LZO preference if provided" (action_vpn.go, lines
176-187): the variable starts at its zero value and is assigned in every
branch. -/
def vpnUpdateAction.targetLZOPref (useLzo : Option Bool) : VPNLZOPref :=
  let targetLZOPref : VPNLZOPref := .USE_LZO_NOPREF
  match useLzo with
  | none => .USE_LZO_NOPREF
  | some b =>
    let targetLZOPref := if b = true then VPNLZOPref.USE_LZO_ENABLE else targetLZOPref
    if b = false then .USE_LZO_DISABLE else targetLZOPref

/-- The function `vpnUpdateAction` (action_vpn.go, line 122): how the run ends
and its events.  The deferred `rpcConn.Close()` is the last event of every
return after the connection is made; when the process ends inside the function
the deferred call does not run. -/
def vpnUpdateAction (env : CLIEnv) (stdin : List (Except Error String))
    (rpcServURLStr : String) (netCIDR dnsAddr : Option String) (useLzo : Option Bool) :
    Outcome × List CLIEvent :=
  match env.urlParse rpcServURLStr with
  | .error err => (.returned (some (.BadURL rpcServURLStr err)), [])
  | .ok rpcSrvURL =>
    match env.grpcConnect rpcSrvURL with
    | .error err => (.returned (some (.plain err)), [.exit 1])
    | .ok rpcConn =>
      match vpnUpdateAction.targetNetCIDR env stdin netCIDR with
      | (.error .processEnded, events) => (.processEnded, events)
      | (.error (.returned err), events) => (.returned err, events ++ [.Close])
      | (.ok targetNetCIDR, events) =>
        match vpnUpdateAction.targetDNSAddr env dnsAddr with
        | .error err => (.returned (some err), events ++ [.Close])
        | .ok targetDNSAddr =>
          let targetLZOPref := vpnUpdateAction.targetLZOPref useLzo
          let req : VPNUpdateRequest :=
            { IpBlock := targetNetCIDR, Dns := targetDNSAddr, LzoPref := targetLZOPref }
          match rpcConn.Update context.Background req with
          | some err =>
            (.returned (some (.UnknownGRPCError err)),
              events ++ [.Update context.Background req, .exit 1, .Close])
          | none =>
            (.returned none,
              events ++ [.Update context.Background req,
                .Infoln [("SERVER", "OpenVPN"), ("CIDR", targetNetCIDR),
                  ("DNS", targetDNSAddr), ("USE_LZO", targetLZOPref.String)] "changes applied",
                .Close])

/-- Whether an event is the `Update` call. -/
def CLIEvent.isUpdate : CLIEvent → Bool
  | .Update _ _ => true
  | _ => false

/-- Whether an event belongs to the prompt: a printed line or a read. -/
def CLIEvent.isPrompt : CLIEvent → Bool
  | .Println _ => true
  | .Scanln => true
  | _ => false

/-- Collaborators for the examples: every URL parses and connects, the service
accepts every update, the only valid CIDR is `10.9.0.0/24` and the only valid
IPv4 address is `8.8.8.8`. -/
def exampleCLIEnv : CLIEnv :=
  { urlParse := fun s => .ok { raw := s }
    grpcConnect := fun _ => .ok { Update := fun _ _ => none }
    IsCIDR := fun s => s == "10.9.0.0/24"
    IsIPv4 := fun s => s == "8.8.8.8" }

/-- The USE-LZO preference as the description of the action states it: no
preference when the argument is absent, enable when it is true, disable when it
is false. -/
def expectedLZOPref : Option Bool → VPNLZOPref
  | none => .USE_LZO_NOPREF
  | some true => .USE_LZO_ENABLE
  | some false => .USE_LZO_DISABLE

/-- The request as the description of the action states it: each field is the
provided argument, or the empty string, respectively no preference, when the
argument is absent. -/
def expectedUpdateRequest (netCIDR dnsAddr : Option String) (useLzo : Option Bool) :
    VPNUpdateRequest :=
  { IpBlock := netCIDR.getD "", Dns := dnsAddr.getD "", LzoPref := expectedLZOPref useLzo }

/-! ## Theorems -/

/-- Every remote request function of NetworkService is its binding step followed
by one remote dispatch. -/
theorem request_NetworkService_eq (rt : Runtime) (x : NetworkMethod) (ctx : Context)
    (marshaler : Marshaler) (client : NetworkServiceClient) (req : Request)
    (pathParams : PathParams) (s : State) :
    request_NetworkService rt x ctx marshaler client req pathParams s =
      match bind_NetworkService rt x marshaler req with
      | .error e => bind_refused e s
      | .ok r => dispatch_remote x.name (x.client client) ctx r s := by
  rcases hf : req.ParseForm rt with ⟨form, _ | ferr⟩ <;>
  rcases hq : runtime.PopulateQueryParameters rt x.requestType.zero form
    filter_NetworkService_GetAssociatedUsers_0 with ⟨q, _ | qerr⟩ <;>
  rcases hb : utilities.IOReaderFactory req.Body with berr | newReader
  all_goals first
    | (cases x <;> simp only [NetworkMethod.requestType] at hq <;>
        simp [hf, hq, hb, bind_NetworkService, NetworkMethod.hasBody, NetworkMethod.requestType,
          request_NetworkService, request_NetworkService_Create_0,
          request_NetworkService_List_0, request_NetworkService_Delete_0,
          request_NetworkService_GetAllTypes_0, request_NetworkService_GetAssociatedUsers_0,
          request_NetworkService_Associate_0, request_NetworkService_Dissociate_0,
          NetworkMethod.name, NetworkMethod.client, callOptions, dispatch_remote,
          bind_refused, grpc.invoke, grpc.Header, grpc.Trailer, CallOption.capture,
          ServerMetadata.store, status.Errorf, fmt.v, codes.InvalidArgument]; done)
    | (rcases hd : (marshaler.NewDecoder newReader).Decode x.requestType.zero with
        ⟨v, _ | derr⟩ <;>
      [have he : True := trivial; by_cases he : derr = Error.EOF] <;>
      cases x <;> simp only [NetworkMethod.requestType] at hq hd <;>
        simp [hf, hq, hb, hd, he, bind_NetworkService, NetworkMethod.hasBody, NetworkMethod.requestType,
          request_NetworkService, request_NetworkService_Create_0,
          request_NetworkService_List_0, request_NetworkService_Delete_0,
          request_NetworkService_GetAllTypes_0, request_NetworkService_GetAssociatedUsers_0,
          request_NetworkService_Associate_0, request_NetworkService_Dissociate_0,
          NetworkMethod.name, NetworkMethod.client, callOptions, dispatch_remote,
          bind_refused, grpc.invoke, grpc.Header, grpc.Trailer, CallOption.capture,
          ServerMetadata.store, status.Errorf, fmt.v, codes.InvalidArgument])

/-- Every local request function of NetworkService is its binding step followed
by one local dispatch. -/
theorem local_request_NetworkService_eq (rt : Runtime) (x : NetworkMethod) (ctx : Context)
    (marshaler : Marshaler) (server : NetworkServiceServer) (req : Request)
    (pathParams : PathParams) (s : State) :
    local_request_NetworkService rt x ctx marshaler server req pathParams s =
      match bind_NetworkService rt x marshaler req with
      | .error e => bind_refused e s
      | .ok r => dispatch_local x.name (x.server server) ctx r s := by
  rcases hf : req.ParseForm rt with ⟨form, _ | ferr⟩ <;>
  rcases hq : runtime.PopulateQueryParameters rt x.requestType.zero form
    filter_NetworkService_GetAssociatedUsers_0 with ⟨q, _ | qerr⟩ <;>
  rcases hb : utilities.IOReaderFactory req.Body with berr | newReader
  all_goals first
    | (cases x <;> simp only [NetworkMethod.requestType] at hq <;>
        simp [hf, hq, hb, bind_NetworkService, NetworkMethod.hasBody, NetworkMethod.requestType,
          local_request_NetworkService, local_request_NetworkService_Create_0,
          local_request_NetworkService_List_0, local_request_NetworkService_Delete_0,
          local_request_NetworkService_GetAllTypes_0,
          local_request_NetworkService_GetAssociatedUsers_0,
          local_request_NetworkService_Associate_0, local_request_NetworkService_Dissociate_0,
          NetworkMethod.name, NetworkMethod.server, dispatch_local, bind_refused,
          grpc.serve, metadata.Join, status.Errorf, fmt.v, codes.InvalidArgument]; done)
    | (rcases hd : (marshaler.NewDecoder newReader).Decode x.requestType.zero with
        ⟨v, _ | derr⟩ <;>
      [have he : True := trivial; by_cases he : derr = Error.EOF] <;>
      cases x <;> simp only [NetworkMethod.requestType] at hq hd <;>
        simp [hf, hq, hb, hd, he, bind_NetworkService, NetworkMethod.hasBody, NetworkMethod.requestType,
          local_request_NetworkService, local_request_NetworkService_Create_0,
          local_request_NetworkService_List_0, local_request_NetworkService_Delete_0,
          local_request_NetworkService_GetAllTypes_0,
          local_request_NetworkService_GetAssociatedUsers_0,
          local_request_NetworkService_Associate_0, local_request_NetworkService_Dissociate_0,
          NetworkMethod.name, NetworkMethod.server, dispatch_local, bind_refused,
          grpc.serve, metadata.Join, status.Errorf, fmt.v, codes.InvalidArgument])

/-- Every request function of VPNService is its binding step followed by one
remote dispatch. -/
theorem request_VPNService_eq (y : VPNMethod) (ctx : Context) (marshaler : Marshaler)
    (client : VPNServiceClient) (req : Request) (pathParams : PathParams) (s : State) :
    request_VPNService y ctx marshaler client req pathParams s =
      match bind_VPNService y marshaler req with
      | .error e => bind_refused e s
      | .ok r => dispatch_remote y.name (y.client client) ctx r s := by
  rcases hd : (marshaler.NewDecoder req.Body).Decode y.requestType.zero with ⟨v, _ | derr⟩ <;>
  cases y <;>
    simp_all [bind_VPNService, VPNMethod.requestType, request_VPNService,
      request_VPNService_Status_0, request_VPNService_Init_0, request_VPNService_Update_0,
      VPNMethod.name, VPNMethod.client, callOptions, dispatch_remote, bind_refused,
      grpc.invoke, grpc.Header, grpc.Trailer, CallOption.capture, ServerMetadata.store,
      status.Errorf, fmt.v, codes.InvalidArgument]

/-- C1: for every NetworkService method that binds input, in local and in
remote mode, a binding failure with underlying error `e` (no body reader, a
decoder error other than end-of-input, a form that does not parse, a query that
does not populate) makes the request function return a nil message and the
InvalidArgument error (code 3) whose message is the text of `e`; the state, and
so the trace of invocations, is unchanged: the target is never invoked. -/
theorem binding_failure_is_InvalidArgument (rt : Runtime) (x : NetworkMethod) (ctx : Context)
    (marshaler : Marshaler) (client : NetworkServiceClient) (server : NetworkServiceServer)
    (req : Request) (pathParams : PathParams) (s : State) (e : Error)
    (h : BindingFails rt x marshaler req e) :
    request_NetworkService rt x ctx marshaler client req pathParams s
        = ((none, {}, some (Error.status 3 e.text)), s) ∧
      local_request_NetworkService rt x ctx marshaler server req pathParams s
        = ((none, {}, some (Error.status 3 e.text)), s) := by
  rcases h with ⟨hx, hb⟩ | ⟨hx, r, hb, hd, hne⟩ | ⟨hx, hp⟩ | ⟨hx, hp, hq⟩
  · cases x <;> simp [NetworkMethod.hasBody] at hx <;>
      simp [request_NetworkService, local_request_NetworkService,
        request_NetworkService_Create_0, local_request_NetworkService_Create_0,
        request_NetworkService_Delete_0, local_request_NetworkService_Delete_0,
        request_NetworkService_Associate_0, local_request_NetworkService_Associate_0,
        request_NetworkService_Dissociate_0, local_request_NetworkService_Dissociate_0,
        hb, status.Errorf, fmt.v, codes.InvalidArgument]
  · cases x <;> simp [NetworkMethod.hasBody] at hx <;>
      simp only [NetworkMethod.requestType] at hd <;>
      simp [request_NetworkService, local_request_NetworkService,
        request_NetworkService_Create_0, local_request_NetworkService_Create_0,
        request_NetworkService_Delete_0, local_request_NetworkService_Delete_0,
        request_NetworkService_Associate_0, local_request_NetworkService_Associate_0,
        request_NetworkService_Dissociate_0, local_request_NetworkService_Dissociate_0,
        hb, hd, hne, status.Errorf, fmt.v, codes.InvalidArgument]
  · subst hx
    rcases hf : req.ParseForm rt with ⟨form, err⟩
    simp only [hf] at hp
    subst hp
    simp [request_NetworkService, local_request_NetworkService,
      request_NetworkService_GetAssociatedUsers_0,
      local_request_NetworkService_GetAssociatedUsers_0, hf, status.Errorf, fmt.v,
      codes.InvalidArgument]
  · subst hx
    rcases hf : req.ParseForm rt with ⟨form, err⟩
    simp only [hf] at hp hq
    subst hp
    simp only [NetworkMethod.requestType] at hq
    rcases hv : runtime.PopulateQueryParameters rt
      MessageType.NetworkGetAssociatedUsersRequest.zero form
      filter_NetworkService_GetAssociatedUsers_0 with ⟨v, err⟩
    simp only [hv] at hq
    subst hq
    simp [request_NetworkService, local_request_NetworkService,
      request_NetworkService_GetAssociatedUsers_0,
      local_request_NetworkService_GetAssociatedUsers_0, hf, hv, status.Errorf, fmt.v,
      codes.InvalidArgument]

/-- C1, worked example (scenario 3 of the spec): `POST /api/v1/network/associate`
with the malformed body `{` is refused with code 3 in both modes, and nothing is
invoked. -/
theorem binding_failure_is_InvalidArgument_witness :
    BindingFails exampleRuntime .Associate exampleMarshaler { Body := { data := [123] } }
        (Error.errorString "invalid character") ∧
      request_NetworkService exampleRuntime .Associate (.root "rpc") exampleMarshaler
          exampleClient { Body := { data := [123] } } [] {}
        = ((none, {}, some (Error.status 3 "invalid character")), {}) ∧
      local_request_NetworkService exampleRuntime .Associate (.root "rpc") exampleMarshaler
          exampleServer { Body := { data := [123] } } [] {}
        = ((none, {}, some (Error.status 3 "invalid character")), {}) :=
  have h : BindingFails exampleRuntime .Associate exampleMarshaler
      { Body := { data := [123] } } (Error.errorString "invalid character") :=
    Or.inr (Or.inl ⟨rfl, _, rfl, by simp [exampleMarshaler], by decide⟩)
  ⟨h, binding_failure_is_InvalidArgument exampleRuntime .Associate (.root "rpc")
    exampleMarshaler exampleClient exampleServer { Body := { data := [123] } } [] {} _ h⟩

/-- C2: evaluation of the three VPNService request functions on an empty body,
for which the decoder reports end-of-input.  Each of them returns a nil message
and the InvalidArgument error with message `EOF`, and leaves the trace empty:
the client method is not invoked. -/
theorem request_VPNService_refuses_empty_body (x : VPNMethod) :
    (exampleMarshaler.NewDecoder {}).Decode x.requestType.zero
        = (x.requestType.zero, some Error.EOF) ∧
      request_VPNService x (.root "rpc") exampleMarshaler (NewVPNServiceClient exampleConn)
          { Body := {} } [] {}
        = ((none, {}, some (Error.status 3 "EOF")), {}) := by
  cases x <;> exact ⟨rfl, rfl⟩

/-- C3: for every body-bearing NetworkService method, in both modes, when the
body has been read and the decoder reports end-of-input without having written
to the message, binding succeeds with the zero-valued request; the trace grows
by exactly one invocation of the method, made with the context the function
received and the zero-valued request, and the function returns the message and
error of that invocation. -/
theorem empty_body_dispatches_zero_request (rt : Runtime) (x : NetworkMethod)
    (ctx : Context) (marshaler : Marshaler) (client : NetworkServiceClient)
    (server : NetworkServiceServer) (req : Request) (pathParams : PathParams) (s : State)
    (newReader : Reader) (hx : x.hasBody = true)
    (hb : utilities.IOReaderFactory req.Body = .ok newReader)
    (hd : (marshaler.NewDecoder newReader).Decode x.requestType.zero
      = (x.requestType.zero, some Error.EOF)) :
    bind_NetworkService rt x marshaler req = .ok x.requestType.zero ∧
      (request_NetworkService rt x ctx marshaler client req pathParams s).2.trace
        = s.trace ++ [.clientCall x.name ctx x.requestType.zero callOptions] ∧
      (request_NetworkService rt x ctx marshaler client req pathParams s).1.1
        = (x.client client ctx x.requestType.zero callOptions).msg ∧
      (request_NetworkService rt x ctx marshaler client req pathParams s).1.2.2
        = (x.client client ctx x.requestType.zero callOptions).err ∧
      (local_request_NetworkService rt x ctx marshaler server req pathParams s).2.trace
        = s.trace ++ [.serverCall x.name ctx x.requestType.zero] ∧
      (local_request_NetworkService rt x ctx marshaler server req pathParams s).1.1
        = (x.server server ctx x.requestType.zero).msg ∧
      (local_request_NetworkService rt x ctx marshaler server req pathParams s).1.2.2
        = (x.server server ctx x.requestType.zero).err := by
  cases x <;> simp [NetworkMethod.hasBody] at hx <;>
    simp only [NetworkMethod.requestType] at hd <;>
    simp [bind_NetworkService, NetworkMethod.hasBody, NetworkMethod.requestType,
      NetworkMethod.name, NetworkMethod.client, NetworkMethod.server, callOptions,
      request_NetworkService, local_request_NetworkService,
      request_NetworkService_Create_0, local_request_NetworkService_Create_0,
      request_NetworkService_Delete_0, local_request_NetworkService_Delete_0,
      request_NetworkService_Associate_0, local_request_NetworkService_Associate_0,
      request_NetworkService_Dissociate_0, local_request_NetworkService_Dissociate_0,
      hb, hd, grpc.invoke, grpc.serve]

/-- C3, worked example: `POST /api/v1/network/create` with an empty body reaches
the client and the service once, with the zero-valued `NetworkCreateRequest`. -/
theorem empty_body_dispatches_zero_request_witness :
    (request_NetworkService exampleRuntime .Create (.root "rpc") exampleMarshaler
        exampleClient {} [] {}).2.trace
      = [.clientCall "NetworkService.Create" (.root "rpc")
          { type := .NetworkCreateRequest, fields := [] }
          [.Header .HeaderMD, .Trailer .TrailerMD]] ∧
    (local_request_NetworkService exampleRuntime .Create (.root "rpc") exampleMarshaler
        exampleServer {} [] {}).2.trace
      = [.serverCall "NetworkService.Create" (.root "rpc")
          { type := .NetworkCreateRequest, fields := [] }] :=
  have h := empty_body_dispatches_zero_request exampleRuntime .Create (.root "rpc")
    exampleMarshaler exampleClient exampleServer {} [] {} {} rfl rfl rfl
  ⟨h.2.1, h.2.2.2.2.1⟩

/-- C4: whenever binding succeeds with the typed request `r`, every request
function (NetworkService remote and local, VPNService) extends the trace by
exactly one invocation of its target method, made with the context the function
received and with `r`, and returns exactly the message and the error of that
invocation. -/
theorem bound_request_is_dispatched_once (rt : Runtime) (ctx : Context)
    (marshaler : Marshaler) (req : Request) (pathParams : PathParams) (s : State)
    (r : ProtoMessage) :
    (∀ (x : NetworkMethod) (client : NetworkServiceClient) (server : NetworkServiceServer),
      bind_NetworkService rt x marshaler req = .ok r →
        (request_NetworkService rt x ctx marshaler client req pathParams s).1
            = ((x.client client ctx r callOptions).msg,
                { HeaderMD := (x.client client ctx r callOptions).header
                  TrailerMD := (x.client client ctx r callOptions).trailer },
                (x.client client ctx r callOptions).err) ∧
          (request_NetworkService rt x ctx marshaler client req pathParams s).2.trace
            = s.trace ++ [.clientCall x.name ctx r callOptions] ∧
          (local_request_NetworkService rt x ctx marshaler server req pathParams s).1
            = ((x.server server ctx r).msg, {}, (x.server server ctx r).err) ∧
          (local_request_NetworkService rt x ctx marshaler server req pathParams s).2.trace
            = s.trace ++ [.serverCall x.name ctx r]) ∧
    (∀ (y : VPNMethod) (client : VPNServiceClient),
      bind_VPNService y marshaler req = .ok r →
        (request_VPNService y ctx marshaler client req pathParams s).1
            = ((y.client client ctx r callOptions).msg,
                { HeaderMD := (y.client client ctx r callOptions).header
                  TrailerMD := (y.client client ctx r callOptions).trailer },
                (y.client client ctx r callOptions).err) ∧
          (request_VPNService y ctx marshaler client req pathParams s).2.trace
            = s.trace ++ [.clientCall y.name ctx r callOptions]) := by
  refine ⟨?_, ?_⟩
  · intro x client server h
    cases x <;>
      simp only [bind_NetworkService, NetworkMethod.hasBody, NetworkMethod.requestType] at h <;>
      (repeat' split at h) <;>
      simp_all [NetworkMethod.name, NetworkMethod.client, NetworkMethod.server, callOptions,
        request_NetworkService, local_request_NetworkService,
        request_NetworkService_Create_0, local_request_NetworkService_Create_0,
        request_NetworkService_List_0, local_request_NetworkService_List_0,
        request_NetworkService_Delete_0, local_request_NetworkService_Delete_0,
        request_NetworkService_GetAllTypes_0, local_request_NetworkService_GetAllTypes_0,
        request_NetworkService_GetAssociatedUsers_0,
        local_request_NetworkService_GetAssociatedUsers_0,
        request_NetworkService_Associate_0, local_request_NetworkService_Associate_0,
        request_NetworkService_Dissociate_0, local_request_NetworkService_Dissociate_0,
        grpc.invoke, grpc.serve, grpc.Header, grpc.Trailer, CallOption.capture,
        ServerMetadata.store]
  · intro y client h
    cases y <;>
      simp only [bind_VPNService, VPNMethod.requestType] at h <;>
      (repeat' split at h) <;>
      simp_all [VPNMethod.name, VPNMethod.client, callOptions, request_VPNService,
        request_VPNService_Status_0, request_VPNService_Init_0, request_VPNService_Update_0,
        grpc.invoke, grpc.Header, grpc.Trailer, CallOption.capture, ServerMetadata.store]

/-- C4, worked example (scenario 1 of the spec, with the body `{}`): the create
request is bound and the client, the service and the VPN client are each invoked
once, with the bound request. -/
theorem bound_request_is_dispatched_once_witness :
    bind_NetworkService exampleRuntime .Create exampleMarshaler
        { Body := { data := [123, 125] } } = .ok MessageType.NetworkCreateRequest.zero ∧
      (request_NetworkService exampleRuntime .Create (.root "rpc") exampleMarshaler
          exampleClient { Body := { data := [123, 125] } } [] {}).2.trace
        = [.clientCall "NetworkService.Create" (.root "rpc")
            MessageType.NetworkCreateRequest.zero callOptions] ∧
      (local_request_NetworkService exampleRuntime .Create (.root "rpc") exampleMarshaler
          exampleServer { Body := { data := [123, 125] } } [] {}).2.trace
        = [.serverCall "NetworkService.Create" (.root "rpc")
            MessageType.NetworkCreateRequest.zero] :=
  have h := (bound_request_is_dispatched_once exampleRuntime (.root "rpc") exampleMarshaler
    { Body := { data := [123, 125] } } [] {} MessageType.NetworkCreateRequest.zero).1
    .Create exampleClient exampleServer rfl
  ⟨rfl, h.2.1, h.2.2.2⟩

/-- C5: dispatch-mode symmetry.  For every NetworkService method, marshaler,
request and path parameters, and for every client and server whose method
computes the same message and error from the same context and typed request,
the local and the remote request function return the same message and the same
error, and either neither invokes its target or both invoke it once with the
same context and the same typed request.  (The returned metadata and the
transport stream are the only places left for a difference.) -/
theorem dispatch_mode_symmetry (rt : Runtime) (x : NetworkMethod) (ctx : Context)
    (marshaler : Marshaler) (client : NetworkServiceClient) (server : NetworkServiceServer)
    (req : Request) (pathParams : PathParams) (s : State)
    (h : ∀ c r opts, (x.client client c r opts).msg = (x.server server c r).msg ∧
      (x.client client c r opts).err = (x.server server c r).err) :
    (local_request_NetworkService rt x ctx marshaler server req pathParams s).1.1
        = (request_NetworkService rt x ctx marshaler client req pathParams s).1.1 ∧
      (local_request_NetworkService rt x ctx marshaler server req pathParams s).1.2.2
        = (request_NetworkService rt x ctx marshaler client req pathParams s).1.2.2 ∧
      (((local_request_NetworkService rt x ctx marshaler server req pathParams s).2.trace
            = s.trace ∧
          (request_NetworkService rt x ctx marshaler client req pathParams s).2.trace
            = s.trace) ∨
        ∃ r,
          (local_request_NetworkService rt x ctx marshaler server req pathParams s).2.trace
              = s.trace ++ [.serverCall x.name ctx r] ∧
            (request_NetworkService rt x ctx marshaler client req pathParams s).2.trace
              = s.trace ++ [.clientCall x.name ctx r callOptions]) := by
  rw [local_request_NetworkService_eq, request_NetworkService_eq]
  rcases bind_NetworkService rt x marshaler req with e | r
  · simp [bind_refused]
  · refine ⟨?_, ?_, Or.inr ⟨r, ?_, ?_⟩⟩ <;> simp [dispatch_local, dispatch_remote, h]

/-- C5, worked example: with the example client and server, which answer alike,
the two request functions of `Create` return the same message and error on the
body `{}`. -/
theorem dispatch_mode_symmetry_witness :
    (local_request_NetworkService exampleRuntime .Create (.root "rpc") exampleMarshaler
        exampleServer { Body := { data := [123, 125] } } [] {}).1.1
      = (request_NetworkService exampleRuntime .Create (.root "rpc") exampleMarshaler
        exampleClient { Body := { data := [123, 125] } } [] {}).1.1 ∧
    (local_request_NetworkService exampleRuntime .Create (.root "rpc") exampleMarshaler
        exampleServer { Body := { data := [123, 125] } } [] {}).1.2.2
      = (request_NetworkService exampleRuntime .Create (.root "rpc") exampleMarshaler
        exampleClient { Body := { data := [123, 125] } } [] {}).1.2.2 :=
  have h := dispatch_mode_symmetry exampleRuntime .Create (.root "rpc") exampleMarshaler
    exampleClient exampleServer { Body := { data := [123, 125] } } [] {}
    (fun _ _ _ => ⟨rfl, rfl⟩)
  ⟨h.1, h.2.1⟩

/-- The filter of `GetAssociatedUsers` excludes no field path. -/
theorem filter_GetAssociatedUsers_excludes_nothing (seq : List String) :
    filter_NetworkService_GetAssociatedUsers_0.HasCommonPrefix seq = false := by
  simp [DoubleArray.HasCommonPrefix, filter_NetworkService_GetAssociatedUsers_0]

/-- What `splitAtFirst` answers is a cut of the list at an occurrence of the
character, with no occurrence before it. -/
theorem splitAtFirst_some (c : Char) : ∀ (l a b : List Char),
    splitAtFirst c l = some (a, b) → l = a ++ c :: b ∧ c ∉ a := by
  intro l
  induction l with
  | nil => intro a b h; simp [splitAtFirst] at h
  | cons x xs ih =>
    intro a b h
    simp only [splitAtFirst] at h
    by_cases hx : x = c
    · simp [hx] at h
      obtain ⟨rfl, rfl⟩ := h
      simp [hx]
    · simp only [hx, if_false] at h
      rcases hs : splitAtFirst c xs with _ | ⟨a2, b2⟩
      · simp [hs] at h
      · simp only [hs, Option.some.injEq, Prod.mk.injEq] at h
        obtain ⟨rfl, rfl⟩ := h
        obtain ⟨h1, h2⟩ := ih a2 b2 hs
        refine ⟨by simp [h1], ?_⟩
        simp only [List.mem_cons, not_or]
        exact ⟨fun hc => hx hc.symm, h2⟩

/-- When `splitAtFirst` answers nothing, the character does not occur. -/
theorem splitAtFirst_none (c : Char) : ∀ (l : List Char),
    splitAtFirst c l = none → c ∉ l := by
  intro l
  induction l with
  | nil => intro _; simp
  | cons x xs ih =>
    intro h
    simp only [splitAtFirst] at h
    by_cases hx : x = c
    · simp [hx] at h
    · simp only [hx, if_false] at h
      rcases hs : splitAtFirst c xs with _ | ⟨a2, b2⟩
      · simp only [List.mem_cons, not_or]
        exact ⟨fun hc => hx hc.symm, ih hs⟩
      · simp [hs] at h

/-- A key the expression of the query parser matches has the subscript the
match names. -/
theorem FindStringSubmatch_some (key k sub : String)
    (h : valuesKeyRegexp.FindStringSubmatch key = some (k, sub)) :
    Subscripted key.data k.data sub.data := by
  unfold valuesKeyRegexp.FindStringSubmatch at h
  by_cases hn : Char.ofNat 10 ∈ key.data
  · simp [hn] at h
  · simp only [hn, if_false] at h
    rcases hr : key.data.reverse with _ | ⟨c, rest⟩
    · simp [hr] at h
    · simp only [hr] at h
      by_cases hc : c = ']'
      · simp only [hc, if_true] at h
        rcases hs : splitAtFirst '[' rest with _ | ⟨a, b⟩
        · simp [hs] at h
        · simp only [hs, Option.some.injEq, Prod.mk.injEq] at h
          obtain ⟨rfl, rfl⟩ := h
          obtain ⟨h1, h2⟩ := splitAtFirst_some _ _ _ _ hs
          have hk : key.data = (c :: rest).reverse := by rw [← hr, List.reverse_reverse]
          refine ⟨?_, ?_, hn⟩
          · rw [hk, h1, hc]; simp
          · simpa using h2
      · simp [hc] at h

/-- A key the expression of the query parser does not match has no subscript. -/
theorem FindStringSubmatch_none (key : String)
    (h : valuesKeyRegexp.FindStringSubmatch key = none) :
    ∀ a b, ¬ Subscripted key.data a b := by
  intro a b ⟨h1, h2, hn⟩
  unfold valuesKeyRegexp.FindStringSubmatch at h
  simp only [hn, if_false] at h
  have hr : key.data.reverse = ']' :: (b.reverse ++ '[' :: a.reverse) := by
    rw [h1]; simp
  simp only [hr, if_true] at h
  rcases hs : splitAtFirst '[' (b.reverse ++ '[' :: a.reverse) with _ | ⟨x, y⟩
  · have := splitAtFirst_none _ _ hs
    simp at this
  · simp [hs] at h

/-- The loop of `strings.Split` gives at least one piece. -/
theorem strings.Split.go_ne_nil (sep : Char) : ∀ (cs cur : List Char),
    strings.Split.go sep cs cur ≠ [] := by
  intro cs
  induction cs with
  | nil => intro cur; simp [strings.Split.go]
  | cons c cs ih =>
    intro cur
    simp only [strings.Split.go]
    split
    · simp
    · exact ih _

/-- Joining the pieces of `strings.Split` with the separator gives the text back. -/
theorem strings.Split.go_intercalate (sep : Char) : ∀ (cs cur : List Char),
    List.intercalate [sep] ((strings.Split.go sep cs cur).map String.data) = cur.reverse ++ cs := by
  intro cs
  induction cs with
  | nil => intro cur; simp [strings.Split.go, List.intercalate, List.intersperse]
  | cons c cs ih =>
    intro cur
    simp only [strings.Split.go]
    split
    · rename_i hc
      have h := ih []
      rcases hg : strings.Split.go sep cs [] with _ | ⟨p, ps⟩
      · exact absurd hg (strings.Split.go_ne_nil sep cs [])
      · rw [hg] at h
        simp only [List.intercalate, List.map_cons, List.intersperse] at h ⊢
        simp only [List.reverse_nil, List.nil_append] at h
        simp [h, hc]
    · rw [ih]; simp

/-- No piece of `strings.Split` holds the separator. -/
theorem strings.Split.go_no_sep (sep : Char) : ∀ (cs cur : List Char), sep ∉ cur →
    ∀ p ∈ strings.Split.go sep cs cur, sep ∉ p.data := by
  intro cs
  induction cs with
  | nil => intro cur hcur p hp; simp [strings.Split.go] at hp; subst hp; simpa using hcur
  | cons c cs ih =>
    intro cur hcur p hp
    simp only [strings.Split.go] at hp
    split at hp
    · simp only [List.mem_cons] at hp
      rcases hp with rfl | hp
      · simpa using hcur
      · exact ih [] (by simp) p hp
    · rename_i hc
      refine ih (c :: cur) ?_ p hp
      simp only [List.mem_cons, not_or]
      exact ⟨fun h => hc h.symm, hcur⟩

/-- The field path and the values of a form entry are the ones the description
of the query binder asks for. -/
theorem formField_spec (key : String) (vs : List String) :
    FieldOfEntry key vs (formField (key, vs)).1 (formField (key, vs)).2 := by
  unfold formField
  rcases hm : valuesKeyRegexp.FindStringSubmatch key with _ | ⟨k, sub⟩
  · refine ⟨key.data, Or.inr ⟨FindStringSubmatch_none key hm, rfl, rfl⟩,
      strings.Split.go_ne_nil _ _ _, ?_, strings.Split.go_no_sep _ _ _ (by simp)⟩
    simpa using strings.Split.go_intercalate '.' key.data []
  · refine ⟨k.data, Or.inl ⟨sub.data, FindStringSubmatch_some key k sub hm, rfl⟩,
      strings.Split.go_ne_nil _ _ _, ?_, strings.Split.go_no_sep _ _ _ (by simp)⟩
    simpa using strings.Split.go_intercalate '.' k.data []

/-- With the filter of `GetAssociatedUsers`, the query-parameter binder writes
every entry it is given. -/
theorem PopulateQueryParameters_loop_filter_GetAssociatedUsers (rt : Runtime) (entries : Form) :
    ∀ msg, runtime.PopulateQueryParameters.loop rt msg entries
      filter_NetworkService_GetAssociatedUsers_0 = populateAll rt msg (entries.map formField) := by
  induction entries with
  | nil => intro msg; simp [runtime.PopulateQueryParameters.loop, populateAll]
  | cons entry rest ih =>
    intro msg
    obtain ⟨key, vs⟩ := entry
    simp only [runtime.PopulateQueryParameters.loop, List.map_cons, formField,
      filter_GetAssociatedUsers_excludes_nothing]
    rcases valuesKeyRegexp.FindStringSubmatch key with _ | ⟨k, sub⟩
    · simp only [populateAll]
      rcases rt.populateFieldValueFromPath msg (strings.Split key '.') vs with ⟨m, _ | err⟩
      · simpa using ih m
      · simp
    · simp only [populateAll]
      rcases rt.populateFieldValueFromPath msg (strings.Split k '.') (sub :: vs) with ⟨m, _ | err⟩
      · simpa using ih m
      · simp

/-- With the filter of `GetAssociatedUsers`, the query-parameter binder writes
the field of every form entry, in the order the map is visited. -/
theorem PopulateQueryParameters_filter_GetAssociatedUsers (rt : Runtime) (values : Form)
    (msg : ProtoMessage) :
    runtime.PopulateQueryParameters rt msg values filter_NetworkService_GetAssociatedUsers_0
      = populateAll rt msg ((rt.rangeOrder values).map formField) := by
  simp only [runtime.PopulateQueryParameters,
    PopulateQueryParameters_loop_filter_GetAssociatedUsers]

/-- The form of a request whose method is none of POST, PUT and PATCH is its
parsed query. -/
theorem ParseForm_of_no_body_method (rt : Runtime) (req : Request)
    (h : ¬ (req.Method = "POST" ∨ req.Method = "PUT" ∨ req.Method = "PATCH")) :
    req.ParseForm rt = rt.ParseQuery req.RawQuery := by
  simp [Request.ParseForm, h]

/-- C6: for `GetAssociatedUsers` in both modes.  The exclusion filter excludes no
field path.  Every entry `key: vs` of the form stands for one field, whose path
is the key cut at its dots and whose values are `vs` (for a key `k[sub]` it is
`k` that is cut, and `sub` is put in front of `vs`).  When the form of the
request parses to `form` and writing the fields of all its entries, in the order
the map is visited, to a zero-valued `NetworkGetAssociatedUsersRequest` gives
`r` without an error, the target is invoked once with `r`.  For a GET request
the form is the parsed query of the URL.  The whole result of the request
function is the same for any other marshaler and any other path parameters. -/
theorem GetAssociatedUsers_binds_from_query (rt : Runtime) (ctx : Context)
    (marshaler : Marshaler) (client : NetworkServiceClient) (server : NetworkServiceServer)
    (req : Request) (pathParams : PathParams) (s : State) :
    (∀ seq, filter_NetworkService_GetAssociatedUsers_0.HasCommonPrefix seq = false) ∧
    (∀ key vs, FieldOfEntry key vs (formField (key, vs)).1 (formField (key, vs)).2) ∧
    (∀ form r, req.ParseForm rt = (form, none) →
      populateAll rt MessageType.NetworkGetAssociatedUsersRequest.zero
          ((rt.rangeOrder form).map formField) = (r, none) →
        (request_NetworkService_GetAssociatedUsers_0 rt ctx marshaler client req pathParams
            s).2.trace
          = s.trace ++ [.clientCall "NetworkService.GetAssociatedUsers" ctx r callOptions] ∧
        (local_request_NetworkService_GetAssociatedUsers_0 rt ctx marshaler server req
            pathParams s).2.trace
          = s.trace ++ [.serverCall "NetworkService.GetAssociatedUsers" ctx r]) ∧
    (req.Method = "GET" → req.ParseForm rt = rt.ParseQuery req.RawQuery) ∧
    (∀ marshaler2 pathParams2,
      request_NetworkService_GetAssociatedUsers_0 rt ctx marshaler2 client req pathParams2 s
          = request_NetworkService_GetAssociatedUsers_0 rt ctx marshaler client req pathParams s ∧
        local_request_NetworkService_GetAssociatedUsers_0 rt ctx marshaler2 server req
            pathParams2 s
          = local_request_NetworkService_GetAssociatedUsers_0 rt ctx marshaler server req
            pathParams s) := by
  refine ⟨filter_GetAssociatedUsers_excludes_nothing, formField_spec, ?_, ?_, ?_⟩
  · intro form r hf hq
    simp [request_NetworkService_GetAssociatedUsers_0,
      local_request_NetworkService_GetAssociatedUsers_0, hf,
      PopulateQueryParameters_filter_GetAssociatedUsers, hq, grpc.invoke, grpc.serve,
      callOptions]
  · intro hm
    exact ParseForm_of_no_body_method rt req (by simp [hm])
  · intro marshaler2 pathParams2
    exact ⟨rfl, rfl⟩

/-- C6, worked example (scenario 2 of the spec):
`GET /api/v1/network/getassociatedusers?network=lan1` hands the service a
request whose `network` field is `lan1`, in both modes.  The query
`name[x]=v&a.b=1` stands for the field `name` with the values `x`, `v` and the
field of path `a`, `b` with the value `1`. -/
theorem GetAssociatedUsers_binds_from_query_witness :
    ((request_NetworkService_GetAssociatedUsers_0 exampleRuntime (.root "rpc")
        exampleMarshaler exampleClient { Method := "GET", RawQuery := "network=lan1" }
        [] {}).2.trace
      = [.clientCall "NetworkService.GetAssociatedUsers" (.root "rpc")
          { type := .NetworkGetAssociatedUsersRequest, fields := [("network", "lan1")] }
          callOptions] ∧
    (local_request_NetworkService_GetAssociatedUsers_0 exampleRuntime (.root "rpc")
        exampleMarshaler exampleServer { Method := "GET", RawQuery := "network=lan1" }
        [] {}).2.trace
      = [.serverCall "NetworkService.GetAssociatedUsers" (.root "rpc")
          { type := .NetworkGetAssociatedUsersRequest, fields := [("network", "lan1")] }]) ∧
    Request.ParseForm { Method := "GET", RawQuery := "name[x]=v&a.b=1" } exampleRuntime
      = ([("name[x]", ["v"]), ("a.b", ["1"])], none) ∧
    [("name[x]", ["v"]), ("a.b", ["1"])].map formField
      = [(["name"], ["x", "v"]), (["a", "b"], ["1"])] ∧
    (request_NetworkService_GetAssociatedUsers_0 exampleRuntime (.root "rpc")
        exampleMarshaler exampleClient { Method := "GET", RawQuery := "name[x]=v&a.b=1" }
        [] {}).2.trace
      = [.clientCall "NetworkService.GetAssociatedUsers" (.root "rpc")
          { type := .NetworkGetAssociatedUsersRequest
            fields := [("name", "x"), ("a.b", "1")] }
          callOptions] :=
  ⟨(GetAssociatedUsers_binds_from_query exampleRuntime (.root "rpc") exampleMarshaler
    exampleClient exampleServer { Method := "GET", RawQuery := "network=lan1" } [] {}).2.2.1
    [("network", ["lan1"])]
    { type := .NetworkGetAssociatedUsersRequest, fields := [("network", "lan1")] } (by decide)
    (by decide), by decide, by decide, by decide⟩

/-- Every local-mode handler: annotation, the local request function, the join of
the stream metadata, and the common end. -/
theorem handler_local_NetworkService_eq (rt : Runtime) (x : NetworkMethod) (mux : ServeMux)
    (server : NetworkServiceServer) (w : ResponseWriter) (req : Request)
    (pathParams : PathParams) (s : State) :
    handler_local_NetworkService rt x mux server w req pathParams s =
      match runtime.AnnotateIncomingContext
        (.NewContextWithServerTransportStream (.WithCancel req.Context)) mux req with
      | .error err =>
        context.cancel (.WithCancel req.Context)
          (runtime.HTTPError (.NewContextWithServerTransportStream (.WithCancel req.Context))
            err { s with stream := {} })
      | .ok rctx =>
        match local_request_NetworkService rt x rctx (runtime.MarshalerForRequest mux req).1
          server req pathParams { s with stream := {} } with
        | ((resp, md, err), s1) =>
          handler_finish (.WithCancel req.Context)
            (.NewContextWithServerTransportStream (.WithCancel req.Context))
            { HeaderMD := metadata.Join md.HeaderMD s1.stream.Header
              TrailerMD := metadata.Join md.TrailerMD s1.stream.Trailer } resp err s1 := by
  cases x <;> rfl

/-- Every remote-mode handler of NetworkService: annotation, the remote request
function, and the common end. -/
theorem handler_NetworkService_eq (rt : Runtime) (x : NetworkMethod) (mux : ServeMux)
    (client : NetworkServiceClient) (w : ResponseWriter) (req : Request)
    (pathParams : PathParams) (s : State) :
    handler_NetworkService rt x mux client w req pathParams s =
      match runtime.AnnotateContext (.WithCancel req.Context) mux req with
      | .error err =>
        context.cancel (.WithCancel req.Context)
          (runtime.HTTPError (.WithCancel req.Context) err s)
      | .ok rctx =>
        match request_NetworkService rt x rctx (runtime.MarshalerForRequest mux req).1
          client req pathParams s with
        | ((resp, md, err), s1) =>
          handler_finish (.WithCancel req.Context) (.WithCancel req.Context) md resp err s1 := by
  cases x <;> rfl

/-- Every handler of VPNService: annotation of a context derived from the
registration context, the request function, and the common end. -/
theorem handler_VPNService_eq (y : VPNMethod) (ctx : Context) (mux : ServeMux)
    (client : VPNServiceClient) (w : ResponseWriter) (req : Request)
    (pathParams : PathParams) (s : State) :
    handler_VPNService y ctx mux client w req pathParams s =
      match runtime.AnnotateContext (.WithCancel ctx) mux req with
      | .error err =>
        context.cancel (.WithCancel ctx) (runtime.HTTPError (.WithCancel ctx) err s)
      | .ok rctx =>
        match request_VPNService y rctx (runtime.MarshalerForRequest mux req).1
          client req pathParams s with
        | ((resp, md, err), s1) =>
          handler_finish (.WithCancel ctx) (.WithCancel ctx) md resp err s1 := by
  cases y <;> rfl

/-- A context annotated from a context that carries the transport stream carries
it too. -/
theorem AnnotateIncomingContext_carriesStream (ctx rctx : Context) (mux : ServeMux)
    (req : Request) (hc : ctx.carriesStream = true)
    (h : runtime.AnnotateIncomingContext ctx mux req = .ok rctx) :
    rctx.carriesStream = true := by
  unfold runtime.AnnotateIncomingContext at h
  rcases ha : mux.annotateContext req with e | ⟨_ | t, _ | md⟩ <;>
    simp [ha, runtime.withTimeout] at h <;> subst h <;> simp [Context.carriesStream, hc]

/-- The route table `RegisterNetworkServiceHandlerServer` builds. -/
theorem RegisterNetworkServiceHandlerServer_handlers (rt : Runtime) (ctx : Context)
    (mux : ServeMux) (server : NetworkServiceServer) :
    (RegisterNetworkServiceHandlerServer rt ctx mux server).1.handlers
      = mux.handlers ++ networkMethods.map (fun x =>
          { meth := x.meth, pat := x.pattern
            h := handler_local_NetworkService rt x mux server }) := by
  simp [RegisterNetworkServiceHandlerServer, ServeMux.Handle, networkMethods]
  repeat' apply And.intro
  all_goals rfl

/-- The route table `RegisterNetworkServiceHandlerClient` builds. -/
theorem RegisterNetworkServiceHandlerClient_handlers (rt : Runtime) (ctx : Context)
    (mux : ServeMux) (client : NetworkServiceClient) :
    (RegisterNetworkServiceHandlerClient rt ctx mux client).1.handlers
      = mux.handlers ++ networkMethods.map (fun x =>
          { meth := x.meth, pat := x.pattern
            h := handler_NetworkService rt x mux client }) := by
  simp [RegisterNetworkServiceHandlerClient, ServeMux.Handle, networkMethods]
  repeat' apply And.intro
  all_goals rfl

/-- The route table `RegisterVPNServiceHandler` builds. -/
theorem RegisterVPNServiceHandler_handlers (ctx : Context) (mux : ServeMux)
    (conn : ClientConn) :
    (RegisterVPNServiceHandler ctx mux conn).1.handlers
      = mux.handlers ++ vpnMethods.map (fun y =>
          { meth := "POST", pat := y.pattern
            h := handler_VPNService y ctx mux (NewVPNServiceClient conn) }) := by
  simp [RegisterVPNServiceHandler, ServeMux.Handle, vpnMethods]
  repeat' apply And.intro
  all_goals rfl

/-- The common end of a handler adds exactly one terminal action: the error
writer with the error the request function returned, or the forwarder with its
message. -/
theorem handler_finish_trace (cancelCtx ctx : Context) (md : ServerMetadata)
    (resp : Option ProtoMessage) (err : Option Error) (s : State) :
    (handler_finish cancelCtx ctx md resp err s).trace
      = s.trace ++ [match err with
          | some e => Event.HTTPError (.NewServerMetadataContext ctx md) e
          | none => Event.ForwardResponseMessage (.NewServerMetadataContext ctx md) resp,
        Event.cancel cancelCtx] := by
  cases err <;>
    simp [handler_finish, context.cancel, runtime.HTTPError, runtime.ForwardResponseMessage,
      runtime.NewServerMetadataContext]


/-- The actions of a local-mode handler of NetworkService.  The metadata on the
context of the terminal action is what the service implementation set during
the call. -/
theorem handler_local_NetworkService_trace (rt : Runtime) (x : NetworkMethod)
    (mux : ServeMux) (server : NetworkServiceServer) (w : ResponseWriter) (req : Request)
    (pathParams : PathParams) (s : State) :
    (handler_local_NetworkService rt x mux server w req pathParams s).trace
      = s.trace ++ handlerActions (.WithCancel req.Context)
          (.NewContextWithServerTransportStream (.WithCancel req.Context))
          (runtime.AnnotateIncomingContext
            (.NewContextWithServerTransportStream (.WithCancel req.Context)) mux req)
          (bind_NetworkService rt x (runtime.MarshalerForRequest mux req).1 req)
          (fun c r => .serverCall x.name c r)
          (fun c r => ((x.server server c r).msg,
            { HeaderMD := (x.server server c r).header
              TrailerMD := (x.server server c r).trailer },
            (x.server server c r).err)) := by
  simp only [handler_local_NetworkService_eq, local_request_NetworkService_eq]
  rcases ha : runtime.AnnotateIncomingContext
    (.NewContextWithServerTransportStream (.WithCancel req.Context)) mux req with e | rctx
  · simp [handlerActions, context.cancel, runtime.HTTPError]
  · have hc := AnnotateIncomingContext_carriesStream
      (.NewContextWithServerTransportStream (.WithCancel req.Context)) rctx mux req rfl ha
    rcases bind_NetworkService rt x (runtime.MarshalerForRequest mux req).1 req with e | r
    · simp [handlerActions, bind_refused, handler_finish_trace, metadata.Join,
        ServerTransportStream.Header, ServerTransportStream.Trailer]
    · rcases he : (x.server server rctx r).err with _ | e <;>
        simp [handlerActions, terminalAction, dispatch_local, handler_finish_trace,
          metadata.Join, ServerTransportStream.Header, ServerTransportStream.Trailer, hc, he]

/-- The actions of a remote-mode handler of NetworkService. -/
theorem handler_NetworkService_trace (rt : Runtime) (x : NetworkMethod)
    (mux : ServeMux) (client : NetworkServiceClient) (w : ResponseWriter) (req : Request)
    (pathParams : PathParams) (s : State) :
    (handler_NetworkService rt x mux client w req pathParams s).trace
      = s.trace ++ handlerActions (.WithCancel req.Context) (.WithCancel req.Context)
          (runtime.AnnotateContext (.WithCancel req.Context) mux req)
          (bind_NetworkService rt x (runtime.MarshalerForRequest mux req).1 req)
          (fun c r => .clientCall x.name c r callOptions)
          (fun c r => ((x.client client c r callOptions).msg,
            { HeaderMD := (x.client client c r callOptions).header
              TrailerMD := (x.client client c r callOptions).trailer },
            (x.client client c r callOptions).err)) := by
  simp only [handler_NetworkService_eq, request_NetworkService_eq]
  rcases runtime.AnnotateContext (.WithCancel req.Context) mux req with e | rctx
  · simp [handlerActions, context.cancel, runtime.HTTPError]
  · rcases bind_NetworkService rt x (runtime.MarshalerForRequest mux req).1 req with e | r
    · simp [handlerActions, bind_refused, handler_finish_trace]
    · rcases he : (x.client client rctx r callOptions).err with _ | e <;>
        simp [handlerActions, terminalAction, dispatch_remote, handler_finish_trace, he]

/-- The actions of a handler of VPNService. -/
theorem handler_VPNService_trace (y : VPNMethod) (ctx : Context)
    (mux : ServeMux) (client : VPNServiceClient) (w : ResponseWriter) (req : Request)
    (pathParams : PathParams) (s : State) :
    (handler_VPNService y ctx mux client w req pathParams s).trace
      = s.trace ++ handlerActions (.WithCancel ctx) (.WithCancel ctx)
          (runtime.AnnotateContext (.WithCancel ctx) mux req)
          (bind_VPNService y (runtime.MarshalerForRequest mux req).1 req)
          (fun c r => .clientCall y.name c r callOptions)
          (fun c r => ((y.client client c r callOptions).msg,
            { HeaderMD := (y.client client c r callOptions).header
              TrailerMD := (y.client client c r callOptions).trailer },
            (y.client client c r callOptions).err)) := by
  simp only [handler_VPNService_eq, request_VPNService_eq]
  rcases runtime.AnnotateContext (.WithCancel ctx) mux req with e | rctx
  · simp [handlerActions, context.cancel, runtime.HTTPError]
  · rcases bind_VPNService y (runtime.MarshalerForRequest mux req).1 req with e | r
    · simp [handlerActions, bind_refused, handler_finish_trace]
    · rcases he : (y.client client rctx r callOptions).err with _ | e <;>
        simp [handlerActions, terminalAction, dispatch_remote, handler_finish_trace, he]

/-- Actions that follow the state machine fulfil the terminal-action contract. -/
theorem handlerActions_contract (s s2 : State) (cancelCtx ctx : Context)
    (annotated : Except Error Context) (bound : Except Error ProtoMessage)
    (callEvent : Context → ProtoMessage → Event)
    (answer : Context → ProtoMessage → Option ProtoMessage × ServerMetadata × Option Error)
    (hcall : ∀ c r, (callEvent c r).isTerminal = false)
    (h : s2.trace = s.trace ++ handlerActions cancelCtx ctx annotated bound callEvent answer) :
    HandlerContract s s2 annotated bound (fun c r => ((answer c r).1, (answer c r).2.2)) := by
  refine ⟨_, h, ?_⟩
  rcases annotated with e | rctx
  · exact ⟨_, rfl⟩
  · rcases bound with e | r
    · exact ⟨_, rfl⟩
    · have hc := hcall rctx r
      rcases he : (answer rctx r).2.2 with _ | e
      · simp only [he]
        refine ⟨.NewServerMetadataContext ctx (answer rctx r).2.1, ?_⟩
        simp only [handlerActions, terminalAction, he, List.filter_cons, hc]
        rfl
      · simp only [he]
        refine ⟨.NewServerMetadataContext ctx (answer rctx r).2.1, ?_⟩
        simp only [handlerActions, terminalAction, he, List.filter_cons, hc]
        rfl

/-- C7: every handler the three registration functions register (the route
tables are listed method by method) fulfils the terminal-action contract, for
every outcome of context annotation, binding and the RPC call: the run adds
exactly one terminal action, which is the forwarder with the message of the
call when all three succeeded, and otherwise the error writer with the first
error that occurred. -/
theorem handler_reaches_one_terminal_action (rt : Runtime) (ctx : Context) (mux : ServeMux)
    (server : NetworkServiceServer) (client : NetworkServiceClient) (conn : ClientConn) :
    ((RegisterNetworkServiceHandlerServer rt ctx mux server).1.handlers
        = mux.handlers ++ networkMethods.map (fun x =>
            { meth := x.meth, pat := x.pattern
              h := handler_local_NetworkService rt x mux server }) ∧
      ∀ x w req pathParams s,
        HandlerContract s (handler_local_NetworkService rt x mux server w req pathParams s)
          (runtime.AnnotateIncomingContext
            (.NewContextWithServerTransportStream (.WithCancel req.Context)) mux req)
          (bind_NetworkService rt x (runtime.MarshalerForRequest mux req).1 req)
          (fun c r => ((x.server server c r).msg, (x.server server c r).err))) ∧
    ((RegisterNetworkServiceHandlerClient rt ctx mux client).1.handlers
        = mux.handlers ++ networkMethods.map (fun x =>
            { meth := x.meth, pat := x.pattern
              h := handler_NetworkService rt x mux client }) ∧
      ∀ x w req pathParams s,
        HandlerContract s (handler_NetworkService rt x mux client w req pathParams s)
          (runtime.AnnotateContext (.WithCancel req.Context) mux req)
          (bind_NetworkService rt x (runtime.MarshalerForRequest mux req).1 req)
          (fun c r => ((x.client client c r callOptions).msg,
            (x.client client c r callOptions).err))) ∧
    ((RegisterVPNServiceHandler ctx mux conn).1.handlers
        = mux.handlers ++ vpnMethods.map (fun y =>
            { meth := "POST", pat := y.pattern
              h := handler_VPNService y ctx mux (NewVPNServiceClient conn) }) ∧
      ∀ y w req pathParams s,
        HandlerContract s
          (handler_VPNService y ctx mux (NewVPNServiceClient conn) w req pathParams s)
          (runtime.AnnotateContext (.WithCancel ctx) mux req)
          (bind_VPNService y (runtime.MarshalerForRequest mux req).1 req)
          (fun c r => ((y.client (NewVPNServiceClient conn) c r callOptions).msg,
            (y.client (NewVPNServiceClient conn) c r callOptions).err))) := by
  refine ⟨⟨RegisterNetworkServiceHandlerServer_handlers rt ctx mux server, ?_⟩,
    ⟨RegisterNetworkServiceHandlerClient_handlers rt ctx mux client, ?_⟩,
    ⟨RegisterVPNServiceHandler_handlers ctx mux conn, ?_⟩⟩
  · intro x w req pathParams s
    refine handlerActions_contract s _ _ _ _ _ _ _ ?_
      (handler_local_NetworkService_trace rt x mux server w req pathParams s)
    intro _ _
    rfl
  · intro x w req pathParams s
    refine handlerActions_contract s _ _ _ _ _ _ _ ?_
      (handler_NetworkService_trace rt x mux client w req pathParams s)
    intro _ _
    rfl
  · intro y w req pathParams s
    refine handlerActions_contract s _ _ _ _ _ _ _ ?_
      (handler_VPNService_trace y ctx mux (NewVPNServiceClient conn) w req pathParams s)
    intro _ _
    rfl

/-- C8, as stated, fails: the `Create` handler of local mode, run on a request
whose body `{}` is well-formed (binding succeeds) but whose `Grpc-Timeout` header
makes context annotation fail, calls the error writer and invokes no RPC
method. -/
theorem response_written_without_dispatch :
    bind_NetworkService exampleRuntime .Create
        (runtime.MarshalerForRequest exampleMux
          { Body := { data := [123, 125] }, Header := [("Grpc-Timeout", ["soon"])] }).1
        { Body := { data := [123, 125] }, Header := [("Grpc-Timeout", ["soon"])] }
      = .ok MessageType.NetworkCreateRequest.zero ∧
    (handler_local_NetworkService_Create_0 exampleMux exampleServer {}
        { Body := { data := [123, 125] }, Header := [("Grpc-Timeout", ["soon"])] } [] {}).trace
      = [.HTTPError (.NewContextWithServerTransportStream (.WithCancel (.root "request")))
          (Error.status 3 "invalid grpc-timeout"),
        .cancel (.WithCancel (.root "request"))] ∧
    ((handler_local_NetworkService_Create_0 exampleMux exampleServer {}
        { Body := { data := [123, 125] }, Header := [("Grpc-Timeout", ["soon"])] } [] {}).trace
      ).filter Event.isCall = [] :=
  ⟨rfl, rfl, rfl⟩

/-- C8, amended: for every registered handler (NetworkService local and remote,
VPNService), when context annotation succeeds with `rctx` and binding succeeds
with `r`, the run adds exactly three actions: the invocation of the RPC method
with `rctx` and `r`, then one terminal action, then the deferred cancel; the RPC
is invoked before the error writer or the forwarder is called. -/
theorem dispatch_precedes_response (rt : Runtime) (ctx : Context) (mux : ServeMux)
    (server : NetworkServiceServer) (client : NetworkServiceClient) (vpn : VPNServiceClient)
    (w : ResponseWriter) (req : Request) (pathParams : PathParams) (s : State)
    (rctx : Context) (r : ProtoMessage) :
    (∀ x,
      runtime.AnnotateIncomingContext
          (.NewContextWithServerTransportStream (.WithCancel req.Context)) mux req = .ok rctx →
        bind_NetworkService rt x (runtime.MarshalerForRequest mux req).1 req = .ok r →
        ∃ terminal, terminal.isTerminal = true ∧
          (handler_local_NetworkService rt x mux server w req pathParams s).trace
            = s.trace ++ [.serverCall x.name rctx r, terminal,
                .cancel (.WithCancel req.Context)]) ∧
    (∀ x,
      runtime.AnnotateContext (.WithCancel req.Context) mux req = .ok rctx →
        bind_NetworkService rt x (runtime.MarshalerForRequest mux req).1 req = .ok r →
        ∃ terminal, terminal.isTerminal = true ∧
          (handler_NetworkService rt x mux client w req pathParams s).trace
            = s.trace ++ [.clientCall x.name rctx r callOptions, terminal,
                .cancel (.WithCancel req.Context)]) ∧
    (∀ y,
      runtime.AnnotateContext (.WithCancel ctx) mux req = .ok rctx →
        bind_VPNService y (runtime.MarshalerForRequest mux req).1 req = .ok r →
        ∃ terminal, terminal.isTerminal = true ∧
          (handler_VPNService y ctx mux vpn w req pathParams s).trace
            = s.trace ++ [.clientCall y.name rctx r callOptions, terminal,
                .cancel (.WithCancel ctx)]) := by
  have hterm : ∀ c resp err, (terminalAction c resp err).isTerminal = true := by
    intro c resp err
    cases err <;> rfl
  refine ⟨?_, ?_, ?_⟩
  · intro x ha hb
    rw [handler_local_NetworkService_trace, ha, hb]
    exact ⟨_, hterm _ _ _, rfl⟩
  · intro x ha hb
    rw [handler_NetworkService_trace, ha, hb]
    exact ⟨_, hterm _ _ _, rfl⟩
  · intro y ha hb
    rw [handler_VPNService_trace, ha, hb]
    exact ⟨_, hterm _ _ _, rfl⟩

/-- C8 amended, worked example (scenario 1 of the spec, with the body `{}`): the
local `Create` handler invokes the service, then forwards its response, then
cancels. -/
theorem dispatch_precedes_response_witness :
    ∃ terminal, terminal.isTerminal = true ∧
      (handler_local_NetworkService exampleRuntime .Create exampleMux exampleServer {}
          { Body := { data := [123, 125] } } [] {}).trace
        = [] ++ [.serverCall "NetworkService.Create"
              (.NewContextWithServerTransportStream (.WithCancel (.root "request")))
              MessageType.NetworkCreateRequest.zero,
            terminal, .cancel (.WithCancel (.root "request"))] :=
  (dispatch_precedes_response exampleRuntime (.root "registration") exampleMux exampleServer
    exampleClient (NewVPNServiceClient exampleConn) {} { Body := { data := [123, 125] } } [] {}
    (.NewContextWithServerTransportStream (.WithCancel (.root "request")))
    MessageType.NetworkCreateRequest.zero).1 .Create rfl rfl

/-- C9: in local mode, for every NetworkService handler whose context annotation
succeeded with `rctx`, and for every outcome `out` of the local request function
(so for every outcome of the service call).  The terminal action follows the
actions of the request function and is called on the context that carries the
server metadata `join(out's header, stream header)`, `join(out's trailer,
stream trailer)`, read from the transport stream as the call left it; the
metadata the request function returns is empty, so the joins are exactly the
stream's header and trailer; and when the service was called with the bound
request `r`, these are the header and trailer it set during the call. -/
theorem local_handler_attaches_stream_metadata (rt : Runtime) (x : NetworkMethod)
    (mux : ServeMux) (server : NetworkServiceServer) (w : ResponseWriter) (req : Request)
    (pathParams : PathParams) (s : State) (rctx : Context) (out : Ret × State)
    (ha : runtime.AnnotateIncomingContext
      (.NewContextWithServerTransportStream (.WithCancel req.Context)) mux req = .ok rctx)
    (hout : local_request_NetworkService rt x rctx (runtime.MarshalerForRequest mux req).1
      server req pathParams { s with stream := {} } = out) :
    (handler_local_NetworkService rt x mux server w req pathParams s).trace
        = out.2.trace ++
          [terminalAction
            (.NewServerMetadataContext
              (.NewContextWithServerTransportStream (.WithCancel req.Context))
              { HeaderMD := metadata.Join out.1.2.1.HeaderMD out.2.stream.Header
                TrailerMD := metadata.Join out.1.2.1.TrailerMD out.2.stream.Trailer })
            out.1.1 out.1.2.2,
          .cancel (.WithCancel req.Context)] ∧
      out.1.2.1 = {} ∧
      metadata.Join out.1.2.1.HeaderMD out.2.stream.Header = out.2.stream.Header ∧
      metadata.Join out.1.2.1.TrailerMD out.2.stream.Trailer = out.2.stream.Trailer ∧
      (∀ r, bind_NetworkService rt x (runtime.MarshalerForRequest mux req).1 req = .ok r →
        out.2.stream.Header = (x.server server rctx r).header ∧
          out.2.stream.Trailer = (x.server server rctx r).trailer) := by
  subst hout
  have hc := AnnotateIncomingContext_carriesStream
    (.NewContextWithServerTransportStream (.WithCancel req.Context)) rctx mux req rfl ha
  rw [handler_local_NetworkService_eq, ha]
  simp only [local_request_NetworkService_eq]
  rcases bind_NetworkService rt x (runtime.MarshalerForRequest mux req).1 req with e | r
  · simp [bind_refused, handler_finish_trace, terminalAction, metadata.Join]
  · simp [dispatch_local, handler_finish_trace, terminalAction, metadata.Join,
      ServerTransportStream.Header, ServerTransportStream.Trailer, hc]

/-- C9, worked example: the local `Create` handler, run with the example service
(which sets the header `h` and the trailer `t`), forwards the response on a
context whose server metadata is exactly that header and that trailer. -/
theorem local_handler_attaches_stream_metadata_witness :
    (handler_local_NetworkService exampleRuntime .Create exampleMux exampleServer {}
        { Body := { data := [123, 125] } } [] {}).trace
      = [.serverCall "NetworkService.Create"
            (.NewContextWithServerTransportStream (.WithCancel (.root "request")))
            MessageType.NetworkCreateRequest.zero] ++
        [.ForwardResponseMessage
            (.NewServerMetadataContext
              (.NewContextWithServerTransportStream (.WithCancel (.root "request")))
              { HeaderMD := [("h", ["1"])], TrailerMD := [("t", ["2"])] })
            (some { type := .response "reply" }),
          .cancel (.WithCancel (.root "request"))] :=
  (local_handler_attaches_stream_metadata exampleRuntime .Create exampleMux exampleServer {}
    { Body := { data := [123, 125] } } [] {}
    (.NewContextWithServerTransportStream (.WithCancel (.root "request"))) _ rfl rfl).1

/-- C10: in remote mode, for every NetworkService and VPNService method.  When
binding succeeds with `r`, the client is called with the two call options
header capture into `HeaderMD` and trailer capture into `TrailerMD`, and the
metadata the request function returns is what the client stored through these
options: the header and the trailer of the call.  When binding fails, the
returned metadata is empty. -/
theorem remote_call_captures_metadata (rt : Runtime) (ctx : Context) (marshaler : Marshaler)
    (req : Request) (pathParams : PathParams) (s : State) :
    (∀ (x : NetworkMethod) (client : NetworkServiceClient),
      (∀ e, bind_NetworkService rt x marshaler req = .error e →
        (request_NetworkService rt x ctx marshaler client req pathParams s).1.2.1 = {}) ∧
      (∀ r, bind_NetworkService rt x marshaler req = .ok r →
        (request_NetworkService rt x ctx marshaler client req pathParams s).2.trace
            = s.trace ++ [.clientCall x.name ctx r [.Header .HeaderMD, .Trailer .TrailerMD]] ∧
          (request_NetworkService rt x ctx marshaler client req pathParams s).1.2.1
            = [CallOption.Header .HeaderMD, CallOption.Trailer .TrailerMD].foldl
                (fun md o => o.capture
                  (x.client client ctx r [.Header .HeaderMD, .Trailer .TrailerMD]) md) {} ∧
          (request_NetworkService rt x ctx marshaler client req pathParams s).1.2.1
            = { HeaderMD :=
                  (x.client client ctx r [.Header .HeaderMD, .Trailer .TrailerMD]).header
                TrailerMD :=
                  (x.client client ctx r [.Header .HeaderMD, .Trailer .TrailerMD]).trailer })) ∧
    (∀ (y : VPNMethod) (client : VPNServiceClient),
      (∀ e, bind_VPNService y marshaler req = .error e →
        (request_VPNService y ctx marshaler client req pathParams s).1.2.1 = {}) ∧
      (∀ r, bind_VPNService y marshaler req = .ok r →
        (request_VPNService y ctx marshaler client req pathParams s).2.trace
            = s.trace ++ [.clientCall y.name ctx r [.Header .HeaderMD, .Trailer .TrailerMD]] ∧
          (request_VPNService y ctx marshaler client req pathParams s).1.2.1
            = [CallOption.Header .HeaderMD, CallOption.Trailer .TrailerMD].foldl
                (fun md o => o.capture
                  (y.client client ctx r [.Header .HeaderMD, .Trailer .TrailerMD]) md) {} ∧
          (request_VPNService y ctx marshaler client req pathParams s).1.2.1
            = { HeaderMD :=
                  (y.client client ctx r [.Header .HeaderMD, .Trailer .TrailerMD]).header
                TrailerMD :=
                  (y.client client ctx r [.Header .HeaderMD, .Trailer .TrailerMD]).trailer })) := by
  refine ⟨?_, ?_⟩
  · intro x client
    rw [request_NetworkService_eq]
    refine ⟨?_, ?_⟩
    · intro e he
      rw [he]
      rfl
    · intro r hr
      rw [hr]
      exact ⟨rfl, rfl, rfl⟩
  · intro y client
    rw [request_VPNService_eq]
    refine ⟨?_, ?_⟩
    · intro e he
      rw [he]
      rfl
    · intro r hr
      rw [hr]
      exact ⟨rfl, rfl, rfl⟩

/-- C10, worked example: the remote `Create` request function on the body `{}`
returns the header and the trailer the example client received, and on the
malformed body `{` it returns empty metadata. -/
theorem remote_call_captures_metadata_witness :
    (request_NetworkService exampleRuntime .Create (.root "rpc") exampleMarshaler
        exampleClient { Body := { data := [123, 125] } } [] {}).1.2.1
      = { HeaderMD := [("h", ["1"])], TrailerMD := [("t", ["2"])] } ∧
    (request_NetworkService exampleRuntime .Create (.root "rpc") exampleMarshaler
        exampleClient { Body := { data := [123] } } [] {}).1.2.1 = {} :=
  ⟨(((remote_call_captures_metadata exampleRuntime (.root "rpc") exampleMarshaler
      { Body := { data := [123, 125] } } [] {}).1 .Create exampleClient).2
      MessageType.NetworkCreateRequest.zero rfl).2.2,
    ((remote_call_captures_metadata exampleRuntime (.root "rpc") exampleMarshaler
      { Body := { data := [123] } } [] {}).1 .Create exampleClient).1
      (Error.errorString "invalid character") rfl⟩

/-! ### Contexts of the calls (C11, C12) -/

/-- Every context is derived from itself. -/
theorem Context.derivedFrom_refl (c : Context) : c.derivedFrom c = true := by
  cases c <;> simp [Context.derivedFrom]

/-- A context annotated from `ctx` is derived from whatever `ctx` is derived
from. -/
theorem AnnotateContext_derivedFrom (ctx rctx a : Context) (mux : ServeMux) (req : Request)
    (hc : ctx.derivedFrom a = true) (h : runtime.AnnotateContext ctx mux req = .ok rctx) :
    rctx.derivedFrom a = true := by
  unfold runtime.AnnotateContext at h
  rcases ha : mux.annotateContext req with e | ⟨_ | t, _ | md⟩ <;>
    simp [ha, runtime.withTimeout] at h <;> subst h <;> simp [Context.derivedFrom, hc]

/-- A context annotated from `ctx` with incoming metadata is derived from
whatever `ctx` is derived from. -/
theorem AnnotateIncomingContext_derivedFrom (ctx rctx a : Context) (mux : ServeMux)
    (req : Request) (hc : ctx.derivedFrom a = true)
    (h : runtime.AnnotateIncomingContext ctx mux req = .ok rctx) :
    rctx.derivedFrom a = true := by
  unfold runtime.AnnotateIncomingContext at h
  rcases ha : mux.annotateContext req with e | ⟨_ | t, _ | md⟩ <;>
    simp [ha, runtime.withTimeout] at h <;> subst h <;> simp [Context.derivedFrom, hc]

/-- The terminal action is not an invocation. -/
theorem terminalAction_callContext (ctx : Context) (resp : Option ProtoMessage)
    (err : Option Error) : (terminalAction ctx resp err).callContext = none := by
  cases err <;> rfl

/-- The contexts of the invocations among the actions of a handler run: the
annotated context when annotation and binding succeeded, and none otherwise. -/
theorem handlerActions_callContext (cancelCtx ctx : Context)
    (annotated : Except Error Context) (bound : Except Error ProtoMessage)
    (callEvent : Context → ProtoMessage → Event)
    (answer : Context → ProtoMessage → Option ProtoMessage × ServerMetadata × Option Error)
    (c : Context)
    (hmem : c ∈ (handlerActions cancelCtx ctx annotated bound callEvent answer).filterMap
      Event.callContext)
    (hcall : ∀ c r, (callEvent c r).callContext = some c) :
    annotated = .ok c := by
  rcases annotated with e | rctx
  · simp [handlerActions, Event.callContext] at hmem
  · rcases bound with e | r
    · simp [handlerActions, Event.callContext] at hmem
    · have h1 := hcall rctx r
      have h2 := terminalAction_callContext (.NewServerMetadataContext ctx (answer rctx r).2.1)
        (answer rctx r).1 (answer rctx r).2.2
      have h3 : (Event.cancel cancelCtx).callContext = none := rfl
      simp [handlerActions, h1, h2, h3] at hmem
      rw [hmem]

/-- The actions a handler run added to the trace are what remains after the
actions that were there before. -/
theorem drop_trace_append (t1 t2 : List Event) : (t1 ++ t2).drop t1.length = t2 := by
  simp

/-- C11, as stated, fails for VPNService: the `Status` handler, registered with
the context `registration` and run on a request whose own context is `request`,
invokes the client with a context derived from `registration`; it is not
derived from the request's context, and cancelling the request's context does
not cancel it. -/
theorem VPNService_call_context_not_from_request :
    (handler_VPNService_Status_0 (.root "registration") exampleMux
        (NewVPNServiceClient exampleConn) {}
        { Context := .root "request", Body := { data := [123, 125] } } [] {}).trace.filterMap
        Event.callContext
      = [.WithCancel (.root "registration")] ∧
    (Context.WithCancel (.root "registration")).derivedFrom (.root "request") = false ∧
    Context.Done [.root "request"] (.WithCancel (.root "registration")) = false :=
  ⟨rfl, rfl, rfl⟩

/-- C11, amended: for every registered handler, every context an RPC method is
invoked with during a run is derived from the HTTP request's own context in the
NetworkService handlers (local and remote), so that cancelling the request's
context cancels it, and is derived from the context given to the registration
function in the VPNService handlers. -/
theorem call_context_derivation (rt : Runtime) (ctx : Context) (mux : ServeMux)
    (server : NetworkServiceServer) (client : NetworkServiceClient) (vpn : VPNServiceClient)
    (w : ResponseWriter) (req : Request) (pathParams : PathParams) (s : State) :
    (∀ x, ∀ c ∈ ((handler_local_NetworkService rt x mux server w req pathParams s).trace.drop
        s.trace.length).filterMap Event.callContext,
      c.derivedFrom req.Context = true ∧ Context.Done [req.Context] c = true) ∧
    (∀ x, ∀ c ∈ ((handler_NetworkService rt x mux client w req pathParams s).trace.drop
        s.trace.length).filterMap Event.callContext,
      c.derivedFrom req.Context = true ∧ Context.Done [req.Context] c = true) ∧
    (∀ y, ∀ c ∈ ((handler_VPNService y ctx mux vpn w req pathParams s).trace.drop
        s.trace.length).filterMap Event.callContext,
      c.derivedFrom ctx = true ∧ Context.Done [ctx] c = true) := by
  refine ⟨?_, ?_, ?_⟩
  · intro x c hc
    rw [handler_local_NetworkService_trace, drop_trace_append] at hc
    have ha := handlerActions_callContext _ _ _ _ _ _ c hc (fun _ _ => rfl)
    have hd := AnnotateIncomingContext_derivedFrom _ c req.Context mux req
      (by simp [Context.derivedFrom, Context.derivedFrom_refl]) ha
    simp [Context.Done, hd]
  · intro x c hc
    rw [handler_NetworkService_trace, drop_trace_append] at hc
    have ha := handlerActions_callContext _ _ _ _ _ _ c hc (fun _ _ => rfl)
    have hd := AnnotateContext_derivedFrom _ c req.Context mux req
      (by simp [Context.derivedFrom, Context.derivedFrom_refl]) ha
    simp [Context.Done, hd]
  · intro y c hc
    rw [handler_VPNService_trace, drop_trace_append] at hc
    have ha := handlerActions_callContext _ _ _ _ _ _ c hc (fun _ _ => rfl)
    have hd := AnnotateContext_derivedFrom _ c ctx mux req
      (by simp [Context.derivedFrom, Context.derivedFrom_refl]) ha
    simp [Context.Done, hd]

/-- C11 amended, worked example: the context the local `Create` handler invokes
the service with is derived from the request's context. -/
theorem call_context_derivation_witness :
    (Context.NewContextWithServerTransportStream (.WithCancel (.root "request"))).derivedFrom
        (.root "request") = true ∧
      Context.Done [.root "request"]
        (.NewContextWithServerTransportStream (.WithCancel (.root "request"))) = true :=
  (call_context_derivation exampleRuntime (.root "registration") exampleMux exampleServer
    exampleClient (NewVPNServiceClient exampleConn) {}
    { Context := .root "request", Body := { data := [123, 125] } } [] {}).1 .Create
    (.NewContextWithServerTransportStream (.WithCancel (.root "request")))
    (List.mem_singleton.mpr rfl)

/-- The actions of a handler run end with one terminal action followed by the
deferred cancel; what precedes them is at most the invocation, made with the
annotated context. -/
theorem handlerActions_shape (cancelCtx ctx : Context)
    (annotated : Except Error Context) (bound : Except Error ProtoMessage)
    (callEvent : Context → ProtoMessage → Event)
    (answer : Context → ProtoMessage → Option ProtoMessage × ServerMetadata × Option Error) :
    ∃ pre terminal,
      handlerActions cancelCtx ctx annotated bound callEvent answer
          = pre ++ [terminal, .cancel cancelCtx] ∧
        terminal.isTerminal = true ∧
        ∀ e ∈ pre, ∃ rctx r, annotated = .ok rctx ∧ e = callEvent rctx r := by
  rcases annotated with e | rctx
  · exact ⟨[], .HTTPError ctx e, rfl, rfl, by simp⟩
  · rcases bound with e | r
    · exact ⟨[], .HTTPError (.NewServerMetadataContext ctx {}) (Error.status 3 e.text), rfl, rfl,
        by simp⟩
    · refine ⟨[callEvent rctx r], terminalAction (.NewServerMetadataContext ctx
        (answer rctx r).2.1) (answer rctx r).1 (answer rctx r).2.2, rfl, ?_, ?_⟩
      · cases (answer rctx r).2.2 <;> rfl
      · intro e he
        exact ⟨rctx, r, rfl, List.mem_singleton.mp he⟩

/-- C12: for every registered handler (NetworkService local and remote,
VPNService) and every path through it, the actions the run adds end with one
terminal action (error writer or forwarder) followed by the cancel of the
context the handler created with `context.WithCancel`; before them there is at
most the RPC invocation, and its context is derived from the cancelled context,
so no path leaves the call context uncancelled. -/
theorem handler_cancels_after_terminal (rt : Runtime) (ctx : Context) (mux : ServeMux)
    (server : NetworkServiceServer) (client : NetworkServiceClient) (vpn : VPNServiceClient)
    (w : ResponseWriter) (req : Request) (pathParams : PathParams) (s : State) :
    (∀ x, ∃ pre terminal,
      (handler_local_NetworkService rt x mux server w req pathParams s).trace
          = s.trace ++ (pre ++ [terminal, .cancel (.WithCancel req.Context)]) ∧
        terminal.isTerminal = true ∧
        ∀ e ∈ pre, e.isCall = true ∧ ∃ c, e.callContext = some c ∧
          c.derivedFrom (.WithCancel req.Context) = true ∧
          Context.Done [.WithCancel req.Context] c = true) ∧
    (∀ x, ∃ pre terminal,
      (handler_NetworkService rt x mux client w req pathParams s).trace
          = s.trace ++ (pre ++ [terminal, .cancel (.WithCancel req.Context)]) ∧
        terminal.isTerminal = true ∧
        ∀ e ∈ pre, e.isCall = true ∧ ∃ c, e.callContext = some c ∧
          c.derivedFrom (.WithCancel req.Context) = true ∧
          Context.Done [.WithCancel req.Context] c = true) ∧
    (∀ y, ∃ pre terminal,
      (handler_VPNService y ctx mux vpn w req pathParams s).trace
          = s.trace ++ (pre ++ [terminal, .cancel (.WithCancel ctx)]) ∧
        terminal.isTerminal = true ∧
        ∀ e ∈ pre, e.isCall = true ∧ ∃ c, e.callContext = some c ∧
          c.derivedFrom (.WithCancel ctx) = true ∧
          Context.Done [.WithCancel ctx] c = true) := by
  refine ⟨?_, ?_, ?_⟩
  · intro x
    rw [handler_local_NetworkService_trace]
    obtain ⟨pre, terminal, hp, ht, hpre⟩ := handlerActions_shape (.WithCancel req.Context)
      (.NewContextWithServerTransportStream (.WithCancel req.Context))
      (runtime.AnnotateIncomingContext
        (.NewContextWithServerTransportStream (.WithCancel req.Context)) mux req)
      (bind_NetworkService rt x (runtime.MarshalerForRequest mux req).1 req)
      (fun c r => .serverCall x.name c r)
      (fun c r => ((x.server server c r).msg,
        { HeaderMD := (x.server server c r).header
          TrailerMD := (x.server server c r).trailer },
        (x.server server c r).err))
    refine ⟨pre, terminal, by rw [hp], ht, ?_⟩
    intro e he
    obtain ⟨rctx, r, ha, rfl⟩ := hpre e he
    have hd := AnnotateIncomingContext_derivedFrom _ rctx (.WithCancel req.Context) mux req
      (by simp [Context.derivedFrom, Context.derivedFrom_refl]) ha
    exact ⟨rfl, rctx, rfl, hd, by simp [Context.Done, hd]⟩
  · intro x
    rw [handler_NetworkService_trace]
    obtain ⟨pre, terminal, hp, ht, hpre⟩ := handlerActions_shape (.WithCancel req.Context)
      (.WithCancel req.Context)
      (runtime.AnnotateContext (.WithCancel req.Context) mux req)
      (bind_NetworkService rt x (runtime.MarshalerForRequest mux req).1 req)
      (fun c r => .clientCall x.name c r callOptions)
      (fun c r => ((x.client client c r callOptions).msg,
        { HeaderMD := (x.client client c r callOptions).header
          TrailerMD := (x.client client c r callOptions).trailer },
        (x.client client c r callOptions).err))
    refine ⟨pre, terminal, by rw [hp], ht, ?_⟩
    intro e he
    obtain ⟨rctx, r, ha, rfl⟩ := hpre e he
    have hd := AnnotateContext_derivedFrom _ rctx (.WithCancel req.Context) mux req
      (Context.derivedFrom_refl _) ha
    exact ⟨rfl, rctx, rfl, hd, by simp [Context.Done, hd]⟩
  · intro y
    rw [handler_VPNService_trace]
    obtain ⟨pre, terminal, hp, ht, hpre⟩ := handlerActions_shape (.WithCancel ctx)
      (.WithCancel ctx)
      (runtime.AnnotateContext (.WithCancel ctx) mux req)
      (bind_VPNService y (runtime.MarshalerForRequest mux req).1 req)
      (fun c r => .clientCall y.name c r callOptions)
      (fun c r => ((y.client vpn c r callOptions).msg,
        { HeaderMD := (y.client vpn c r callOptions).header
          TrailerMD := (y.client vpn c r callOptions).trailer },
        (y.client vpn c r callOptions).err))
    refine ⟨pre, terminal, by rw [hp], ht, ?_⟩
    intro e he
    obtain ⟨rctx, r, ha, rfl⟩ := hpre e he
    have hd := AnnotateContext_derivedFrom _ rctx (.WithCancel ctx) mux req
      (Context.derivedFrom_refl _) ha
    exact ⟨rfl, rctx, rfl, hd, by simp [Context.Done, hd]⟩

/-- C12, worked example: the VPNService `Status` handler, run on an empty body
(a binding failure), calls the error writer and then cancels its context. -/
theorem handler_cancels_after_terminal_witness :
    ∃ pre terminal,
      (handler_VPNService .Status (.root "registration") exampleMux
          (NewVPNServiceClient exampleConn) {} { Body := {} } [] {}).trace
        = [] ++ (pre ++ [terminal, .cancel (.WithCancel (.root "registration"))]) ∧
      terminal.isTerminal = true ∧
      ∀ e ∈ pre, e.isCall = true ∧ ∃ c, e.callContext = some c ∧
        c.derivedFrom (.WithCancel (.root "registration")) = true ∧
        Context.Done [.WithCancel (.root "registration")] c = true :=
  (handler_cancels_after_terminal exampleRuntime (.root "registration") exampleMux
    exampleServer exampleClient (NewVPNServiceClient exampleConn) {} { Body := {} } [] {}).2.2
    .Status

/-! ### The route tables (C13, C14, C15) -/

/-- In a list without duplicates, at most one element equals a given value. -/
theorem nodup_countP_le_one {α : Type} [DecidableEq α] (l : List α) (h : l.Nodup) (a : α) :
    l.countP (fun b => decide (b = a)) ≤ 1 := by
  induction l with
  | nil => simp
  | cons b t ih =>
    rw [List.nodup_cons] at h
    by_cases hb : b = a
    · subst hb
      have h0 : t.countP (fun c => decide (c = b)) = 0 := by
        rw [List.countP_eq_zero]
        intro c hc
        simp only [decide_eq_true_eq]
        rintro rfl
        exact h.1 hc
      simp [List.countP_cons, h0]
    · simpa [List.countP_cons, hb] using ih h.2

/-- The verbs and literal segments of the NetworkService routes. -/
theorem networkMethods_routes :
    networkMethods.map (fun x => (x.meth, x.pattern.literals))
      = [("POST", ["api", "v1", "network", "create"]),
          ("GET", ["api", "v1", "network", "list"]),
          ("POST", ["api", "v1", "network", "delete"]),
          ("GET", ["api", "v1", "network", "getalltypes"]),
          ("GET", ["api", "v1", "network", "getassociatedusers"]),
          ("POST", ["api", "v1", "network", "associate"]),
          ("POST", ["api", "v1", "network", "dissociate"])] := by
  decide

/-- The literal segments of the VPNService routes. -/
theorem vpnMethods_routes :
    vpnMethods.map (fun y => ("POST", y.pattern.literals))
      = [("POST", ["v1", "vpn", "status"]), ("POST", ["v1", "vpn", "init"]),
          ("POST", ["v1", "vpn", "update"])] := by
  decide

/-- C13: on a mux without earlier routes, the route table each registration
function builds (seven NetworkService routes in local and in remote mode, three
VPNService routes), and the table of NetworkService and VPNService registered on
one mux, have no two routes with the same (HTTP verb, literal segments); in the
joint table no two routes even have the same literal segments, so every request
path equals the literal segments of at most one registered route. -/
theorem route_table_has_no_duplicates (rt : Runtime) (ctx : Context) (mux : ServeMux)
    (server : NetworkServiceServer) (client : NetworkServiceClient) (conn : ClientConn)
    (hmux : mux.handlers = []) :
    ((RegisterNetworkServiceHandlerServer rt ctx mux server).1.handlers.map
        (fun r => (r.meth, r.pat.literals))).Nodup ∧
      ((RegisterNetworkServiceHandlerClient rt ctx mux client).1.handlers.map
        (fun r => (r.meth, r.pat.literals))).Nodup ∧
      ((RegisterVPNServiceHandler ctx mux conn).1.handlers.map
        (fun r => (r.meth, r.pat.literals))).Nodup ∧
      ((RegisterVPNServiceHandler ctx
          (RegisterNetworkServiceHandlerClient rt ctx mux client).1 conn).1.handlers.map
        (fun r => (r.meth, r.pat.literals))).Nodup ∧
      ∀ path : List String,
        ((RegisterVPNServiceHandler ctx
            (RegisterNetworkServiceHandlerClient rt ctx mux client).1 conn).1.handlers.map
          (fun r => r.pat.literals)).countP (fun p => decide (p = path)) ≤ 1 := by
  have hn := networkMethods_routes
  have hv := vpnMethods_routes
  refine ⟨?_, ?_, ?_, ?_, ?_⟩
  · rw [RegisterNetworkServiceHandlerServer_handlers, hmux]
    simp only [List.nil_append, List.map_map, Function.comp_def, hn]
    decide
  · rw [RegisterNetworkServiceHandlerClient_handlers, hmux]
    simp only [List.nil_append, List.map_map, Function.comp_def, hn]
    decide
  · rw [RegisterVPNServiceHandler_handlers, hmux]
    simp only [List.nil_append, List.map_map, Function.comp_def, hv]
    decide
  · rw [RegisterVPNServiceHandler_handlers, RegisterNetworkServiceHandlerClient_handlers, hmux]
    simp only [List.nil_append, List.map_append, List.map_map, Function.comp_def, hn, hv]
    decide
  · apply nodup_countP_le_one
    rw [RegisterVPNServiceHandler_handlers, RegisterNetworkServiceHandlerClient_handlers, hmux]
    simp only [List.nil_append, List.map_append, List.map_map, Function.comp_def]
    have hn2 : networkMethods.map (fun x => x.pattern.literals)
        = [["api", "v1", "network", "create"], ["api", "v1", "network", "list"],
            ["api", "v1", "network", "delete"], ["api", "v1", "network", "getalltypes"],
            ["api", "v1", "network", "getassociatedusers"],
            ["api", "v1", "network", "associate"], ["api", "v1", "network", "dissociate"]] := by
      decide
    have hv2 : vpnMethods.map (fun y => y.pattern.literals)
        = [["v1", "vpn", "status"], ["v1", "vpn", "init"], ["v1", "vpn", "update"]] := by
      decide
    rw [hn2, hv2]
    decide

/-- C13, worked example: the joint table on the example mux has ten routes with
pairwise different (verb, segments), and the path `api/v1/network/list` is the
path of exactly one of them. -/
theorem route_table_has_no_duplicates_witness :
    ((RegisterVPNServiceHandler (.root "registration")
        (RegisterNetworkServiceHandlerClient exampleRuntime (.root "registration") exampleMux
          exampleClient).1 exampleConn).1.handlers.map
      (fun r => (r.meth, r.pat.literals))).Nodup ∧
    ((RegisterVPNServiceHandler (.root "registration")
        (RegisterNetworkServiceHandlerClient exampleRuntime (.root "registration") exampleMux
          exampleClient).1 exampleConn).1.handlers.map
      (fun r => r.pat.literals)).countP
        (fun p => decide (p = ["api", "v1", "network", "list"])) ≤ 1 :=
  have h := route_table_has_no_duplicates exampleRuntime (.root "registration") exampleMux
    exampleServer exampleClient exampleConn rfl
  ⟨h.2.2.2.1, h.2.2.2.2 ["api", "v1", "network", "list"]⟩

/-- C14, as stated, fails for VPNService: the three routes
`RegisterVPNServiceHandler` registers have three literal segments each, in the
shape version / resource / action, without an api prefix. -/
theorem VPNService_routes_have_three_segments :
    (RegisterVPNServiceHandler (.root "registration") exampleMux exampleConn).1.handlers.map
        (fun r => r.pat.literals)
      = [["v1", "vpn", "status"], ["v1", "vpn", "init"], ["v1", "vpn", "update"]] ∧
    pattern_VPNService_Status_0.literals.length = 3 ∧
    pattern_VPNService_Status_0.literals.length ≠ 4 := by
  refine ⟨?_, by decide, by decide⟩
  rw [RegisterVPNServiceHandler_handlers]
  decide

/-- C14, amended: on a mux without earlier routes, every route the
NetworkService registration functions register (local and remote) has exactly
the four literal segments `api`, `v1`, `network` and its action, every route
`RegisterVPNServiceHandler` registers has exactly the three literal segments
`v1`, `vpn` and its action, and none of them has a parameter segment. -/
theorem route_templates_are_literal (rt : Runtime) (ctx : Context) (mux : ServeMux)
    (server : NetworkServiceServer) (client : NetworkServiceClient) (conn : ClientConn)
    (hmux : mux.handlers = []) :
    (RegisterNetworkServiceHandlerServer rt ctx mux server).1.handlers.map
        (fun r => (r.pat.literals, r.pat.isLiteral))
      = [(["api", "v1", "network", "create"], true),
          (["api", "v1", "network", "list"], true),
          (["api", "v1", "network", "delete"], true),
          (["api", "v1", "network", "getalltypes"], true),
          (["api", "v1", "network", "getassociatedusers"], true),
          (["api", "v1", "network", "associate"], true),
          (["api", "v1", "network", "dissociate"], true)] ∧
    (RegisterNetworkServiceHandlerClient rt ctx mux client).1.handlers.map
        (fun r => (r.pat.literals, r.pat.isLiteral))
      = (RegisterNetworkServiceHandlerServer rt ctx mux server).1.handlers.map
        (fun r => (r.pat.literals, r.pat.isLiteral)) ∧
    (RegisterVPNServiceHandler ctx mux conn).1.handlers.map
        (fun r => (r.pat.literals, r.pat.isLiteral))
      = [(["v1", "vpn", "status"], true), (["v1", "vpn", "init"], true),
          (["v1", "vpn", "update"], true)] := by
  have hn : networkMethods.map (fun x => (x.pattern.literals, x.pattern.isLiteral))
      = [(["api", "v1", "network", "create"], true),
          (["api", "v1", "network", "list"], true),
          (["api", "v1", "network", "delete"], true),
          (["api", "v1", "network", "getalltypes"], true),
          (["api", "v1", "network", "getassociatedusers"], true),
          (["api", "v1", "network", "associate"], true),
          (["api", "v1", "network", "dissociate"], true)] := by
    decide
  have hv : vpnMethods.map (fun y => (y.pattern.literals, y.pattern.isLiteral))
      = [(["v1", "vpn", "status"], true), (["v1", "vpn", "init"], true),
          (["v1", "vpn", "update"], true)] := by
    decide
  refine ⟨?_, ?_, ?_⟩
  · rw [RegisterNetworkServiceHandlerServer_handlers, hmux]
    simpa only [List.nil_append, List.map_map, Function.comp_def] using hn
  · rw [RegisterNetworkServiceHandlerServer_handlers,
      RegisterNetworkServiceHandlerClient_handlers, hmux]
    simp only [List.nil_append, List.map_map, Function.comp_def]
  · rw [RegisterVPNServiceHandler_handlers, hmux]
    simpa only [List.nil_append, List.map_map, Function.comp_def] using hv

/-- C14 amended, worked example: the routes registered on the example mux. -/
theorem route_templates_are_literal_witness :
    (RegisterVPNServiceHandler (.root "registration") exampleMux exampleConn).1.handlers.map
        (fun r => (r.pat.literals, r.pat.isLiteral))
      = [(["v1", "vpn", "status"], true), (["v1", "vpn", "init"], true),
          (["v1", "vpn", "update"], true)] :=
  (route_templates_are_literal exampleRuntime (.root "registration") exampleMux
    exampleServer exampleClient exampleConn rfl).2.2

/-- Matching against a pattern of four push-literal operations over a pool of
four strings: the path matches exactly when there is no colon verb and its
components are the four pool strings. -/
theorem Match_four_literals (a b c d : String) (components : List String) (verb : String) :
    Pattern.Match
        { ops := [⟨2, 0⟩, ⟨2, 1⟩, ⟨2, 2⟩, ⟨2, 3⟩], pool := [a, b, c, d], vars := []
          stacksize := 4, tailLen := 0, verb := "", assumeColonVerb := true }
        components verb
      = if verb = "" ∧ components = [a, b, c, d] then .ok [] else .error runtime.ErrNotMatch := by
  by_cases hv : verb = ""
  · subst hv
    rcases components with _ | ⟨c0, _ | ⟨c1, _ | ⟨c2, _ | ⟨c3, _ | ⟨c4, rest⟩⟩⟩⟩⟩ <;>
      simp [Pattern.Match, Pattern.Match.loop]
    all_goals
      by_cases h0 : c0 = a <;> by_cases h1 : c1 = b <;> by_cases h2 : c2 = c <;>
        by_cases h3 : c3 = d <;> simp [h0, h1, h2, h3]
  · have hv2 : ¬ ("" = verb) := fun h => hv h.symm
    simp [Pattern.Match, hv, hv2]

/-- Every NetworkService pattern is compiled to four push-literal operations
over its pool `api`, `v1`, `network` and an action. -/
theorem NetworkMethod.pattern_eq (x : NetworkMethod) :
    ∃ action, x.pattern =
      { ops := [⟨2, 0⟩, ⟨2, 1⟩, ⟨2, 2⟩, ⟨2, 3⟩], pool := ["api", "v1", "network", action]
        vars := [], stacksize := 4, tailLen := 0, verb := "", assumeColonVerb := true } ∧
      action ≠ "doesnotexist" := by
  cases x
  · exact ⟨"create", rfl, by decide⟩
  · exact ⟨"list", rfl, by decide⟩
  · exact ⟨"delete", rfl, by decide⟩
  · exact ⟨"getalltypes", rfl, by decide⟩
  · exact ⟨"getassociatedusers", rfl, by decide⟩
  · exact ⟨"associate", rfl, by decide⟩
  · exact ⟨"dissociate", rfl, by decide⟩

/-- C15: each NetworkService pattern consists of four push-literal operations
(opcode 2) with the operands 0, 1, 2, 3 into its pool of four strings; a path
matches it exactly when its components are the pool strings (and there is no
colon verb); so on a mux without earlier routes the path
`api/v1/network/doesnotexist` matches no pattern registered for NetworkService,
whatever the HTTP verb of the route and whatever the colon verb. -/
theorem NetworkService_pattern_matches_only_its_pool (rt : Runtime) (ctx : Context)
    (mux : ServeMux) (server : NetworkServiceServer) (client : NetworkServiceClient)
    (hmux : mux.handlers = []) :
    (∀ x : NetworkMethod,
      x.pattern.ops = [⟨2, 0⟩, ⟨2, 1⟩, ⟨2, 2⟩, ⟨2, 3⟩] ∧ x.pattern.pool.length = 4 ∧
        x.pattern.literals = x.pattern.pool) ∧
    (∀ (x : NetworkMethod) (components : List String) (verb : String),
      (∃ bindings, x.pattern.Match components verb = .ok bindings)
        ↔ (verb = "" ∧ components = x.pattern.pool)) ∧
    (∀ r ∈ (RegisterNetworkServiceHandlerServer rt ctx mux server).1.handlers ++
        (RegisterNetworkServiceHandlerClient rt ctx mux client).1.handlers,
      ∀ verb, r.pat.Match ["api", "v1", "network", "doesnotexist"] verb
        = .error runtime.ErrNotMatch) := by
  refine ⟨?_, ?_, ?_⟩
  · intro x
    cases x <;> decide
  · intro x components verb
    obtain ⟨action, hp, _⟩ := x.pattern_eq
    rw [hp, Match_four_literals]
    by_cases h : verb = "" ∧ components = ["api", "v1", "network", action]
    · simp [h]
    · simp only [h, if_false, iff_false]
      rintro ⟨b, hb⟩
      cases hb
  · intro r hr verb
    rw [RegisterNetworkServiceHandlerServer_handlers,
      RegisterNetworkServiceHandlerClient_handlers, hmux] at hr
    simp only [List.nil_append, List.mem_append, List.mem_map] at hr
    have key : ∀ x : NetworkMethod,
        x.pattern.Match ["api", "v1", "network", "doesnotexist"] verb
          = .error runtime.ErrNotMatch := by
      intro x
      obtain ⟨action, hp, hne⟩ := x.pattern_eq
      rw [hp, Match_four_literals]
      have hne2 : ¬ ("doesnotexist" = action) := fun h => hne h.symm
      simp [hne2]
    rcases hr with ⟨x, _, rfl⟩ | ⟨x, _, rfl⟩ <;> exact key x

/-- C15, worked example (scenario 4 of the spec): on the example mux, the path
`api/v1/network/doesnotexist` does not match the pattern of the first route the
remote registration function registers. -/
theorem NetworkService_pattern_matches_only_its_pool_witness :
    pattern_NetworkService_Create_0.Match ["api", "v1", "network", "doesnotexist"] ""
      = .error runtime.ErrNotMatch :=
  (NetworkService_pattern_matches_only_its_pool exampleRuntime (.root "registration")
    exampleMux exampleServer exampleClient rfl).2.2
    { meth := "POST", pat := pattern_NetworkService_Create_0
      h := handler_NetworkService exampleRuntime .Create exampleMux exampleClient }
    (by
      rw [RegisterNetworkServiceHandlerServer_handlers,
        RegisterNetworkServiceHandlerClient_handlers]
      simp only [List.mem_append, List.mem_map]
      exact Or.inr (Or.inr ⟨.Create, by simp [networkMethods], rfl⟩))
    ""

/-! ### Registration from an endpoint (C16) -/

/-- C16: `RegisterNetworkServiceHandlerFromEndpoint` and
`RegisterVPNServiceHandlerFromEndpoint` return a non-nil error exactly when the
dial fails.  When the dial fails with `e`, they return `e`, leave the mux as it
was and do nothing with a connection.  When the dial gives `conn`, they leave
the mux as `Register...Handler` leaves it, return `nil`, and the only thing done
with the connection is to start the goroutine that closes it when the context
is done: `conn.Close()` is not called before the function returns. -/
theorem FromEndpoint_fails_iff_dial_fails (rt : Runtime) (Dial : Dialer) (ctx : Context)
    (mux : ServeMux) (endpoint : String) (opts : List DialOption) :
    (((RegisterNetworkServiceHandlerFromEndpoint rt Dial ctx mux endpoint opts).1.2 ≠ none
        ↔ ∃ e, Dial endpoint opts = .error e) ∧
      (∀ e, Dial endpoint opts = .error e →
        RegisterNetworkServiceHandlerFromEndpoint rt Dial ctx mux endpoint opts
          = ((mux, some e), [])) ∧
      (∀ conn, Dial endpoint opts = .ok conn →
        RegisterNetworkServiceHandlerFromEndpoint rt Dial ctx mux endpoint opts
          = (((RegisterNetworkServiceHandler rt ctx mux conn).1, none),
              [.goCloseWhenDone ctx]))) ∧
    (((RegisterVPNServiceHandlerFromEndpoint Dial ctx mux endpoint opts).1.2 ≠ none
        ↔ ∃ e, Dial endpoint opts = .error e) ∧
      (∀ e, Dial endpoint opts = .error e →
        RegisterVPNServiceHandlerFromEndpoint Dial ctx mux endpoint opts
          = ((mux, some e), [])) ∧
      (∀ conn, Dial endpoint opts = .ok conn →
        RegisterVPNServiceHandlerFromEndpoint Dial ctx mux endpoint opts
          = (((RegisterVPNServiceHandler ctx mux conn).1, none), [.goCloseWhenDone ctx]))) := by
  have hn : ∀ conn, (RegisterNetworkServiceHandler rt ctx mux conn).2 = none := fun _ => rfl
  have hv : ∀ conn, (RegisterVPNServiceHandler ctx mux conn).2 = none := fun _ => rfl
  rcases hd : Dial endpoint opts with e | conn
  · simp [RegisterNetworkServiceHandlerFromEndpoint, RegisterVPNServiceHandlerFromEndpoint, hd]
  · simp [RegisterNetworkServiceHandlerFromEndpoint, RegisterVPNServiceHandlerFromEndpoint, hd,
      closeOrWatch, hn, hv]

/-- C16, worked example: with the example dialer, the endpoint `localhost:9090`
gets the three VPNService routes and a nil error, and the endpoint `nowhere`
gets the dial error and no route. -/
theorem FromEndpoint_fails_iff_dial_fails_witness :
    RegisterVPNServiceHandlerFromEndpoint exampleDial (.root "registration") exampleMux
        "localhost:9090" []
      = (((RegisterVPNServiceHandler (.root "registration") exampleMux exampleConn).1, none),
          [.goCloseWhenDone (.root "registration")]) ∧
    RegisterVPNServiceHandlerFromEndpoint exampleDial (.root "registration") exampleMux
        "nowhere" []
      = ((exampleMux, some (Error.errorString "connection refused")), []) :=
  ⟨(FromEndpoint_fails_iff_dial_fails exampleRuntime exampleDial (.root "registration")
      exampleMux "localhost:9090" []).2.2.2 exampleConn rfl,
    (FromEndpoint_fails_iff_dial_fails exampleRuntime exampleDial (.root "registration")
      exampleMux "nowhere" []).2.2.1 (Error.errorString "connection refused") rfl⟩

/-! ### The two registration modes side by side (C17, C18) -/

/-- The routes a registration function added are what remains of the table
after the routes that were there before. -/
theorem drop_handlers_append (t1 t2 : List Route) : (t1 ++ t2).drop t1.length = t2 := by
  simp

/-- C17: `RegisterNetworkServiceHandlerServer` and
`RegisterNetworkServiceHandlerClient` add the same sequence of seven routes:
POST create, GET list, POST delete, GET getalltypes, GET getassociatedusers,
POST associate, POST dissociate, each with the pattern of its method.  The
handler of the route of method `x` is the local, respectively remote, handler of
`x`: it annotates the context, calls the local, respectively remote, request
function of `x` (whose invocation is recorded under the name of `x`), and ends
with the same forwarder, `runtime.ForwardResponseMessage`, which all seven
forwarder variables are. -/
theorem local_and_remote_register_the_same_routes (rt : Runtime) (ctx : Context)
    (mux : ServeMux) (server : NetworkServiceServer) (client : NetworkServiceClient) :
    (((RegisterNetworkServiceHandlerServer rt ctx mux server).1.handlers.drop
          mux.handlers.length).map (fun r => (r.meth, r.pat))
        = [("POST", pattern_NetworkService_Create_0), ("GET", pattern_NetworkService_List_0),
            ("POST", pattern_NetworkService_Delete_0),
            ("GET", pattern_NetworkService_GetAllTypes_0),
            ("GET", pattern_NetworkService_GetAssociatedUsers_0),
            ("POST", pattern_NetworkService_Associate_0),
            ("POST", pattern_NetworkService_Dissociate_0)]) ∧
    (((RegisterNetworkServiceHandlerClient rt ctx mux client).1.handlers.drop
          mux.handlers.length).map (fun r => (r.meth, r.pat))
        = ((RegisterNetworkServiceHandlerServer rt ctx mux server).1.handlers.drop
          mux.handlers.length).map (fun r => (r.meth, r.pat))) ∧
    (networkMethods.map (fun x => (x.meth, x.pattern.literals, x.name))
        = [("POST", ["api", "v1", "network", "create"], "NetworkService.Create"),
            ("GET", ["api", "v1", "network", "list"], "NetworkService.List"),
            ("POST", ["api", "v1", "network", "delete"], "NetworkService.Delete"),
            ("GET", ["api", "v1", "network", "getalltypes"], "NetworkService.GetAllTypes"),
            ("GET", ["api", "v1", "network", "getassociatedusers"],
              "NetworkService.GetAssociatedUsers"),
            ("POST", ["api", "v1", "network", "associate"], "NetworkService.Associate"),
            ("POST", ["api", "v1", "network", "dissociate"], "NetworkService.Dissociate")]) ∧
    (((RegisterNetworkServiceHandlerServer rt ctx mux server).1.handlers.drop
          mux.handlers.length).map (fun r => r.h)
        = networkMethods.map (fun x => handler_local_NetworkService rt x mux server)) ∧
    (((RegisterNetworkServiceHandlerClient rt ctx mux client).1.handlers.drop
          mux.handlers.length).map (fun r => r.h)
        = networkMethods.map (fun x => handler_NetworkService rt x mux client)) ∧
    (∀ x w req pathParams s,
      handler_local_NetworkService rt x mux server w req pathParams s =
        match runtime.AnnotateIncomingContext
          (.NewContextWithServerTransportStream (.WithCancel req.Context)) mux req with
        | .error err =>
          context.cancel (.WithCancel req.Context)
            (runtime.HTTPError (.NewContextWithServerTransportStream (.WithCancel req.Context))
              err { s with stream := {} })
        | .ok rctx =>
          match local_request_NetworkService rt x rctx (runtime.MarshalerForRequest mux req).1
            server req pathParams { s with stream := {} } with
          | ((resp, md, err), s1) =>
            match err with
            | some err =>
              context.cancel (.WithCancel req.Context)
                (runtime.HTTPError
                  (.NewServerMetadataContext
                    (.NewContextWithServerTransportStream (.WithCancel req.Context))
                    { HeaderMD := metadata.Join md.HeaderMD s1.stream.Header
                      TrailerMD := metadata.Join md.TrailerMD s1.stream.Trailer }) err s1)
            | none =>
              context.cancel (.WithCancel req.Context)
                (runtime.ForwardResponseMessage
                  (.NewServerMetadataContext
                    (.NewContextWithServerTransportStream (.WithCancel req.Context))
                    { HeaderMD := metadata.Join md.HeaderMD s1.stream.Header
                      TrailerMD := metadata.Join md.TrailerMD s1.stream.Trailer }) resp s1)) ∧
    (∀ x w req pathParams s,
      handler_NetworkService rt x mux client w req pathParams s =
        match runtime.AnnotateContext (.WithCancel req.Context) mux req with
        | .error err =>
          context.cancel (.WithCancel req.Context)
            (runtime.HTTPError (.WithCancel req.Context) err s)
        | .ok rctx =>
          match request_NetworkService rt x rctx (runtime.MarshalerForRequest mux req).1
            client req pathParams s with
          | ((resp, md, err), s1) =>
            match err with
            | some err =>
              context.cancel (.WithCancel req.Context)
                (runtime.HTTPError
                  (.NewServerMetadataContext (.WithCancel req.Context) md) err s1)
            | none =>
              context.cancel (.WithCancel req.Context)
                (runtime.ForwardResponseMessage
                  (.NewServerMetadataContext (.WithCancel req.Context) md) resp s1)) ∧
    (∀ f ∈ [forward_NetworkService_Create_0, forward_NetworkService_List_0,
        forward_NetworkService_Delete_0, forward_NetworkService_GetAllTypes_0,
        forward_NetworkService_GetAssociatedUsers_0, forward_NetworkService_Associate_0,
        forward_NetworkService_Dissociate_0], f = runtime.ForwardResponseMessage) := by
  refine ⟨?_, ?_, ?_, ?_, ?_, ?_, ?_, ?_⟩
  · rw [RegisterNetworkServiceHandlerServer_handlers, drop_handlers_append]
    rfl
  · rw [RegisterNetworkServiceHandlerServer_handlers,
      RegisterNetworkServiceHandlerClient_handlers, drop_handlers_append, drop_handlers_append]
    rfl
  · decide
  · rw [RegisterNetworkServiceHandlerServer_handlers, drop_handlers_append]
    rfl
  · rw [RegisterNetworkServiceHandlerClient_handlers, drop_handlers_append]
    rfl
  · intro x w req pathParams s
    rw [handler_local_NetworkService_eq]
    rfl
  · intro x w req pathParams s
    rw [handler_NetworkService_eq]
    rfl
  · intro f hf
    simp only [List.mem_cons, List.mem_singleton, List.not_mem_nil, or_false] at hf
    rcases hf with rfl | rfl | rfl | rfl | rfl | rfl | rfl <;> rfl

/-- C17, worked example: the forwarder of the `Create` route is
`runtime.ForwardResponseMessage`. -/
theorem local_and_remote_register_the_same_routes_witness :
    forward_NetworkService_Create_0 = runtime.ForwardResponseMessage :=
  (local_and_remote_register_the_same_routes exampleRuntime (.root "registration")
    exampleMux exampleServer exampleClient).2.2.2.2.2.2.2 _ (List.mem_cons_self _ _)

/-- The request functions of the body-bearing NetworkService methods and of the
VPNService methods give different results on the empty body and on the
malformed body `{`. -/
theorem POST_request_functions_read_the_body (rt : Runtime) :
    (∀ x : NetworkMethod, x.hasBody = true →
      ReadsBody (request_NetworkService rt x) ∧ ReadsBody (local_request_NetworkService rt x)) ∧
    (∀ y : VPNMethod, ReadsBody (request_VPNService y)) := by
  refine ⟨?_, ?_⟩
  · intro x hx
    refine ⟨⟨.root "rpc", exampleMarshaler, exampleClient, {}, { data := [123] }, [], {}, ?_⟩,
      ⟨.root "rpc", exampleMarshaler, exampleServer, {}, { data := [123] }, [], {}, ?_⟩⟩ <;>
    cases x <;> simp [NetworkMethod.hasBody] at hx <;>
      simp only [request_NetworkService, local_request_NetworkService] <;> decide
  · intro y
    refine ⟨.root "rpc", exampleMarshaler, NewVPNServiceClient exampleConn, {},
      { data := [123] }, [], {}, ?_⟩
    cases y <;> decide

/-- The request functions of the body-bearing NetworkService methods and of the
VPNService methods give different results on the body `{}` with a marshaler
that decodes it and with one that refuses it. -/
theorem POST_request_functions_use_the_marshaler (rt : Runtime) :
    (∀ x : NetworkMethod, x.hasBody = true →
      UsesMarshaler (request_NetworkService rt x) ∧
        UsesMarshaler (local_request_NetworkService rt x)) ∧
    (∀ y : VPNMethod, UsesMarshaler (request_VPNService y)) := by
  refine ⟨?_, ?_⟩
  · intro x hx
    refine ⟨⟨.root "rpc", exampleMarshaler, refusingMarshaler, exampleClient,
        { Body := { data := [123, 125] } }, [], {}, ?_⟩,
      ⟨.root "rpc", exampleMarshaler, refusingMarshaler, exampleServer,
        { Body := { data := [123, 125] } }, [], {}, ?_⟩⟩ <;>
    cases x <;> simp [NetworkMethod.hasBody] at hx <;>
      simp only [request_NetworkService, local_request_NetworkService] <;> decide
  · intro y
    refine ⟨.root "rpc", exampleMarshaler, refusingMarshaler, NewVPNServiceClient exampleConn,
      { Body := { data := [123, 125] } }, [], {}, ?_⟩
    cases y <;> decide

/-- The form of a request whose method is none of POST, PUT and PATCH does not
change with the body. -/
theorem ParseForm_ignores_body (rt : Runtime) (req : Request) (body : Reader)
    (h : ¬ (req.Method = "POST" ∨ req.Method = "PUT" ∨ req.Method = "PATCH")) :
    Request.ParseForm { req with Body := body } rt = req.ParseForm rt := by
  simp [Request.ParseForm, h]

/-- The request functions of `GetAssociatedUsers` look at the request through
its parsed form only. -/
theorem GetAssociatedUsers_depends_on_form (rt : Runtime) (c : Context)
    (marshaler marshaler2 : Marshaler) (client : NetworkServiceClient)
    (server : NetworkServiceServer) (req req2 : Request) (pathParams pathParams2 : PathParams)
    (s : State) (h : req.ParseForm rt = req2.ParseForm rt) :
    request_NetworkService rt .GetAssociatedUsers c marshaler client req pathParams s
        = request_NetworkService rt .GetAssociatedUsers c marshaler2 client req2 pathParams2 s ∧
      local_request_NetworkService rt .GetAssociatedUsers c marshaler server req pathParams s
        = local_request_NetworkService rt .GetAssociatedUsers c marshaler2 server req2
          pathParams2 s := by
  simp only [request_NetworkService, local_request_NetworkService,
    request_NetworkService_GetAssociatedUsers_0,
    local_request_NetworkService_GetAssociatedUsers_0, h, and_self]

/-- C18, as stated, fails: the route of `GetAssociatedUsers` is registered under
GET, yet its request function calls `req.ParseForm()`, which parses the body of
a POST request whose content type is `application/x-www-form-urlencoded`.  For
two such requests that differ in the body alone (`network=lan1` and
`network=lan2`), the service is handed different requests, so the request
function does read the body. -/
theorem GetAssociatedUsers_reads_the_body_of_a_form_POST :
    NetworkMethod.GetAssociatedUsers.meth = "GET" ∧
    formPOST "network=lan2" = { formPOST "network=lan1" with Body := { data := bytes "network=lan2" } } ∧
    (request_NetworkService exampleRuntime .GetAssociatedUsers (.root "rpc") exampleMarshaler
        exampleClient (formPOST "network=lan1") [] {}).2.trace
      = [.clientCall "NetworkService.GetAssociatedUsers" (.root "rpc")
          { type := .NetworkGetAssociatedUsersRequest, fields := [("network", "lan1")] }
          callOptions] ∧
    (request_NetworkService exampleRuntime .GetAssociatedUsers (.root "rpc") exampleMarshaler
        exampleClient (formPOST "network=lan2") [] {}).2.trace
      = [.clientCall "NetworkService.GetAssociatedUsers" (.root "rpc")
          { type := .NetworkGetAssociatedUsersRequest, fields := [("network", "lan2")] }
          callOptions] ∧
    (local_request_NetworkService exampleRuntime .GetAssociatedUsers (.root "rpc")
        exampleMarshaler exampleServer (formPOST "network=lan1") [] {}).2.trace
      ≠ (local_request_NetworkService exampleRuntime .GetAssociatedUsers (.root "rpc")
        exampleMarshaler exampleServer (formPOST "network=lan2") [] {}).2.trace ∧
    ReadsBody (request_NetworkService exampleRuntime .GetAssociatedUsers) ∧
    ReadsBody (local_request_NetworkService exampleRuntime .GetAssociatedUsers) := by
  refine ⟨by decide, by decide, by decide, by decide, by decide,
    ⟨.root "rpc", exampleMarshaler, exampleClient, formPOST "network=lan1",
      { data := bytes "network=lan2" }, [], {}, by decide⟩,
    ⟨.root "rpc", exampleMarshaler, exampleServer, formPOST "network=lan1",
      { data := bytes "network=lan2" }, [], {}, by decide⟩⟩

/-- C18, amended: the routes are registered under the verb of their method (all
VPNService routes under POST); a NetworkService method is registered under POST
exactly when its request function, local or remote, decodes the request body
with the marshaler, and every VPNService request function does; the request
functions of the methods registered under GET give the same result for any
other marshaler; `List` and `GetAllTypes` bind the zero-valued request whatever
the marshaler, request and path parameters are, so they never fail binding,
never read the body and always invoke their target once with the zero-valued
request; the request functions of `GetAssociatedUsers` look at the request
through its parsed form only, so they give the same result for any other body
when the method of the request is none of POST, PUT and PATCH (a GET request in
particular). -/
theorem POST_iff_request_function_decodes_body (rt : Runtime) (ctx : Context) (mux : ServeMux)
    (server : NetworkServiceServer) (client : NetworkServiceClient) (conn : ClientConn) :
    (((RegisterNetworkServiceHandlerServer rt ctx mux server).1.handlers.drop
          mux.handlers.length).map (fun r => r.meth) = networkMethods.map (fun x => x.meth)) ∧
    (((RegisterNetworkServiceHandlerClient rt ctx mux client).1.handlers.drop
          mux.handlers.length).map (fun r => r.meth) = networkMethods.map (fun x => x.meth)) ∧
    (((RegisterVPNServiceHandler ctx mux conn).1.handlers.drop
          mux.handlers.length).map (fun r => r.meth) = ["POST", "POST", "POST"]) ∧
    (∀ x : NetworkMethod, x.meth = "POST" ∨ x.meth = "GET") ∧
    (∀ x : NetworkMethod, x.meth = "POST" ↔ DecodesBody (request_NetworkService rt x)) ∧
    (∀ x : NetworkMethod, x.meth = "POST" ↔ DecodesBody (local_request_NetworkService rt x)) ∧
    (∀ y : VPNMethod, DecodesBody (request_VPNService y)) ∧
    (∀ x : NetworkMethod, x.meth = "GET" →
      ∀ c marshaler marshaler2 req pathParams s,
        request_NetworkService rt x c marshaler client req pathParams s
            = request_NetworkService rt x c marshaler2 client req pathParams s ∧
          local_request_NetworkService rt x c marshaler server req pathParams s
            = local_request_NetworkService rt x c marshaler2 server req pathParams s) ∧
    (∀ x : NetworkMethod, x = .List ∨ x = .GetAllTypes →
      ∀ c marshaler marshaler2 req req2 pathParams pathParams2 s,
        bind_NetworkService rt x marshaler req = .ok x.requestType.zero ∧
          (request_NetworkService rt x c marshaler client req pathParams s).2.trace
            = s.trace ++ [.clientCall x.name c x.requestType.zero callOptions] ∧
          (local_request_NetworkService rt x c marshaler server req pathParams s).2.trace
            = s.trace ++ [.serverCall x.name c x.requestType.zero] ∧
          request_NetworkService rt x c marshaler client req pathParams s
            = request_NetworkService rt x c marshaler2 client req2 pathParams2 s ∧
          local_request_NetworkService rt x c marshaler server req pathParams s
            = local_request_NetworkService rt x c marshaler2 server req2 pathParams2 s) ∧
    (∀ c marshaler marshaler2 req req2 pathParams pathParams2 s,
      req.ParseForm rt = req2.ParseForm rt →
        request_NetworkService rt .GetAssociatedUsers c marshaler client req pathParams s
            = request_NetworkService rt .GetAssociatedUsers c marshaler2 client req2
              pathParams2 s ∧
          local_request_NetworkService rt .GetAssociatedUsers c marshaler server req
              pathParams s
            = local_request_NetworkService rt .GetAssociatedUsers c marshaler2 server req2
              pathParams2 s) ∧
    (∀ c marshaler req body pathParams s,
      ¬ (req.Method = "POST" ∨ req.Method = "PUT" ∨ req.Method = "PATCH") →
        request_NetworkService rt .GetAssociatedUsers c marshaler client req pathParams s
            = request_NetworkService rt .GetAssociatedUsers c marshaler client
              { req with Body := body } pathParams s ∧
          local_request_NetworkService rt .GetAssociatedUsers c marshaler server req
              pathParams s
            = local_request_NetworkService rt .GetAssociatedUsers c marshaler server
              { req with Body := body } pathParams s) := by
  have hread := POST_request_functions_read_the_body rt
  have huse := POST_request_functions_use_the_marshaler rt
  refine ⟨?_, ?_, ?_, ?_, ?_, ?_, fun y => ⟨hread.2 y, huse.2 y⟩, ?_, ?_, ?_, ?_⟩
  · rw [RegisterNetworkServiceHandlerServer_handlers, drop_handlers_append]
    rfl
  · rw [RegisterNetworkServiceHandlerClient_handlers, drop_handlers_append]
    rfl
  · rw [RegisterVPNServiceHandler_handlers, drop_handlers_append]
    rfl
  · intro x
    cases x <;> decide
  · intro x
    constructor
    · intro hx
      have hb : x.hasBody = true := by cases x <;> first | rfl | exact absurd hx (by decide)
      exact ⟨(hread.1 x hb).1, (huse.1 x hb).1⟩
    · rintro ⟨-, c, m, m2, target, req, pathParams, s, h⟩
      cases x <;> first | rfl | exact absurd rfl h
  · intro x
    constructor
    · intro hx
      have hb : x.hasBody = true := by cases x <;> first | rfl | exact absurd hx (by decide)
      exact ⟨(hread.1 x hb).2, (huse.1 x hb).2⟩
    · rintro ⟨-, c, m, m2, target, req, pathParams, s, h⟩
      cases x <;> first | rfl | exact absurd rfl h
  · intro x hx c marshaler marshaler2 req pathParams s
    cases x <;> first | exact absurd hx (by decide) | exact ⟨rfl, rfl⟩
  · intro x hx c marshaler marshaler2 req req2 pathParams pathParams2 s
    rcases hx with rfl | rfl <;> exact ⟨rfl, rfl, rfl, rfl, rfl⟩
  · intro c marshaler marshaler2 req req2 pathParams pathParams2 s h
    exact GetAssociatedUsers_depends_on_form rt c marshaler marshaler2 client server req req2
      pathParams pathParams2 s h
  · intro c marshaler req body pathParams s h
    exact GetAssociatedUsers_depends_on_form rt c marshaler marshaler client server req
      { req with Body := body } pathParams pathParams s (ParseForm_ignores_body rt req body h).symm

/-- C18, amended, worked example: the GET request
`/api/v1/network/getassociatedusers?network=lan1` gives the same result with
the body `network=lan2` as without a body. -/
theorem POST_iff_request_function_decodes_body_witness :
    ¬ (("GET" : String) = "POST" ∨ ("GET" : String) = "PUT" ∨ ("GET" : String) = "PATCH") ∧
    request_NetworkService exampleRuntime .GetAssociatedUsers (.root "rpc") exampleMarshaler
        exampleClient { Method := "GET", RawQuery := "network=lan1" } [] {}
      = request_NetworkService exampleRuntime .GetAssociatedUsers (.root "rpc") exampleMarshaler
        exampleClient
        { Method := "GET", RawQuery := "network=lan1", Body := { data := bytes "network=lan2" } }
        [] {} :=
  ⟨by decide,
    ((POST_iff_request_function_decodes_body exampleRuntime (.root "registration") exampleMux
      exampleServer exampleClient exampleConn).2.2.2.2.2.2.2.2.2.2 (.root "rpc")
      exampleMarshaler { Method := "GET", RawQuery := "network=lan1" }
      { data := bytes "network=lan2" } [] {} (by decide)).1⟩

/-! ### The command line action (C19, C20) -/

/-- The confirmation loop never makes the `Update` call. -/
theorem confirm_events_not_update (stdin : List (Except Error String)) :
    ∀ e ∈ (vpnUpdateAction.confirm stdin).2, e.isUpdate = false := by
  induction stdin with
  | nil =>
    intro e he
    simp [vpnUpdateAction.confirm, promptRound] at he
    rcases he with rfl | rfl | rfl | rfl | rfl | rfl | rfl <;> rfl
  | cons a rest ih =>
    intro e he
    rcases a with err | response
    · simp [vpnUpdateAction.confirm, promptRound] at he
      rcases he with rfl | rfl | rfl | rfl | rfl | rfl | rfl <;> rfl
    · simp only [vpnUpdateAction.confirm] at he
      split_ifs at he
      · simp [promptRound] at he
        rcases he with rfl | rfl | rfl | rfl | rfl <;> rfl
      · simp [promptRound] at he
        rcases he with rfl | rfl | rfl | rfl | rfl <;> rfl
      · simp only [List.mem_append] at he
        rcases he with he | he
        · simp [promptRound] at he
          rcases he with rfl | rfl | rfl | rfl | rfl <;> rfl
        · exact ih e he

/-- The netCIDR block never makes the `Update` call. -/
theorem targetNetCIDR_events_not_update (env : CLIEnv) (stdin : List (Except Error String))
    (netCIDR : Option String) :
    ∀ e ∈ (vpnUpdateAction.targetNetCIDR env stdin netCIDR).2, e.isUpdate = false := by
  intro e he
  unfold vpnUpdateAction.targetNetCIDR at he
  rcases netCIDR with _ | cidr
  · simp at he
  · by_cases hc : env.IsCIDR cidr = true
    · have hev := confirm_events_not_update stdin
      rcases hr : vpnUpdateAction.confirm stdin with ⟨r, events⟩
      rw [hr] at hev
      cases r <;> simp [hc, hr] at he <;> exact hev e he
    · simp [hc] at he

/-- C19, as stated, fails: with both arguments provided and both invalid, the
action returns the NotCIDR error of the first check, not the NotIPv4 error. -/
theorem invalid_dnsAddr_does_not_always_give_NotIPv4 :
    exampleCLIEnv.IsIPv4 "not-an-address" = false ∧
    vpnUpdateAction exampleCLIEnv [] "grpc://localhost:9090" (some "not-a-network")
        (some "not-an-address") none
      = (.returned (some (.NotCIDR "not-a-network")), [.Close]) ∧
    (vpnUpdateAction exampleCLIEnv [] "grpc://localhost:9090" (some "not-a-network")
        (some "not-an-address") none).1 ≠ .returned (some (.NotIPv4 "not-an-address")) := by
  decide

/-- C19, amended: once the connection is established, the `Update` call is made
only if every provided argument is valid; a provided netCIDR that is not a
valid CIDR makes the action return the NotCIDR error with nothing done but
closing the connection; a provided dnsAddr that is not a valid IPv4 address
means that `Update` is not called, and the action returns the NotIPv4 error
whenever it has not already returned in the netCIDR step (netCIDR is absent, or
is valid and the user confirmed). -/
theorem update_needs_valid_arguments (env : CLIEnv) (stdin : List (Except Error String))
    (rpcServURLStr : String) (netCIDR dnsAddr : Option String) (useLzo : Option Bool)
    (rpcSrvURL : URL) (rpcConn : RPCConn)
    (hurl : env.urlParse rpcServURLStr = .ok rpcSrvURL)
    (hconn : env.grpcConnect rpcSrvURL = .ok rpcConn) :
    ((∃ e ∈ (vpnUpdateAction env stdin rpcServURLStr netCIDR dnsAddr useLzo).2,
        e.isUpdate = true) →
      (∀ c, netCIDR = some c → env.IsCIDR c = true) ∧
        (∀ d, dnsAddr = some d → env.IsIPv4 d = true)) ∧
    (∀ c, netCIDR = some c → env.IsCIDR c = false →
      vpnUpdateAction env stdin rpcServURLStr netCIDR dnsAddr useLzo
        = (.returned (some (.NotCIDR c)), [.Close])) ∧
    (∀ d, dnsAddr = some d → env.IsIPv4 d = false →
      (∀ e ∈ (vpnUpdateAction env stdin rpcServURLStr netCIDR dnsAddr useLzo).2,
        e.isUpdate = false) ∧
      ((netCIDR = none ∨ ∃ c, netCIDR = some c ∧ env.IsCIDR c = true ∧
          (vpnUpdateAction.confirm stdin).1 = .proceed) →
        (vpnUpdateAction env stdin rpcServURLStr netCIDR dnsAddr useLzo).1
          = .returned (some (.NotIPv4 d)))) := by
  have hev := targetNetCIDR_events_not_update env stdin netCIDR
  refine ⟨?_, ?_, ?_⟩
  · rintro ⟨e, he, hup⟩
    simp only [vpnUpdateAction, hurl, hconn] at he
    constructor
    · intro c hc
      subst hc
      by_contra hbad
      simp [vpnUpdateAction.targetNetCIDR, hbad] at he
      rw [he] at hup
      cases hup
    · intro d hd
      subst hd
      by_contra hbad
      rcases hn : vpnUpdateAction.targetNetCIDR env stdin netCIDR with
        ⟨(err | _) | t, events⟩ <;>
        rw [hn] at hev <;>
        simp [hn, vpnUpdateAction.targetDNSAddr, hbad] at he
      · rcases he with he | he
        · rw [hev e he] at hup
          cases hup
        · rw [he] at hup
          cases hup
      · rw [hev e he] at hup
        cases hup
      · rcases he with he | he
        · rw [hev e he] at hup
          cases hup
        · rw [he] at hup
          cases hup
  · intro c hc hbad
    subst hc
    simp [vpnUpdateAction, hurl, hconn, vpnUpdateAction.targetNetCIDR, hbad]
  · intro d hd hbad
    subst hd
    constructor
    · intro e he
      simp only [vpnUpdateAction, hurl, hconn] at he
      rcases hn : vpnUpdateAction.targetNetCIDR env stdin netCIDR with
        ⟨(err | _) | t, events⟩ <;>
        rw [hn] at hev <;>
        simp [hn, vpnUpdateAction.targetDNSAddr, hbad] at he
      · rcases he with he | he
        · exact hev e he
        · rw [he]
          rfl
      · exact hev e he
      · rcases he with he | he
        · exact hev e he
        · rw [he]
          rfl
    · intro hpass
      rcases hpass with hnone | ⟨c, hc, hvalid, hproceed⟩
      · subst hnone
        simp [vpnUpdateAction, hurl, hconn, vpnUpdateAction.targetNetCIDR,
          vpnUpdateAction.targetDNSAddr, hbad]
      · subst hc
        rcases hr : vpnUpdateAction.confirm stdin with ⟨r, events⟩
        rw [hr] at hproceed
        simp only at hproceed
        subst hproceed
        simp [vpnUpdateAction, hurl, hconn, vpnUpdateAction.targetNetCIDR,
          vpnUpdateAction.targetDNSAddr, hbad, hvalid, hr]

/-- C19 amended, worked example: with no netCIDR and the invalid dnsAddr
`not-an-address`, the action returns the NotIPv4 error. -/
theorem update_needs_valid_arguments_witness :
    (vpnUpdateAction exampleCLIEnv [] "grpc://localhost:9090" none (some "not-an-address")
        none).1 = .returned (some (.NotIPv4 "not-an-address")) :=
  ((update_needs_valid_arguments exampleCLIEnv [] "grpc://localhost:9090" none
    (some "not-an-address") none { raw := "grpc://localhost:9090" }
    { Update := fun _ _ => none } rfl rfl).2.2 "not-an-address" rfl rfl).2 (Or.inl rfl)

/-- Membership in a slice, as `stringInSlice` reports it. -/
theorem stringInSlice_iff (a : String) (list : List String) :
    stringInSlice a list = true ↔ a ∈ list := by
  simp [stringInSlice]

/-- Every run of the confirmation loop starts with a prompt. -/
theorem confirm_starts_with_prompt (stdin : List (Except Error String)) :
    ∃ events, (vpnUpdateAction.confirm stdin).2 = promptRound ++ events := by
  rcases stdin with _ | ⟨err | response, rest⟩
  · exact ⟨_, rfl⟩
  · exact ⟨_, rfl⟩
  · simp only [vpnUpdateAction.confirm]
    split_ifs
    · exact ⟨[], by simp⟩
    · exact ⟨[], by simp⟩
    · exact ⟨_, rfl⟩

/-- The confirmation loop ends with `proceed` only when, after answers that are
neither accepting nor rejecting, an accepting answer was read. -/
theorem confirm_proceed (stdin : List (Except Error String))
    (h : (vpnUpdateAction.confirm stdin).1 = .proceed) :
    ∃ (pre : List String) (a : String) (rest : List (Except Error String)),
      stdin = pre.map Except.ok ++ Except.ok a :: rest ∧ a ∈ okayResponses ∧
        ∀ b ∈ pre, b ∉ okayResponses ∧ b ∉ nokayResponses := by
  induction stdin with
  | nil => simp [vpnUpdateAction.confirm] at h
  | cons x rest ih =>
    rcases x with err | response
    · simp [vpnUpdateAction.confirm] at h
    · by_cases hok : response ∈ okayResponses
      · exact ⟨[], response, rest, rfl, hok, by simp⟩
      · by_cases hno : response ∈ nokayResponses
        · simp [vpnUpdateAction.confirm, stringInSlice_iff, hok, hno] at h
        · simp only [vpnUpdateAction.confirm, stringInSlice_iff, hok, hno, if_false] at h
          obtain ⟨pre, a, rest2, hs, ha, hpre⟩ := ih h
          refine ⟨response :: pre, a, rest2, by simp [hs], ha, ?_⟩
          intro b hb
          rcases List.mem_cons.mp hb with rfl | hb
          · exact ⟨hok, hno⟩
          · exact hpre b hb

/-- After an answer that is neither accepting nor rejecting, the action goes on
as on the remaining input, one round of the prompt later. -/
theorem vpnUpdateAction_undecided (env : CLIEnv) (rest : List (Except Error String))
    (rpcServURLStr : String) (cidr : String) (dnsAddr : Option String) (useLzo : Option Bool)
    (rpcSrvURL : URL) (rpcConn : RPCConn)
    (hurl : env.urlParse rpcServURLStr = .ok rpcSrvURL)
    (hconn : env.grpcConnect rpcSrvURL = .ok rpcConn)
    (hvalid : env.IsCIDR cidr = true) (a : String)
    (hok : a ∉ okayResponses) (hno : a ∉ nokayResponses) :
    vpnUpdateAction env (.ok a :: rest) rpcServURLStr (some cidr) dnsAddr useLzo
      = ((vpnUpdateAction env rest rpcServURLStr (some cidr) dnsAddr useLzo).1,
          promptRound ++ (vpnUpdateAction env rest rpcServURLStr (some cidr) dnsAddr useLzo).2) := by
  simp only [vpnUpdateAction, hurl, hconn, vpnUpdateAction.targetNetCIDR, hvalid,
    vpnUpdateAction.confirm, stringInSlice_iff, hok, hno, Bool.not_true, Bool.false_eq_true,
    if_false]
  rcases hr : vpnUpdateAction.confirm rest with ⟨r, events⟩
  cases r
  · rcases hd : vpnUpdateAction.targetDNSAddr env dnsAddr with err | addr
    · simp
    · rcases hu : rpcConn.Update context.Background
        { IpBlock := cidr, Dns := addr, LzoPref := vpnUpdateAction.targetLZOPref useLzo }
        with _ | err <;> simp [hu]
  · simp
  · simp

/-- With a valid netCIDR, every run of the action starts with a round of the
prompt. -/
theorem vpnUpdateAction_starts_with_prompt (env : CLIEnv) (stdin : List (Except Error String))
    (rpcServURLStr : String) (cidr : String) (dnsAddr : Option String) (useLzo : Option Bool)
    (rpcSrvURL : URL) (rpcConn : RPCConn)
    (hurl : env.urlParse rpcServURLStr = .ok rpcSrvURL)
    (hconn : env.grpcConnect rpcSrvURL = .ok rpcConn)
    (hvalid : env.IsCIDR cidr = true) :
    ∃ tail, (vpnUpdateAction env stdin rpcServURLStr (some cidr) dnsAddr useLzo).2
      = promptRound ++ tail := by
  obtain ⟨ev, hev⟩ := confirm_starts_with_prompt stdin
  simp only [vpnUpdateAction, hurl, hconn, vpnUpdateAction.targetNetCIDR, hvalid,
    Bool.not_true, Bool.false_eq_true, if_false]
  rcases hr : vpnUpdateAction.confirm stdin with ⟨r, events⟩
  rw [hr] at hev
  simp only at hev
  subst hev
  cases r
  · rcases hd : vpnUpdateAction.targetDNSAddr env dnsAddr with err | addr
    · exact ⟨_, List.append_assoc _ _ _⟩
    · rcases hu : rpcConn.Update context.Background
        { IpBlock := cidr, Dns := addr, LzoPref := vpnUpdateAction.targetLZOPref useLzo }
        with _ | err
      · simp only [hu]
        exact ⟨_, List.append_assoc _ _ _⟩
      · simp only [hu]
        exact ⟨_, List.append_assoc _ _ _⟩
  · exact ⟨_, List.append_assoc _ _ _⟩
  · exact ⟨_, rfl⟩

/-- C20: in `vpnUpdateAction` with the connection established and a provided,
valid netCIDR.  (1) The `Update` call is made only if, after answers that are
neither accepting nor rejecting, the user gave one of the answers y, Y, yes,
Yes, YES.  (2) After such an answer to the first prompt the loop ends: the run
is the four lines of the prompt and the read, then events that are no prompt,
the first of which is the `Update` call when the dnsAddr is absent or valid.
(3) An answer among n, N, no, No, NO makes the action return the error "user
decided to cancel" after the prompt, with no `Update` call.  (4) Any other
answer is followed by another prompt: the run is one round of the prompt
followed by the run on the remaining input, which starts with a round of the
prompt again.  (5) The accepting answers are y, Y, yes, Yes, YES, the rejecting
ones n, N, no, No, NO, and no answer is both.  (6) When netCIDR is not provided
the action prints no prompt and reads nothing. -/
theorem confirmation_gates_update (env : CLIEnv) (stdin : List (Except Error String))
    (rpcServURLStr : String) (cidr : String) (dnsAddr : Option String) (useLzo : Option Bool)
    (rpcSrvURL : URL) (rpcConn : RPCConn)
    (hurl : env.urlParse rpcServURLStr = .ok rpcSrvURL)
    (hconn : env.grpcConnect rpcSrvURL = .ok rpcConn)
    (hvalid : env.IsCIDR cidr = true) :
    ((∃ e ∈ (vpnUpdateAction env stdin rpcServURLStr (some cidr) dnsAddr useLzo).2,
        e.isUpdate = true) →
      ∃ (pre : List String) (a : String) (rest : List (Except Error String)),
        stdin = pre.map Except.ok ++ Except.ok a :: rest ∧ a ∈ ["y", "Y", "yes", "Yes", "YES"] ∧
          ∀ b ∈ pre, b ∉ ["y", "Y", "yes", "Yes", "YES"] ∧ b ∉ ["n", "N", "no", "No", "NO"]) ∧
    (∀ a rest, a ∈ ["y", "Y", "yes", "Yes", "YES"] →
      ∃ tail, (vpnUpdateAction env (.ok a :: rest) rpcServURLStr (some cidr) dnsAddr useLzo).2
          = [.Println "If you proceed, you will loose all your static ip definitions.",
            .Println "Any user that is defined to have a static ip will be set to be dynamic again.",
            .Println "", .Println "Are you sure ? (y/N)", .Scanln] ++ tail ∧
        (∀ e ∈ tail, e.isPrompt = false) ∧
        ((dnsAddr = none ∨ ∃ d, dnsAddr = some d ∧ env.IsIPv4 d = true) →
          tail.head? = some (.Update context.Background
            { IpBlock := cidr, Dns := dnsAddr.getD "",
              LzoPref := vpnUpdateAction.targetLZOPref useLzo }))) ∧
    (∀ a rest, a ∈ ["n", "N", "no", "No", "NO"] →
      vpnUpdateAction env (.ok a :: rest) rpcServURLStr (some cidr) dnsAddr useLzo
        = (.returned (some (.Errorf "user decided to cancel")),
          [.Println "If you proceed, you will loose all your static ip definitions.",
            .Println "Any user that is defined to have a static ip will be set to be dynamic again.",
            .Println "", .Println "Are you sure ? (y/N)", .Scanln] ++ [.Close])) ∧
    (∀ a rest, a ∉ ["y", "Y", "yes", "Yes", "YES"] → a ∉ ["n", "N", "no", "No", "NO"] →
      vpnUpdateAction env (.ok a :: rest) rpcServURLStr (some cidr) dnsAddr useLzo
          = ((vpnUpdateAction env rest rpcServURLStr (some cidr) dnsAddr useLzo).1,
            [.Println "If you proceed, you will loose all your static ip definitions.",
            .Println "Any user that is defined to have a static ip will be set to be dynamic again.",
            .Println "", .Println "Are you sure ? (y/N)", .Scanln] ++
              (vpnUpdateAction env rest rpcServURLStr (some cidr) dnsAddr useLzo).2) ∧
        ∃ tail, (vpnUpdateAction env rest rpcServURLStr (some cidr) dnsAddr useLzo).2
          = [.Println "If you proceed, you will loose all your static ip definitions.",
            .Println "Any user that is defined to have a static ip will be set to be dynamic again.",
            .Println "", .Println "Are you sure ? (y/N)", .Scanln] ++ tail) ∧
    (∀ a, (stringInSlice a okayResponses = true ↔ a ∈ ["y", "Y", "yes", "Yes", "YES"]) ∧
      (stringInSlice a nokayResponses = true ↔ a ∈ ["n", "N", "no", "No", "NO"]) ∧
      ¬ (a ∈ ["y", "Y", "yes", "Yes", "YES"] ∧ a ∈ ["n", "N", "no", "No", "NO"])) ∧
    (∀ e ∈ (vpnUpdateAction env stdin rpcServURLStr none dnsAddr useLzo).2,
      e.isPrompt = false) := by
  have hdisj : ∀ a, ¬ (a ∈ okayResponses ∧ a ∈ nokayResponses) := by
    intro a
    simp only [okayResponses, nokayResponses, List.mem_cons, List.mem_singleton,
      List.not_mem_nil, or_false]
    rintro ⟨rfl | rfl | rfl | rfl | rfl, h⟩ <;> revert h <;> decide
  refine ⟨?_, ?_, ?_, ?_, ?_, ?_⟩
  · rintro ⟨e, he, hup⟩
    apply confirm_proceed
    have hev := confirm_events_not_update stdin
    simp only [vpnUpdateAction, hurl, hconn, vpnUpdateAction.targetNetCIDR, hvalid,
      Bool.not_true, Bool.false_eq_true, if_false] at he
    rcases hr : vpnUpdateAction.confirm stdin with ⟨r, events⟩
    rw [hr] at he hev
    cases r
    · rfl
    · simp only [List.mem_append, List.mem_singleton] at he
      rcases he with he | he
      · rw [hev e he] at hup
        cases hup
      · rw [he] at hup
        cases hup
    · rw [hev e he] at hup
      cases hup
  · intro a rest ha
    have ha2 : a ∈ okayResponses := ha
    simp only [vpnUpdateAction, hurl, hconn, vpnUpdateAction.targetNetCIDR, hvalid,
      vpnUpdateAction.confirm, stringInSlice_iff, ha2, Bool.not_true, Bool.false_eq_true,
      if_false, if_true]
    rcases dnsAddr with _ | d
    · rcases hu : rpcConn.Update context.Background
        { IpBlock := cidr, Dns := "", LzoPref := vpnUpdateAction.targetLZOPref useLzo }
        with _ | err
      all_goals
        apply Exists.intro
        refine ⟨?_, ?_, ?_⟩
        · simp only [vpnUpdateAction.targetDNSAddr, hu]
          rfl
        · intro e he
          simp only [List.mem_cons, List.mem_singleton, List.not_mem_nil, or_false] at he
          rcases he with rfl | rfl | rfl <;> rfl
        · intro _
          rfl
    · by_cases hv : env.IsIPv4 d = true
      · rcases hu : rpcConn.Update context.Background
          { IpBlock := cidr, Dns := d, LzoPref := vpnUpdateAction.targetLZOPref useLzo }
          with _ | err
        all_goals
          apply Exists.intro
          refine ⟨?_, ?_, ?_⟩
          · simp only [vpnUpdateAction.targetDNSAddr, hv, Bool.not_true, Bool.false_eq_true,
              if_false, hu]
            rfl
          · intro e he
            simp only [List.mem_cons, List.mem_singleton, List.not_mem_nil, or_false] at he
            rcases he with rfl | rfl | rfl <;> rfl
          · intro _
            rfl
      · have hv2 : env.IsIPv4 d = false := by simpa using hv
        refine ⟨[.Close], by simp [vpnUpdateAction.targetDNSAddr, hv2, promptRound], ?_, ?_⟩
        · intro e he
          simp only [List.mem_singleton] at he
          subst he
          rfl
        · rintro (h | ⟨d2, h, hd2⟩)
          · cases h
          · cases h
            rw [hd2] at hv2
            cases hv2
  · intro a rest ha
    have ha2 : a ∈ nokayResponses := ha
    have hnot : a ∉ okayResponses := fun hok => hdisj a ⟨hok, ha2⟩
    simp [vpnUpdateAction, hurl, hconn, vpnUpdateAction.targetNetCIDR, hvalid,
      vpnUpdateAction.confirm, stringInSlice_iff, ha2, hnot, promptRound]
  · intro a rest hok hno
    exact ⟨vpnUpdateAction_undecided env rest rpcServURLStr cidr dnsAddr useLzo rpcSrvURL
        rpcConn hurl hconn hvalid a hok hno,
      vpnUpdateAction_starts_with_prompt env rest rpcServURLStr cidr dnsAddr useLzo rpcSrvURL
        rpcConn hurl hconn hvalid⟩
  · intro a
    exact ⟨stringInSlice_iff a okayResponses, stringInSlice_iff a nokayResponses, hdisj a⟩
  · intro e he
    simp only [vpnUpdateAction, hurl, hconn, vpnUpdateAction.targetNetCIDR] at he
    rcases hd : vpnUpdateAction.targetDNSAddr env dnsAddr with err | addr
    · simp [hd] at he
      rw [he]
      rfl
    · rcases hu : rpcConn.Update context.Background
        { IpBlock := "", Dns := addr, LzoPref := vpnUpdateAction.targetLZOPref useLzo }
        with _ | err <;>
        simp [hd, hu] at he <;>
        rcases he with rfl | rfl | rfl <;> rfl

/-- C20, worked example: with the valid netCIDR `10.9.0.0/24`, the answer `maybe`
is followed by a second prompt, and the answer `y` to it is followed by the
`Update` call; the answer `no` makes the action return "user decided to cancel"
after one prompt, without an `Update` call. -/
theorem confirmation_gates_update_witness :
    (vpnUpdateAction exampleCLIEnv [.ok "maybe", .ok "y"] "grpc://localhost:9090"
        (some "10.9.0.0/24") none none
      = ((vpnUpdateAction exampleCLIEnv [.ok "y"] "grpc://localhost:9090"
            (some "10.9.0.0/24") none none).1,
          [.Println "If you proceed, you will loose all your static ip definitions.",
            .Println "Any user that is defined to have a static ip will be set to be dynamic again.",
            .Println "", .Println "Are you sure ? (y/N)", .Scanln] ++
            (vpnUpdateAction exampleCLIEnv [.ok "y"] "grpc://localhost:9090"
              (some "10.9.0.0/24") none none).2)) ∧
    vpnUpdateAction exampleCLIEnv [.ok "y"] "grpc://localhost:9090" (some "10.9.0.0/24")
        none none
      = (.returned none,
          [.Println "If you proceed, you will loose all your static ip definitions.",
            .Println "Any user that is defined to have a static ip will be set to be dynamic again.",
            .Println "", .Println "Are you sure ? (y/N)", .Scanln] ++
            [.Update context.Background
                { IpBlock := "10.9.0.0/24", Dns := "", LzoPref := .USE_LZO_NOPREF },
              .Infoln [("SERVER", "OpenVPN"), ("CIDR", "10.9.0.0/24"), ("DNS", ""),
                ("USE_LZO", "USE_LZO_NOPREF")] "changes applied",
              .Close]) ∧
    vpnUpdateAction exampleCLIEnv [.ok "no"] "grpc://localhost:9090" (some "10.9.0.0/24")
        none none
      = (.returned (some (.Errorf "user decided to cancel")),
          [.Println "If you proceed, you will loose all your static ip definitions.",
            .Println "Any user that is defined to have a static ip will be set to be dynamic again.",
            .Println "", .Println "Are you sure ? (y/N)", .Scanln] ++ [.Close]) :=
  have h := confirmation_gates_update exampleCLIEnv [.ok "maybe", .ok "y"]
    "grpc://localhost:9090" "10.9.0.0/24" none none { raw := "grpc://localhost:9090" }
    { Update := fun _ _ => none } rfl rfl rfl
  ⟨(h.2.2.2.1 "maybe" [.ok "y"] (by decide) (by decide)).1, by decide,
    h.2.2.1 "no" [] (by decide)⟩

/-! ### The request sent to `Update` (C21) -/

/-- When the netCIDR block passes, `targetNetCIDR` is the provided netCIDR, or
the empty string when it is absent. -/
theorem targetNetCIDR_ok (env : CLIEnv) (stdin : List (Except Error String))
    (netCIDR : Option String) (t : String) (events : List CLIEvent)
    (h : vpnUpdateAction.targetNetCIDR env stdin netCIDR = (.ok t, events)) :
    t = netCIDR.getD "" := by
  unfold vpnUpdateAction.targetNetCIDR at h
  rcases netCIDR with _ | cidr
  · simp at h
    exact h.1.symm
  · by_cases hc : env.IsCIDR cidr = true
    · rcases hr : vpnUpdateAction.confirm stdin with ⟨r, ev⟩
      cases r <;> simp [hc, hr] at h
      exact h.1.symm
    · simp [hc] at h

/-- When the dnsAddr block passes, `targetDNSAddr` is the provided dnsAddr, or
the empty string when it is absent. -/
theorem targetDNSAddr_ok (env : CLIEnv) (dnsAddr : Option String) (d : String)
    (h : vpnUpdateAction.targetDNSAddr env dnsAddr = .ok d) : d = dnsAddr.getD "" := by
  unfold vpnUpdateAction.targetDNSAddr at h
  rcases dnsAddr with _ | addr
  · simp at h
    exact h.symm
  · by_cases hv : env.IsIPv4 addr = true
    · simp [hv] at h
      exact h.symm
    · simp [hv] at h

/-- The USE-LZO block computes the preference the description states. -/
theorem targetLZOPref_eq (useLzo : Option Bool) :
    vpnUpdateAction.targetLZOPref useLzo = expectedLZOPref useLzo := by
  rcases useLzo with _ | _ | _ <;> rfl

/-- C21: in `vpnUpdateAction` with the connection established, every `Update`
call is made with `context.Background()` and with the request whose IpBlock is
the provided netCIDR or the empty string, whose Dns is the provided dnsAddr or
the empty string, and whose LzoPref is USE_LZO_NOPREF when useLzo is absent,
USE_LZO_ENABLE when it is true and USE_LZO_DISABLE when it is false; when the
netCIDR step and the dnsAddr step pass, the call is made exactly once; the
three preference values are distinct, so the mapping from useLzo to LzoPref is
injective. -/
theorem update_request_is_determined_by_arguments (env : CLIEnv)
    (stdin : List (Except Error String)) (rpcServURLStr : String)
    (netCIDR dnsAddr : Option String) (useLzo : Option Bool)
    (rpcSrvURL : URL) (rpcConn : RPCConn)
    (hurl : env.urlParse rpcServURLStr = .ok rpcSrvURL)
    (hconn : env.grpcConnect rpcSrvURL = .ok rpcConn) :
    (∀ e ∈ (vpnUpdateAction env stdin rpcServURLStr netCIDR dnsAddr useLzo).2,
      e.isUpdate = true →
        e = .Update context.Background (expectedUpdateRequest netCIDR dnsAddr useLzo)) ∧
    ((netCIDR = none ∨ ∃ c, netCIDR = some c ∧ env.IsCIDR c = true ∧
        (vpnUpdateAction.confirm stdin).1 = .proceed) →
      (dnsAddr = none ∨ ∃ d, dnsAddr = some d ∧ env.IsIPv4 d = true) →
      (vpnUpdateAction env stdin rpcServURLStr netCIDR dnsAddr useLzo).2.filter
          CLIEvent.isUpdate
        = [.Update context.Background (expectedUpdateRequest netCIDR dnsAddr useLzo)]) ∧
    ((expectedUpdateRequest netCIDR dnsAddr useLzo).IpBlock
        = (match netCIDR with
          | some c => c
          | none => "") ∧
      (expectedUpdateRequest netCIDR dnsAddr useLzo).Dns
        = (match dnsAddr with
          | some d => d
          | none => "")) ∧
    (vpnUpdateAction.targetLZOPref none = .USE_LZO_NOPREF ∧
      vpnUpdateAction.targetLZOPref (some true) = .USE_LZO_ENABLE ∧
      vpnUpdateAction.targetLZOPref (some false) = .USE_LZO_DISABLE) ∧
    (VPNLZOPref.USE_LZO_NOPREF ≠ .USE_LZO_ENABLE ∧
      VPNLZOPref.USE_LZO_NOPREF ≠ .USE_LZO_DISABLE ∧
      VPNLZOPref.USE_LZO_ENABLE ≠ .USE_LZO_DISABLE) ∧
    Function.Injective vpnUpdateAction.targetLZOPref := by
  have hev := targetNetCIDR_events_not_update env stdin netCIDR
  have hnot : ∀ events : List CLIEvent, (∀ e ∈ events, e.isUpdate = false) →
      events.filter CLIEvent.isUpdate = [] := by
    intro events h
    induction events with
    | nil => rfl
    | cons a rest ih =>
      have ha := h a (List.mem_cons_self a rest)
      have hrest := ih (fun e he => h e (List.mem_cons_of_mem a he))
      simp [List.filter_cons, ha, hrest]
  refine ⟨?_, ?_, ?_, ⟨rfl, rfl, rfl⟩, by decide, ?_⟩
  · intro e he hup
    simp only [vpnUpdateAction, hurl, hconn] at he
    rcases hn : vpnUpdateAction.targetNetCIDR env stdin netCIDR with
      ⟨(err | _) | t, events⟩
    · rw [hn] at hev
      simp only [hn, List.mem_append, List.mem_singleton] at he
      rcases he with he | he
      · rw [hev e he] at hup
        cases hup
      · rw [he] at hup
        cases hup
    · rw [hn] at hev
      simp only [hn] at he
      rw [hev e he] at hup
      cases hup
    · rw [hn] at hev
      have ht := targetNetCIDR_ok env stdin netCIDR t events hn
      rcases hd : vpnUpdateAction.targetDNSAddr env dnsAddr with err | d
      · simp only [hn, hd, List.mem_append, List.mem_singleton] at he
        rcases he with he | he
        · rw [hev e he] at hup
          cases hup
        · rw [he] at hup
          cases hup
      · have hdd := targetDNSAddr_ok env dnsAddr d hd
        have hreq : VPNUpdateRequest.mk t d (vpnUpdateAction.targetLZOPref useLzo)
            = expectedUpdateRequest netCIDR dnsAddr useLzo := by
          rw [ht, hdd, targetLZOPref_eq]
          rfl
        rcases hu : rpcConn.Update context.Background
          { IpBlock := t, Dns := d, LzoPref := vpnUpdateAction.targetLZOPref useLzo }
          with _ | err <;>
          simp only [hn, hd, hu, List.mem_append, List.mem_cons, List.mem_singleton,
            List.not_mem_nil, or_false] at he <;>
          rcases he with he | he | he | he
        · rw [hev e he] at hup
          cases hup
        · rw [he, hreq]
        · rw [he] at hup
          cases hup
        · rw [he] at hup
          cases hup
        · rw [hev e he] at hup
          cases hup
        · rw [he, hreq]
        · rw [he] at hup
          cases hup
        · rw [he] at hup
          cases hup
  · intro hnet hdns
    have hn : ∃ events, vpnUpdateAction.targetNetCIDR env stdin netCIDR
        = (.ok (netCIDR.getD ""), events) := by
      rcases hnet with rfl | ⟨c, rfl, hvalid, hproceed⟩
      · exact ⟨[], rfl⟩
      · rcases hr : vpnUpdateAction.confirm stdin with ⟨r, events⟩
        rw [hr] at hproceed
        simp only at hproceed
        subst hproceed
        exact ⟨events, by simp [vpnUpdateAction.targetNetCIDR, hvalid, hr]⟩
    have hd : vpnUpdateAction.targetDNSAddr env dnsAddr = .ok (dnsAddr.getD "") := by
      rcases hdns with rfl | ⟨d, rfl, hvalid⟩
      · rfl
      · simp [vpnUpdateAction.targetDNSAddr, hvalid]
    obtain ⟨events, hn⟩ := hn
    rw [hn] at hev
    have hf := hnot events hev
    have hreq : VPNUpdateRequest.mk (netCIDR.getD "") (dnsAddr.getD "")
          (vpnUpdateAction.targetLZOPref useLzo)
        = expectedUpdateRequest netCIDR dnsAddr useLzo := by
      rw [targetLZOPref_eq]
      rfl
    simp only [vpnUpdateAction, hurl, hconn, hn, hd]
    rcases hu : rpcConn.Update context.Background
      (VPNUpdateRequest.mk (netCIDR.getD "") (dnsAddr.getD "")
        (vpnUpdateAction.targetLZOPref useLzo)) with _ | err <;>
      simp [List.filter_append, hf, List.filter_cons, CLIEvent.isUpdate, hreq]
  · constructor
    · cases netCIDR <;> rfl
    · cases dnsAddr <;> rfl
  · intro a b hab
    rcases a with _ | _ | _ <;> rcases b with _ | _ | _ <;> first | rfl | cases hab

/-- C21, worked example: with the valid netCIDR `10.9.0.0/24` confirmed by `y`,
the valid dnsAddr `8.8.8.8` and useLzo false, the one `Update` call carries
exactly these values and USE_LZO_DISABLE. -/
theorem update_request_is_determined_by_arguments_witness :
    (vpnUpdateAction exampleCLIEnv [.ok "y"] "grpc://localhost:9090" (some "10.9.0.0/24")
        (some "8.8.8.8") (some false)).2.filter CLIEvent.isUpdate
      = [.Update context.Background
          { IpBlock := "10.9.0.0/24", Dns := "8.8.8.8", LzoPref := .USE_LZO_DISABLE }] :=
  (update_request_is_determined_by_arguments exampleCLIEnv [.ok "y"] "grpc://localhost:9090"
    (some "10.9.0.0/24") (some "8.8.8.8") (some false) { raw := "grpc://localhost:9090" }
    { Update := fun _ _ => none } rfl rfl).2.1
    (Or.inr ⟨"10.9.0.0/24", rfl, rfl, rfl⟩) (Or.inr ⟨"8.8.8.8", rfl, rfl⟩)

end Ovpm
